import Mathlib

/-!
# mediator: composite log-likelihood engine

A shallow embedding of `src/baseLogLikelihood.cpp` (the engine with the periodic
domain and the raw-parameter mapping) and the properties of its distance matrix,
periodic neighbourhood and objective assembly.

Scalars (`double`) are elements of a linearly ordered field `α`; every theorem
is stated for all such fields, `ℚ` is used for concrete evaluations.  Where the
rounding of the machine decides a property (the periodic distance of a pair
depends on which of the two points is replaced by its images), the geometry is
repeated with a rounding function applied after every operation
(`Rounded.SetInputs`), and `roundDouble` is the rounding of IEEE 754 binary64 on
`ℚ`.  Library
routines whose value is not given by field operations (`std::sqrt`, `std::pow`,
`tgamma`, `std::isfinite`, the Gauss-Kronrod quadrature, `arma::log_det`,
`arma::inv`) and the members that the translation unit uses but does not define
(`RetrieveAlphaFromParameters`, `EvaluateLFunction`, ...) are the fields of an
environment `Env`.  Vectors are lists, a read past the end of a list yields `0`.
Loop counters are natural numbers (no input of a size near `2 ^ 32` is
considered).
-/

namespace Mediator

/-! ## Matrices and vectors -/

/-- Dense matrix in the manner of `arma::mat`: the two dimensions and the entries. -/
structure Mat (α : Type) where
  n_rows : Nat
  n_cols : Nat
  elem : Nat → Nat → α

/-- Assignment `M(i, j) = v`. -/
def Mat.set {α : Type} (M : Mat α) (i j : Nat) (v : α) : Mat α :=
  { M with elem := fun a b => if a = i ∧ b = j then v else M.elem a b }

/-- Resizing, `M.set_size(r, c)`. -/
def Mat.set_size {α : Type} (M : Mat α) (r c : Nat) : Mat α :=
  { M with n_rows := r, n_cols := c }

/-- Filling, `M.fill(v)`. -/
def Mat.fill {α : Type} (M : Mat α) (v : α) : Mat α :=
  { M with elem := fun _ _ => v }

/-- Row extraction, `M.row(i)`. -/
def Mat.row {α : Type} (M : Mat α) (i : Nat) : List α :=
  (List.range M.n_cols).map (M.elem i)

/-- The rows of a matrix as a list of lists. -/
def Mat.toLists {α : Type} (M : Mat α) : List (List α) :=
  (List.range M.n_rows).map (fun i => (List.range M.n_cols).map (M.elem i))

/-- A matrix declared as `arma::mat M(r, c)`: Armadillo (from version 10.5) sets
the elements of such a matrix to zero. -/
def Mat.zeros {α : Type} [LinearOrderedField α] (r c : Nat) : Mat α :=
  { n_rows := r, n_cols := c, elem := fun _ _ => 0 }

/-- Componentwise difference of two vectors, `a - b`. -/
def vsub {α : Type} [LinearOrderedField α] (a b : List α) : List α :=
  List.zipWith (fun p q => p - q) a b

/-- Euclidean norm of a vector, `arma::norm(v)`, over a given square root. -/
def norm {α : Type} [LinearOrderedField α] (sqrt : α → α) (v : List α) : α :=
  sqrt ((v.map (fun c => c * c)).sum)

/-! ## Periodic neighbourhood -/

/-- One pass of the outer loop of `SetNeighborhood`: every vector of the work
list is pushed three times, with `-1`, `0` and `1` added to component `i`. -/
def neighborhoodStep (nb : List (List Int)) (i : Nat) : List (List Int) :=
  nb.flatMap (fun workVec =>
    ([-1, 0, 1] : List Int).map (fun k => workVec.set i (workVec.getD i 0 + k)))

/-- The list `m_Neighborhood` left by `SetNeighborhood(n)`. -/
def SetNeighborhood (n : Nat) : List (List Int) :=
  (List.range n).foldl neighborhoodStep [List.replicate n 0]

/-! ## Engine state -/

/-- The member variables of the engine of `baseLogLikelihood.cpp`. -/
structure Engine (α : Type) where
  m_DomainDimension : Nat
  m_SampleSize : Nat
  m_PointLabels : List Nat
  m_DomainVolume : α
  m_Neighborhood : List (List Int)
  m_DistanceMatrix : Mat α
  m_UsePeriodicDomain : Bool
  m_EstimateIntensities : Bool
  m_FirstIntensity : α
  m_SecondIntensity : α
  m_FirstAmplitude : α
  m_SecondAmplitude : α
  m_NormalizedCrossAmplitude : α
  m_CrossBeta : α
  m_NormalizedFirstAlpha : α
  m_NormalizedSecondAlpha : α
  m_FirstAlpha : α
  m_SecondAlpha : α
  m_InverseCrossAlpha : α
  m_CrossAmplitude : α
  m_Modified : Bool
  m_Integral : α
  m_LogDeterminant : α
  m_GradientIntegral : List α
  m_GradientLogDeterminant : List α
  m_ConstraintVector : List α

/-- The values handed to the integrand object by the setters in `GetIntegral`. -/
structure BaseIntegrand (α : Type) where
  FirstAlpha : α
  SecondAlpha : α
  InverseCrossAlpha : α
  FirstAmplitude : α
  SecondAmplitude : α
  CrossAmplitude : α
  DomainDimension : Nat

/-- The five functions of the integrand that `GetIntegral` integrates. -/
inductive IntegrandMember where
  | Value
  | DerivativeWRTFirstAlpha
  | DerivativeWRTCrossAlpha
  | DerivativeWRTSecondAlpha
  | DerivativeWRTCrossIntensity
  deriving DecidableEq

/-- Library routines and members defined outside the translation unit. -/
structure Env (α : Type) where
  /-- The function `std::sqrt`. -/
  sqrt : α → α
  /-- The function `std::pow`. -/
  pow : α → α → α
  /-- The function `boost::math::tgamma`. -/
  tgamma : α → α
  /-- The constant `M_PI`. -/
  pi : α
  /-- The test `std::isfinite`. -/
  isfinite : α → Bool
  /-- The constant `DBL_MAX`. -/
  DBL_MAX : α
  /-- Content of storage that has been allocated or resized and not yet written. -/
  uninit : Nat → α
  RetrieveAlphaFromParameters : α → α → Nat → α
  RetrieveIntensityFromParameters : α → α → Nat → α
  GetCrossAlphaLowerBound : Engine α → α
  /-- The feasibility check of the model family: verdict and constraint vector. -/
  CheckModelParameters : Engine α → Bool × List α
  EvaluateLFunction : α → α → α → α → α → Nat → α
  EvaluateL12Function : α → α → α → α → α → Nat → α
  /-- Gauss-Kronrod quadrature over `[0, ∞)` of one function of the integrand. -/
  integrate : IntegrandMember → BaseIntegrand α → α
  /-- The value written by `arma::log_det`. -/
  log_det : Mat α → α
  /-- The result of `arma::inv`, `none` when it throws on a singular matrix. -/
  inv : Mat α → Option (Mat α)

/-! ## Geometry: `GetTrialVectors` and `SetInputs` -/

/-- The inner loop of `GetTrialVectors`: the image of `x` under one offset. -/
def trialVector {α : Type} [LinearOrderedField α] (dim : Nat) (x lb ub : List α)
    (workNeighborhood : List Int) : List α :=
  (List.range dim).foldl
    (fun workVector j =>
      workVector.set j
        (workVector.getD j 0 + ((workNeighborhood.getD j 0 : Int) : α) * (ub.getD j 0 - lb.getD j 0)))
    x

/-- The periodic images of `x`, one for each offset of `m_Neighborhood`. -/
def GetTrialVectors {α : Type} [LinearOrderedField α] (s : Engine α) (x lb ub : List α) :
    List (List α) :=
  s.m_Neighborhood.map (trialVector s.m_DomainDimension x lb ub)

/-- The loop over the trial vectors in `SetInputs`: the running minimum of the
distances to `workVec2`, the first distance being taken unconditionally. -/
def periodicDistance {α : Type} [LinearOrderedField α] (env : Env α)
    (trialVectors : List (List α)) (workVec2 : List α) : α :=
  (List.range trialVectors.length).foldl
    (fun workDistance k =>
      let testDistance := norm env.sqrt (vsub (trialVectors.getD k []) workVec2)
      if testDistance < workDistance ∨ k = 0 then testDistance else workDistance)
    0

/-- The value `workDistance` computed in `SetInputs` for the pair `(i, j)`. -/
def workDistance {α : Type} [LinearOrderedField α] (env : Env α) (s : Engine α)
    (points : Mat α) (lb ub : List α) (i j : Nat) : α :=
  if s.m_UsePeriodicDomain then
    periodicDistance env (GetTrialVectors s (points.row i) lb ub) (points.row j)
  else
    norm env.sqrt (vsub (points.row i) (points.row j))

/-- The double loop that writes both triangles of a symmetric matrix: `i` runs
over the rows, `j` from `i + 1` to `n - 1`. -/
def fillPairs {α : Type} (n : Nat) (v : Nat → Nat → α) (M : Mat α) : Mat α :=
  (List.range n).foldl
    (fun M i =>
      (List.range' (i + 1) (n - (i + 1))).foldl
        (fun M j => (M.set i j (v i j)).set j i (v i j)) M)
    M

/-- The operation `BaseLogLikelihood::SetInputs(points, labels, lb, ub)`. -/
def SetInputs {α : Type} [LinearOrderedField α] (env : Env α) (points : Mat α)
    (labels : List Nat) (lb ub : List α) (s : Engine α) : Engine α :=
  let s1 : Engine α :=
    { s with
      m_DomainDimension := points.n_cols
      m_SampleSize := points.n_rows
      m_PointLabels := labels
      m_DomainVolume :=
        (List.range points.n_cols).foldl (fun vol i => vol * (ub.getD i 0 - lb.getD i 0)) 1 }
  let s2 : Engine α := { s1 with m_Neighborhood := SetNeighborhood s1.m_DomainDimension }
  let M0 := (s2.m_DistanceMatrix.set_size s2.m_SampleSize s2.m_SampleSize).fill 0
  { s2 with
    m_DistanceMatrix := fillPairs s2.m_SampleSize (workDistance env s2 points lb ub) M0 }

/-- The setter `SetUsePeriodicDomain`. -/
def SetUsePeriodicDomain {α : Type} (x : Bool) (s : Engine α) : Engine α :=
  { s with m_UsePeriodicDomain := x }

/-! ## Parameter mapping -/

/-- The function `GetNumberOfParameters`. -/
def GetNumberOfParameters {α : Type} (s : Engine α) : Nat :=
  if s.m_EstimateIntensities then 4 + 2 else 4

/-- The operation `SetIntensities(rho1, rho2)`. -/
def SetIntensities {α : Type} (rho1 rho2 : α) (s : Engine α) : Engine α :=
  { s with m_FirstIntensity := rho1, m_SecondIntensity := rho2, m_EstimateIntensities := false }

/-- The block `// Set k1` of `SetModelParameters`. -/
def SetModelParameters_k1 {α : Type} [LinearOrderedField α] (env : Env α) (params : List α)
    (s : Engine α) : Engine α :=
  let workScalar := params.getD 0 0
  if s.m_FirstAmplitude ≠ workScalar then
    { s with
      m_FirstAmplitude := workScalar
      m_FirstAlpha :=
        if !s.m_EstimateIntensities then
          env.RetrieveAlphaFromParameters workScalar s.m_FirstIntensity s.m_DomainDimension
        else s.m_FirstAlpha
      m_Modified := true }
  else s

/-- The block `// Set k2` of `SetModelParameters`. -/
def SetModelParameters_k2 {α : Type} [LinearOrderedField α] (env : Env α) (params : List α)
    (s : Engine α) : Engine α :=
  let workScalar := params.getD 1 0
  if s.m_SecondAmplitude ≠ workScalar then
    { s with
      m_SecondAmplitude := workScalar
      m_SecondAlpha :=
        if !s.m_EstimateIntensities then
          env.RetrieveAlphaFromParameters workScalar s.m_SecondIntensity s.m_DomainDimension
        else s.m_SecondAlpha
      m_Modified := true }
  else s

/-- The block `// Set k12star` of `SetModelParameters`. -/
def SetModelParameters_k12star {α : Type} [LinearOrderedField α] (params : List α)
    (s : Engine α) : Engine α :=
  let workScalar := params.getD 2 0
  if s.m_NormalizedCrossAmplitude ≠ workScalar then
    { s with m_NormalizedCrossAmplitude := workScalar, m_Modified := true }
  else s

/-- The block `// Set beta12` of `SetModelParameters`. -/
def SetModelParameters_beta12 {α : Type} [LinearOrderedField α] (params : List α)
    (s : Engine α) : Engine α :=
  let workScalar := params.getD 3 0
  if s.m_CrossBeta ≠ workScalar then
    { s with m_CrossBeta := workScalar, m_Modified := true }
  else s

/-- The block `// Set alpha_i_star` of `SetModelParameters`, entered only when
the intensities are estimated. -/
def SetModelParameters_alpha {α : Type} [LinearOrderedField α] (env : Env α) (params : List α)
    (s : Engine α) : Engine α :=
  if s.m_EstimateIntensities then
    let gammaValue := env.tgamma (1 + (s.m_DomainDimension : α) / 2)
    let upperBound := env.pow (s.m_DomainVolume / gammaValue) (1 / (s.m_DomainDimension : α))
    let upperBound := upperBound / env.sqrt (2 * env.pi / (s.m_DomainDimension : α))
    let s1 : Engine α :=
      if s.m_NormalizedFirstAlpha ≠ params.getD 4 0 then
        { s with
          m_NormalizedFirstAlpha := params.getD 4 0
          m_FirstAlpha := params.getD 4 0 * upperBound
          m_Modified := true }
      else s
    if s1.m_NormalizedSecondAlpha ≠ params.getD 5 0 then
      { s1 with
        m_NormalizedSecondAlpha := params.getD 5 0
        m_SecondAlpha := params.getD 5 0 * upperBound
        m_Modified := true }
    else s1
  else s

/-- The closing block `if (m_Modified)` of `SetModelParameters`. -/
def SetModelParameters_finish {α : Type} [LinearOrderedField α] (env : Env α)
    (s : Engine α) : Engine α :=
  if s.m_Modified then
    let s1 : Engine α :=
      { s with m_InverseCrossAlpha := s.m_CrossBeta / env.GetCrossAlphaLowerBound s }
    let upperBound := (1 - s1.m_FirstAmplitude) * (1 - s1.m_SecondAmplitude)
    let upperBound := min upperBound (s1.m_FirstAmplitude * s1.m_SecondAmplitude)
    let upperBound := max upperBound 0
    let upperBound := env.sqrt upperBound
    let s2 : Engine α := { s1 with m_CrossAmplitude := s1.m_NormalizedCrossAmplitude * upperBound }
    if s2.m_EstimateIntensities then
      { s2 with
        m_FirstIntensity :=
          env.RetrieveIntensityFromParameters s2.m_FirstAmplitude s2.m_FirstAlpha
            s2.m_DomainDimension
        m_SecondIntensity :=
          env.RetrieveIntensityFromParameters s2.m_SecondAmplitude s2.m_SecondAlpha
            s2.m_DomainDimension }
    else s2
  else s

/-- The member `BaseLogLikelihood::SetModelParameters(params)`. -/
def SetModelParameters {α : Type} [LinearOrderedField α] (env : Env α) (params : List α)
    (s : Engine α) : Engine α :=
  SetModelParameters_finish env
    (SetModelParameters_alpha env params
      (SetModelParameters_beta12 params
        (SetModelParameters_k12star params
          (SetModelParameters_k2 env params
            (SetModelParameters_k1 env params { s with m_Modified := false })))))

/-! ## Integral and log-determinant terms -/

/-- Resizing of a vector, `v.set_size(n)`: the storage is kept when the size is
already `n`, and is unwritten otherwise. -/
def vecSetSize {α : Type} (env : Env α) (v : List α) (n : Nat) : List α :=
  if v.length = n then v else (List.range n).map env.uninit

/-- The member `BaseLogLikelihood::GetIntegral`: the value returned and the
state with `m_GradientIntegral` written. -/
def GetIntegral {α : Type} [LinearOrderedField α] (env : Env α) (s : Engine α) :
    α × Engine α :=
  let integrand : BaseIntegrand α :=
    { FirstAlpha := s.m_FirstAlpha
      SecondAlpha := s.m_SecondAlpha
      InverseCrossAlpha := s.m_InverseCrossAlpha
      FirstAmplitude := s.m_FirstAmplitude
      SecondAmplitude := s.m_SecondAmplitude
      CrossAmplitude := s.m_CrossAmplitude
      DomainDimension := s.m_DomainDimension }
  let resVal := 2 * env.pi * env.integrate IntegrandMember.Value integrand
  let g := vecSetSize env s.m_GradientIntegral (GetNumberOfParameters s)
  let g := g.set 0 (2 * env.pi * env.integrate IntegrandMember.DerivativeWRTFirstAlpha integrand)
  let g := g.set 1 (2 * env.pi * env.integrate IntegrandMember.DerivativeWRTCrossAlpha integrand)
  let g := g.set 2 (2 * env.pi * env.integrate IntegrandMember.DerivativeWRTSecondAlpha integrand)
  let g :=
    g.set 3 (2 * env.pi * env.integrate IntegrandMember.DerivativeWRTCrossIntensity integrand)
  (resVal, { s with m_GradientIntegral := g })

/-- The value `resVal` that the pairwise loop of `GetLogDeterminant` writes at
`(i, j)`; the label sum is an `unsigned int`. -/
def kernelEntry {α : Type} [LinearOrderedField α] (env : Env α) (s : Engine α)
    (i j : Nat) : α :=
  let sqDist := s.m_DistanceMatrix.elem i j * s.m_DistanceMatrix.elem i j
  let workLabel := (s.m_PointLabels.getD i 0 + s.m_PointLabels.getD j 0) % 4294967296
  let tmpVal :=
    env.EvaluateL12Function sqDist s.m_FirstAmplitude s.m_SecondAmplitude s.m_CrossAmplitude
      s.m_InverseCrossAlpha s.m_DomainDimension
  if workLabel = 2 then
    env.EvaluateLFunction sqDist s.m_FirstAmplitude s.m_CrossAmplitude s.m_FirstAlpha tmpVal
      s.m_DomainDimension
  else if workLabel = 3 then tmpVal
  else
    env.EvaluateLFunction sqDist s.m_SecondAmplitude s.m_CrossAmplitude s.m_SecondAlpha tmpVal
      s.m_DomainDimension

/-- The pairwise loop of `GetLogDeterminant` for one matrix: `i` runs over the
rows, `j` from `i` to `n - 1`, the mirrored entry is written when `i != j`. -/
def fillUpper {α : Type} (n : Nat) (v : Nat → Nat → α) (M : Mat α) : Mat α :=
  (List.range n).foldl
    (fun M i =>
      (List.range' i (n - i)).foldl
        (fun M j => if i ≠ j then (M.set i j (v i j)).set j i (v i j) else M.set i j (v i j)) M)
    M

/-- Matrix product `A * B`. -/
def Mat.mul {α : Type} [LinearOrderedField α] (A B : Mat α) : Mat α :=
  { n_rows := A.n_rows
    n_cols := B.n_cols
    elem := fun i j => ((List.range A.n_cols).map (fun k => A.elem i k * B.elem k j)).sum }

/-- Sum of the main diagonal, `arma::trace(M)`. -/
def Mat.trace {α : Type} [LinearOrderedField α] (M : Mat α) : α :=
  ((List.range (min M.n_rows M.n_cols)).map (fun i => M.elem i i)).sum

/-- The kernel matrix `lMatrix` built by `GetLogDeterminant`. -/
def lMatrix {α : Type} [LinearOrderedField α] (env : Env α) (s : Engine α) : Mat α :=
  fillUpper s.m_SampleSize (kernelEntry env s) (Mat.zeros s.m_SampleSize s.m_SampleSize)

/-- The matrices `lMatrixDeriv1` to `lMatrixDeriv4` built by `GetLogDeterminant`:
the loop writes `workValue1` to `workValue4`, which keep their initial value. -/
def lMatrixDeriv {α : Type} [LinearOrderedField α] (s : Engine α) : Mat α :=
  fillUpper s.m_SampleSize (fun _ _ => (0 : α)) (Mat.zeros s.m_SampleSize s.m_SampleSize)

/-- The member `BaseLogLikelihood::GetLogDeterminant`: the value returned, or
`none` when `arma::inv` throws, and the state with `m_GradientLogDeterminant`
written. -/
def GetLogDeterminant {α : Type} [LinearOrderedField α] (env : Env α) (s : Engine α) :
    Option α × Engine α :=
  let resVal := env.log_det (lMatrix env s)
  match env.inv (lMatrix env s) with
  | none => (none, s)
  | some lMatrixInverse =>
    let g := vecSetSize env s.m_GradientLogDeterminant (GetNumberOfParameters s)
    let g := g.set 0 (Mat.trace (Mat.mul lMatrixInverse (lMatrixDeriv s)))
    let g := g.set 1 (Mat.trace (Mat.mul lMatrixInverse (lMatrixDeriv s)))
    let g := g.set 2 (Mat.trace (Mat.mul lMatrixInverse (lMatrixDeriv s)))
    let g := g.set 3 (Mat.trace (Mat.mul lMatrixInverse (lMatrixDeriv s)))
    (some resVal, { s with m_GradientLogDeterminant := g })

/-! ## Objective assembly -/

/-- The two ways in which an evaluation ends without a result. -/
inductive Fatal where
  /-- The call `Rcpp::stop` after a term failed `std::isfinite`. -/
  | nonFinite
  /-- The exception of `arma::inv` on a singular matrix. -/
  | singular
  deriving DecidableEq

/-- The two assignments `m_Integral = GetIntegral(); m_LogDeterminant =
GetLogDeterminant();`, with the state reached when the second one throws. -/
def recomputeTerms {α : Type} [LinearOrderedField α] (env : Env α) (s : Engine α) :
    Option Fatal × Engine α :=
  let s1 : Engine α := { (GetIntegral env s).2 with m_Integral := (GetIntegral env s).1 }
  match GetLogDeterminant env s1 with
  | (none, s2) => (some Fatal.singular, s2)
  | (some resVal, s2) => (none, { s2 with m_LogDeterminant := resVal })

/-- The value `-2.0 * logLik` assembled from the volume and the two cached terms. -/
def objectiveValue {α : Type} [LinearOrderedField α] (s : Engine α) : α :=
  -2 * (2 * s.m_DomainVolume + s.m_DomainVolume * s.m_Integral + s.m_LogDeterminant)

/-- The loop `g[i] = ...` over the parameters followed by `g *= -2.0`. -/
def assembleGradient {α : Type} [LinearOrderedField α] (s : Engine α) (g : List α) : List α :=
  ((List.range (GetNumberOfParameters s)).foldl
    (fun g i =>
      g.set i (s.m_DomainVolume * s.m_GradientIntegral.getD i 0
        + s.m_GradientLogDeterminant.getD i 0)) g).map (fun c => c * (-2))

/-- The member `BaseLogLikelihood::Evaluate(x)`: the value returned or the fatal
error raised, and the state left behind. -/
def Evaluate {α : Type} [LinearOrderedField α] (env : Env α) (x : List α) (s : Engine α) :
    Except Fatal α × Engine α :=
  let s1 := SetModelParameters env x s
  let r := if s1.m_Modified then recomputeTerms env s1 else (none, s1)
  match r with
  | (some e, s2) => (Except.error e, s2)
  | (none, s2) =>
    if !env.isfinite s2.m_Integral || !env.isfinite s2.m_LogDeterminant then
      (Except.error Fatal.nonFinite, s2)
    else (Except.ok (objectiveValue s2), s2)

/-- The call `this->CheckModelParameters()` on the feasibility check of the
model family: the verdict, and the state with the constraint vector it wrote. -/
def CheckModelParameters {α : Type} (env : Env α) (s : Engine α) : Bool × Engine α :=
  ((env.CheckModelParameters s).1, { s with m_ConstraintVector := (env.CheckModelParameters s).2 })

/-- The member `BaseLogLikelihood::Gradient(x, g)`: the gradient written to `g`
or the fatal error raised, and the state left behind. -/
def Gradient {α : Type} [LinearOrderedField α] (env : Env α) (x g : List α) (s : Engine α) :
    Except Fatal (List α) × Engine α :=
  let s1 := SetModelParameters env x s
  let g1 := vecSetSize env g (GetNumberOfParameters s1)
  let validParams := (CheckModelParameters env s1).1
  let s2 := (CheckModelParameters env s1).2
  if !validParams then (Except.ok (g1.map (fun _ => 0)), s2)
  else
    let r := if s2.m_Modified then recomputeTerms env s2 else (none, s2)
    match r with
    | (some e, s3) => (Except.error e, s3)
    | (none, s3) =>
      if !env.isfinite s3.m_Integral || !env.isfinite s3.m_LogDeterminant then
        (Except.error Fatal.nonFinite, s3)
      else (Except.ok (assembleGradient s3 g1), s3)

/-- The member `BaseLogLikelihood::EvaluateWithGradient(x, g)`: the value
returned together with the gradient written to `g`, or the fatal error raised,
and the state left behind. -/
def EvaluateWithGradient {α : Type} [LinearOrderedField α] (env : Env α) (x g : List α)
    (s : Engine α) : Except Fatal (α × List α) × Engine α :=
  let s1 := SetModelParameters env x s
  let g1 := vecSetSize env g (GetNumberOfParameters s1)
  let validParams := (CheckModelParameters env s1).1
  let s2 := (CheckModelParameters env s1).2
  if !validParams then (Except.ok (env.DBL_MAX, g1.map (fun _ => 0)), s2)
  else
    match recomputeTerms env s2 with
    | (some e, s3) => (Except.error e, s3)
    | (none, s3) =>
      if !env.isfinite s3.m_Integral || !env.isfinite s3.m_LogDeterminant then
        (Except.error Fatal.nonFinite, s3)
      else (Except.ok (objectiveValue s3, assembleGradient s3 g1), s3)

/-- The member `BaseLogLikelihood::EvaluateConstraint(i, x)`. -/
def EvaluateConstraint {α : Type} [LinearOrderedField α] (env : Env α) (i : Nat) (x : List α)
    (s : Engine α) : α × Engine α :=
  let s1 := SetModelParameters env x s
  let s2 := (CheckModelParameters env s1).2
  (s2.m_ConstraintVector.getD i 0, s2)

/-- The member `BaseLogLikelihood::GradientConstraint(i, x, g)`. -/
def GradientConstraint {α : Type} [LinearOrderedField α] (env : Env α) (_i : Nat)
    (_x g : List α) (s : Engine α) : List α :=
  (vecSetSize env g (GetNumberOfParameters s)).map (fun _ => 0)

/-- The call ends with a fatal error: nothing is returned to the caller. -/
def raises {β : Type} (r : Except Fatal β) : Prop := ∃ e, r = Except.error e

/-- The integral term in force after the parameter mapping of `x`: the value of
`GetIntegral` when the mapping reported a change, the cached value otherwise. -/
def integralInForce {α : Type} [LinearOrderedField α] (env : Env α) (x : List α)
    (s : Engine α) : α :=
  if (SetModelParameters env x s).m_Modified then (GetIntegral env (SetModelParameters env x s)).1
  else s.m_Integral

/-- The log-determinant term in force after the parameter mapping of `x`: the
value of `arma::log_det` on the kernel matrix when the mapping reported a
change, the cached value otherwise. -/
def logDeterminantInForce {α : Type} [LinearOrderedField α] (env : Env α) (x : List α)
    (s : Engine α) : α :=
  if (SetModelParameters env x s).m_Modified
  then env.log_det (lMatrix env (SetModelParameters env x s))
  else s.m_LogDeterminant

/-- The raw values stored in the state are those read from `x`. -/
def rawValuesAre {α : Type} [LinearOrderedField α] (x : List α) (s : Engine α) : Prop :=
  s.m_FirstAmplitude = x.getD 0 0 ∧ s.m_SecondAmplitude = x.getD 1 0 ∧
  s.m_NormalizedCrossAmplitude = x.getD 2 0 ∧ s.m_CrossBeta = x.getD 3 0 ∧
  (s.m_EstimateIntensities = true →
    s.m_NormalizedFirstAlpha = x.getD 4 0 ∧ s.m_NormalizedSecondAlpha = x.getD 5 0)

/-- The state `t` has the configuration and the cached terms of the state `s`. -/
def sameCache {α : Type} (s t : Engine α) : Prop :=
  t.m_DomainVolume = s.m_DomainVolume ∧ t.m_EstimateIntensities = s.m_EstimateIntensities ∧
  t.m_Integral = s.m_Integral ∧ t.m_LogDeterminant = s.m_LogDeterminant ∧
  t.m_GradientIntegral = s.m_GradientIntegral ∧
  t.m_GradientLogDeterminant = s.m_GradientLogDeterminant ∧
  t.m_ConstraintVector = s.m_ConstraintVector ∧
  t.m_DomainDimension = s.m_DomainDimension ∧ t.m_SampleSize = s.m_SampleSize ∧
  t.m_PointLabels = s.m_PointLabels ∧ t.m_DistanceMatrix = s.m_DistanceMatrix

/-- The state `t` has the configuration of the state `s`: volume, estimation
mode, dimension, sample size, labels and distance matrix. -/
def sameConfig {α : Type} (s t : Engine α) : Prop :=
  t.m_DomainVolume = s.m_DomainVolume ∧ t.m_EstimateIntensities = s.m_EstimateIntensities ∧
  t.m_DomainDimension = s.m_DomainDimension ∧ t.m_SampleSize = s.m_SampleSize ∧
  t.m_PointLabels = s.m_PointLabels ∧ t.m_DistanceMatrix = s.m_DistanceMatrix

/-- The periodic image of a point as the specification words it: the offset,
scaled componentwise by the side lengths `ub - lb`, is added to the coordinates. -/
def periodicImage {α : Type} [LinearOrderedField α] (x lb ub : List α) (o : List Int) :
    List α :=
  (List.range x.length).map
    (fun k => x.getD k 0 + ((o.getD k 0 : Int) : α) * (ub.getD k 0 - lb.getD k 0))

/-- Euclidean distance between two points. -/
def euclideanDistance {α : Type} [LinearOrderedField α] (env : Env α) (p q : List α) : α :=
  norm env.sqrt (vsub p q)

/-! ## The Gaussian-family engine of `logLikelihood.cpp` -/

/-- The member variables used by `logLikelihood.cpp`; the labels are the last
column of the point matrix, a vector of `double`. -/
structure GaussianEngine (α : Type) where
  m_DataDimension : Nat
  m_SampleSize : Nat
  m_PointLabels : List α
  m_DataVolume : α
  m_DistanceMatrix : Mat α
  m_Intensity1 : α
  m_Intensity2 : α
  m_Alpha1 : α
  m_Alpha12 : α
  m_Alpha2 : α
  m_Covariance : α
  m_Amplitude1 : α
  m_Amplitude12 : α
  m_Amplitude2 : α
  m_Modified : Bool
  m_Integral : α
  m_LogDeterminant : α
  m_GradientIntegral : List α
  m_GradientLogDeterminant : List α
  m_ConstraintVector : List α

/-- The values handed to each integrand object by the setters in
`GaussianLogLikelihood::GetIntegral`. -/
structure GaussianIntegrand (α : Type) where
  Alpha1 : α
  Alpha12 : α
  Alpha2 : α
  Covariance : α
  Intensity1 : α
  Intensity2 : α
  DataDimension : Nat

/-- The five integrand classes of `integrandFunctions.h`. -/
inductive GaussianIntegrandClass where
  | Value
  | Alpha1
  | Alpha12
  | Alpha2
  | Covariance
  deriving DecidableEq

/-- Library routines used by `logLikelihood.cpp`. -/
structure GaussianEnv (α : Type) where
  /-- The function `std::exp`. -/
  exp : α → α
  /-- The function `std::pow`. -/
  pow : α → α → α
  /-- The function `std::sqrt`. -/
  sqrt : α → α
  /-- The constant `M_PI`. -/
  pi : α
  /-- The test `std::isfinite`. -/
  isfinite : α → Bool
  /-- The constant `DBL_MAX`. -/
  DBL_MAX : α
  /-- Content of vector storage that has been resized and not yet written. -/
  uninit : Nat → α
  /-- The conversion of a `double` to `unsigned int`. -/
  toUnsigned : α → Nat
  /-- Gauss-Kronrod quadrature over `[0, ∞)` of an integrand object. -/
  integrate : GaussianIntegrandClass → GaussianIntegrand α → α
  /-- The value written by `arma::log_det`. -/
  log_det : Mat α → α
  /-- The result of `arma::inv`, `none` when it throws on a singular matrix. -/
  inv : Mat α → Option (Mat α)

/-- Element access `M[k]` of a matrix stored by columns. -/
def Mat.linear {α : Type} (M : Mat α) (k : Nat) : α :=
  M.elem (k % M.n_rows) (k / M.n_rows)

/-- The body of the outer loop of `SetInputs(points, volume)`: the two counters
and the distances of row `i` to the later rows. -/
def Gaussian.SetInputs_step {α : Type} [LinearOrderedField α] (env : GaussianEnv α)
    (n : Nat) (labels : List α) (dataRow : Nat → List α) (acc : α × α × Mat α) (i : Nat) :
    α × α × Mat α :=
  let c1 := if labels.getD i 0 = 1 then acc.1 + 1 else acc.1
  let c2 := if labels.getD i 0 = 2 then acc.2.1 + 1 else acc.2.1
  (c1, c2,
    (List.range' (i + 1) (n - (i + 1))).foldl
      (fun M j =>
        (M.set i j (norm env.sqrt (vsub (dataRow i) (dataRow j)))).set j i
          (norm env.sqrt (vsub (dataRow i) (dataRow j))))
      acc.2.2)

/-- The operation `SetInputs(points, volume)` of `logLikelihood.cpp`.  The last
column holds the labels; `points.col` and `points.cols` throw, under the bounds
checks of Armadillo, when the matrix has fewer than two columns (`none`).  The
two intensities are quotients by the volume: with a volume of zero the machine
stores an infinity or a NaN, which the field does not have, so the definition
describes the code for a volume other than zero. -/
def Gaussian.SetInputs {α : Type} [LinearOrderedField α] (env : GaussianEnv α)
    (points : Mat α) (volume : α) (s : GaussianEngine α) : Option (GaussianEngine α) :=
  if points.n_cols < 2 then none
  else
    let dim := points.n_cols - 1
    let labels := (List.range points.n_rows).map (fun i => points.elem i dim)
    let dataRow := fun i => (List.range dim).map (points.elem i)
    let M0 := (s.m_DistanceMatrix.set_size points.n_rows points.n_rows).fill 0
    let r := (List.range points.n_rows).foldl
      (Gaussian.SetInputs_step env points.n_rows labels dataRow) (0, 0, M0)
    some
      { s with
        m_DataDimension := dim
        m_SampleSize := points.n_rows
        m_PointLabels := labels
        m_DataVolume := volume
        m_DistanceMatrix := r.2.2
        m_Intensity1 := r.1 / volume
        m_Intensity2 := r.2.1 / volume }

/-- The first block of `SetModelParameters`: `m_Alpha1`. -/
def Gaussian.SetModelParameters_alpha1 {α : Type} [LinearOrderedField α] (env : GaussianEnv α)
    (params : Mat α) (s : GaussianEngine α) : GaussianEngine α :=
  let workScalar := env.exp (params.linear 0)
  if s.m_Alpha1 ≠ workScalar then { s with m_Alpha1 := workScalar, m_Modified := true } else s

/-- The second block of `SetModelParameters`: `m_Alpha12`. -/
def Gaussian.SetModelParameters_alpha12 {α : Type} [LinearOrderedField α] (env : GaussianEnv α)
    (params : Mat α) (s : GaussianEngine α) : GaussianEngine α :=
  let workScalar := env.exp (params.linear 1)
  if s.m_Alpha12 ≠ workScalar then { s with m_Alpha12 := workScalar, m_Modified := true } else s

/-- The third block of `SetModelParameters`: `m_Alpha2`. -/
def Gaussian.SetModelParameters_alpha2 {α : Type} [LinearOrderedField α] (env : GaussianEnv α)
    (params : Mat α) (s : GaussianEngine α) : GaussianEngine α :=
  let workScalar := env.exp (params.linear 2)
  if s.m_Alpha2 ≠ workScalar then { s with m_Alpha2 := workScalar, m_Modified := true } else s

/-- The fourth block of `SetModelParameters`: `m_Covariance`. -/
def Gaussian.SetModelParameters_covariance {α : Type} [LinearOrderedField α]
    (params : Mat α) (s : GaussianEngine α) : GaussianEngine α :=
  let workScalar := params.linear 3
  if s.m_Covariance ≠ workScalar then { s with m_Covariance := workScalar, m_Modified := true }
  else s

/-- The closing block `if (m_Modified)` of `SetModelParameters`: the amplitudes. -/
def Gaussian.SetModelParameters_finish {α : Type} [LinearOrderedField α] (env : GaussianEnv α)
    (s : GaussianEngine α) : GaussianEngine α :=
  if s.m_Modified then
    { s with
      m_Amplitude1 :=
        s.m_Intensity1 * env.pow (env.sqrt env.pi * s.m_Alpha1) (s.m_DataDimension : α)
      m_Amplitude12 :=
        s.m_Covariance * env.pow (env.sqrt env.pi * s.m_Alpha12) (s.m_DataDimension : α)
      m_Amplitude2 :=
        s.m_Intensity2 * env.pow (env.sqrt env.pi * s.m_Alpha2) (s.m_DataDimension : α) }
  else s

/-- The member `SetModelParameters(params)` of `logLikelihood.cpp`. -/
def Gaussian.SetModelParameters {α : Type} [LinearOrderedField α] (env : GaussianEnv α)
    (params : Mat α) (s : GaussianEngine α) : GaussianEngine α :=
  Gaussian.SetModelParameters_finish env
    (Gaussian.SetModelParameters_covariance params
      (Gaussian.SetModelParameters_alpha2 env params
        (Gaussian.SetModelParameters_alpha12 env params
          (Gaussian.SetModelParameters_alpha1 env params { s with m_Modified := false }))))

/-- The member `GaussianLogLikelihood::CheckModelParameters`: the verdict and
the state with the constraint vector written (`NumConstraints()` is `5`). -/
def Gaussian.CheckModelParameters {α : Type} [LinearOrderedField α] (env : GaussianEnv α)
    (s : GaussianEngine α) : Bool × GaussianEngine α :=
  let cv : List α := List.replicate 5 0
  if s.m_Amplitude1 ≥ 1 then (false, { s with m_ConstraintVector := cv.set 0 env.DBL_MAX })
  else if s.m_Amplitude2 ≥ 1 then
    (false, { s with m_ConstraintVector := cv.set 1 env.DBL_MAX })
  else if 2 * s.m_Alpha12 * s.m_Alpha12 < s.m_Alpha1 * s.m_Alpha1 + s.m_Alpha2 * s.m_Alpha2 then
    (false, { s with m_ConstraintVector := cv.set 2 env.DBL_MAX })
  else
    let leftVal :=
      s.m_Covariance * s.m_Covariance * env.pow s.m_Alpha12 (2 * (s.m_DataDimension : α))
    let rightVal :=
      s.m_Intensity1 * s.m_Intensity2
        * env.pow (s.m_Alpha1 * s.m_Alpha2) (s.m_DataDimension : α)
    if leftVal > rightVal then (false, { s with m_ConstraintVector := cv.set 3 env.DBL_MAX })
    else if leftVal > 4 * rightVal * (1 / s.m_Amplitude1 - 1) * (1 / s.m_Amplitude2 - 1) then
      (false, { s with m_ConstraintVector := cv.set 4 env.DBL_MAX })
    else (true, { s with m_ConstraintVector := cv })

/-- The five tests of `GaussianLogLikelihood::CheckModelParameters`, by index. -/
def Gaussian.constraintViolated {α : Type} [LinearOrderedField α] (env : GaussianEnv α)
    (s : GaussianEngine α) (k : Nat) : Prop :=
  if k = 0 then s.m_Amplitude1 ≥ 1
  else if k = 1 then s.m_Amplitude2 ≥ 1
  else if k = 2 then
    2 * s.m_Alpha12 * s.m_Alpha12 < s.m_Alpha1 * s.m_Alpha1 + s.m_Alpha2 * s.m_Alpha2
  else if k = 3 then
    s.m_Covariance * s.m_Covariance * env.pow s.m_Alpha12 (2 * (s.m_DataDimension : α))
      > s.m_Intensity1 * s.m_Intensity2
        * env.pow (s.m_Alpha1 * s.m_Alpha2) (s.m_DataDimension : α)
  else if k = 4 then
    s.m_Covariance * s.m_Covariance * env.pow s.m_Alpha12 (2 * (s.m_DataDimension : α))
      > 4 * (s.m_Intensity1 * s.m_Intensity2
          * env.pow (s.m_Alpha1 * s.m_Alpha2) (s.m_DataDimension : α))
        * (1 / s.m_Amplitude1 - 1) * (1 / s.m_Amplitude2 - 1)
  else False

/-- The member `GaussianLogLikelihood::GetIntegral`: the value returned and the
state with the four entries of `m_GradientIntegral` written.  The vector is not
resized here; a write past its end, undefined in C++, is dropped. -/
def Gaussian.GetIntegral {α : Type} [LinearOrderedField α] (env : GaussianEnv α)
    (s : GaussianEngine α) : α × GaussianEngine α :=
  let integrand : GaussianIntegrand α :=
    { Alpha1 := s.m_Alpha1
      Alpha12 := s.m_Alpha12
      Alpha2 := s.m_Alpha2
      Covariance := s.m_Covariance
      Intensity1 := s.m_Intensity1
      Intensity2 := s.m_Intensity2
      DataDimension := s.m_DataDimension }
  let resVal := 2 * env.pi * env.integrate GaussianIntegrandClass.Value integrand
  let g := s.m_GradientIntegral
  let g := g.set 0 (2 * env.pi * env.integrate GaussianIntegrandClass.Alpha1 integrand)
  let g := g.set 1 (2 * env.pi * env.integrate GaussianIntegrandClass.Alpha12 integrand)
  let g := g.set 2 (2 * env.pi * env.integrate GaussianIntegrandClass.Alpha2 integrand)
  let g := g.set 3 (2 * env.pi * env.integrate GaussianIntegrandClass.Covariance integrand)
  (resVal, { s with m_GradientIntegral := g })

/-- The values `resVal`, `workValue1`, ..., `workValue4` at the end of one pass
of the pairwise loop of `GaussianLogLikelihood::GetLogDeterminant`. -/
structure PairValues (α : Type) where
  resVal : α
  workValue1 : α
  workValue2 : α
  workValue3 : α
  workValue4 : α

/-- The factor `tmpVal` of the `k`-th term of a series of `GetLogDeterminant`. -/
def Gaussian.seriesTerm {α : Type} [LinearOrderedField α] (env : GaussianEnv α)
    (s : GaussianEngine α) (amplitude expInValue : α) (k : Nat) : α :=
  env.pow amplitude ((k : α) - 1) * env.pow (k : α) (-(s.m_DataDimension : α) / 2)
    * env.exp (-expInValue)

/-- One pass of the pairwise loop of `GaussianLogLikelihood::GetLogDeterminant`
for the pair `(i, j)`: the series of fifty terms selected by the label sum. -/
def Gaussian.pairValues {α : Type} [LinearOrderedField α] (env : GaussianEnv α)
    (s : GaussianEngine α) (i j : Nat) : PairValues α :=
  let workLabel := env.toUnsigned (s.m_PointLabels.getD i 0 + s.m_PointLabels.getD j 0)
  let sqDist := s.m_DistanceMatrix.elem i j * s.m_DistanceMatrix.elem i j
  let start : PairValues α :=
    { resVal := 0, workValue1 := 0, workValue2 := 0, workValue3 := 0, workValue4 := 0 }
  let factor : α → α :=
    fun expInValue =>
      (s.m_DataDimension : α) * ((s.m_SampleSize : α) - 1) + 2 * expInValue
  if workLabel = 2 then
    (List.range' 1 50).foldl
      (fun v (k : Nat) =>
        let expInValue := sqDist / ((k : α) * s.m_Alpha1 * s.m_Alpha1)
        let tmpVal := Gaussian.seriesTerm env s s.m_Amplitude1 expInValue k
        { v with
          resVal := v.resVal + s.m_Intensity1 * tmpVal
          workValue1 := v.workValue1 + s.m_Intensity1 * tmpVal * factor expInValue })
      start
  else if workLabel = 3 then
    (List.range' 1 50).foldl
      (fun v (k : Nat) =>
        let expInValue := sqDist / ((k : α) * s.m_Alpha12 * s.m_Alpha12)
        let tmpVal := Gaussian.seriesTerm env s s.m_Amplitude12 expInValue k
        { v with
          resVal := v.resVal + s.m_Covariance * tmpVal
          workValue2 := v.workValue2 + s.m_Covariance * tmpVal * factor expInValue
          workValue4 := v.workValue4 + tmpVal * (k : α) })
      start
  else
    (List.range' 1 50).foldl
      (fun v (k : Nat) =>
        let expInValue := sqDist / ((k : α) * s.m_Alpha2 * s.m_Alpha2)
        let tmpVal := Gaussian.seriesTerm env s s.m_Amplitude2 expInValue k
        { v with
          resVal := v.resVal + s.m_Intensity2 * tmpVal
          workValue3 := v.workValue3 + s.m_Intensity2 * tmpVal * factor expInValue })
      start

/-- The kernel value of a pair as the specification words it, a formula in the
squared distance: the sum over `k = 1, ..., 50` of `coefficient` times the
`k`-th term for the given amplitude and width. -/
def Gaussian.kernelSeries {α : Type} [LinearOrderedField α] (env : GaussianEnv α)
    (s : GaussianEngine α) (coefficient amplitude alpha sqDist : α) : α :=
  ((List.range' 1 50).map
    (fun (k : Nat) =>
      coefficient
        * Gaussian.seriesTerm env s amplitude (sqDist / ((k : α) * alpha * alpha)) k)).sum

/-- The kernel matrix `lMatrix` of `GaussianLogLikelihood::GetLogDeterminant`. -/
def Gaussian.lMatrix {α : Type} [LinearOrderedField α] (env : GaussianEnv α)
    (s : GaussianEngine α) : Mat α :=
  fillUpper s.m_SampleSize (fun i j => (Gaussian.pairValues env s i j).resVal)
    (Mat.zeros s.m_SampleSize s.m_SampleSize)

/-- The matrix `lMatrixDeriv1` of `GaussianLogLikelihood::GetLogDeterminant`. -/
def Gaussian.lMatrixDeriv1 {α : Type} [LinearOrderedField α] (env : GaussianEnv α)
    (s : GaussianEngine α) : Mat α :=
  fillUpper s.m_SampleSize (fun i j => (Gaussian.pairValues env s i j).workValue1)
    (Mat.zeros s.m_SampleSize s.m_SampleSize)

/-- The matrix `lMatrixDeriv2` of `GaussianLogLikelihood::GetLogDeterminant`. -/
def Gaussian.lMatrixDeriv2 {α : Type} [LinearOrderedField α] (env : GaussianEnv α)
    (s : GaussianEngine α) : Mat α :=
  fillUpper s.m_SampleSize (fun i j => (Gaussian.pairValues env s i j).workValue2)
    (Mat.zeros s.m_SampleSize s.m_SampleSize)

/-- The matrix `lMatrixDeriv3` of `GaussianLogLikelihood::GetLogDeterminant`. -/
def Gaussian.lMatrixDeriv3 {α : Type} [LinearOrderedField α] (env : GaussianEnv α)
    (s : GaussianEngine α) : Mat α :=
  fillUpper s.m_SampleSize (fun i j => (Gaussian.pairValues env s i j).workValue3)
    (Mat.zeros s.m_SampleSize s.m_SampleSize)

/-- The matrix `lMatrixDeriv4` of `GaussianLogLikelihood::GetLogDeterminant`. -/
def Gaussian.lMatrixDeriv4 {α : Type} [LinearOrderedField α] (env : GaussianEnv α)
    (s : GaussianEngine α) : Mat α :=
  fillUpper s.m_SampleSize (fun i j => (Gaussian.pairValues env s i j).workValue4)
    (Mat.zeros s.m_SampleSize s.m_SampleSize)

/-- The member `GaussianLogLikelihood::GetLogDeterminant`: the value returned,
or `none` when `arma::inv` throws, and the state with the four entries of
`m_GradientLogDeterminant` written; each entry is the trace written in the
source, that of the inverse times `lMatrixDeriv1`.  The vector is not resized
here; a write past its end, undefined in C++, is dropped. -/
def Gaussian.GetLogDeterminant {α : Type} [LinearOrderedField α] (env : GaussianEnv α)
    (s : GaussianEngine α) : Option α × GaussianEngine α :=
  let resVal := env.log_det (Gaussian.lMatrix env s)
  match env.inv (Gaussian.lMatrix env s) with
  | none => (none, s)
  | some lMatrixInverse =>
    let g := s.m_GradientLogDeterminant
    let g := g.set 0 (Mat.trace (Mat.mul lMatrixInverse (Gaussian.lMatrixDeriv1 env s)))
    let g := g.set 1 (Mat.trace (Mat.mul lMatrixInverse (Gaussian.lMatrixDeriv1 env s)))
    let g := g.set 2 (Mat.trace (Mat.mul lMatrixInverse (Gaussian.lMatrixDeriv1 env s)))
    let g := g.set 3 (Mat.trace (Mat.mul lMatrixInverse (Gaussian.lMatrixDeriv1 env s)))
    (some resVal, { s with m_GradientLogDeterminant := g })

/-- The two assignments `m_Integral = GetIntegral(); m_LogDeterminant =
GetLogDeterminant();` of `logLikelihood.cpp`. -/
def Gaussian.recomputeTerms {α : Type} [LinearOrderedField α] (env : GaussianEnv α)
    (s : GaussianEngine α) : Option Fatal × GaussianEngine α :=
  let s1 : GaussianEngine α :=
    { (Gaussian.GetIntegral env s).2 with m_Integral := (Gaussian.GetIntegral env s).1 }
  match Gaussian.GetLogDeterminant env s1 with
  | (none, s2) => (some Fatal.singular, s2)
  | (some resVal, s2) => (none, { s2 with m_LogDeterminant := resVal })

/-- The value `-2.0 * logLik` of `logLikelihood.cpp`. -/
def Gaussian.objectiveValue {α : Type} [LinearOrderedField α] (s : GaussianEngine α) : α :=
  -2 * (2 * s.m_DataVolume + s.m_DataVolume * s.m_Integral + s.m_LogDeterminant)

/-- The checks `std::isfinite` and the value returned at the end of `Evaluate`. -/
def Gaussian.finishEvaluate {α : Type} [LinearOrderedField α] (env : GaussianEnv α)
    (s : GaussianEngine α) : Except Fatal α × GaussianEngine α :=
  if !env.isfinite s.m_Integral || !env.isfinite s.m_LogDeterminant then
    (Except.error Fatal.nonFinite, s)
  else (Except.ok (Gaussian.objectiveValue s), s)

/-- The member `Evaluate(x)` of `logLikelihood.cpp`. -/
def Gaussian.Evaluate {α : Type} [LinearOrderedField α] (env : GaussianEnv α) (x : Mat α)
    (s : GaussianEngine α) : Except Fatal α × GaussianEngine α :=
  let s1 := Gaussian.SetModelParameters env x s
  if s1.m_Modified then
    let validParams := (Gaussian.CheckModelParameters env s1).1
    let s2 := (Gaussian.CheckModelParameters env s1).2
    if !validParams then (Except.ok env.DBL_MAX, s2)
    else
      match Gaussian.recomputeTerms env s2 with
      | (some e, s3) => (Except.error e, s3)
      | (none, s3) => Gaussian.finishEvaluate env s3
  else Gaussian.finishEvaluate env s1

/-- Resizing `g.set_size(n, 1)` in `logLikelihood.cpp`. -/
def Gaussian.vecSetSize {α : Type} (env : GaussianEnv α) (v : List α) (n : Nat) : List α :=
  if v.length = n then v else (List.range n).map env.uninit

/-- The checks `std::isfinite` and the gradient loop at the end of `Gradient`:
`numParams` entries `m_GradientIntegral[i] + m_GradientLogDeterminant[i]`,
scaled by `-2.0`; a read past the end of a vector gives `0`. -/
def Gaussian.finishGradient {α : Type} [LinearOrderedField α] (env : GaussianEnv α)
    (numParams : Nat) (g : List α) (s : GaussianEngine α) :
    Except Fatal (List α) × GaussianEngine α :=
  if !env.isfinite s.m_Integral || !env.isfinite s.m_LogDeterminant then
    (Except.error Fatal.nonFinite, s)
  else
    (Except.ok
      (((List.range numParams).foldl
        (fun g i =>
          g.set i (s.m_GradientIntegral.getD i 0 + s.m_GradientLogDeterminant.getD i 0))
        g).map (fun c => c * (-2))), s)

/-- The member `Gradient(x, g)` of `logLikelihood.cpp`; `numParams` is
`x.n_cols`. -/
def Gaussian.Gradient {α : Type} [LinearOrderedField α] (env : GaussianEnv α) (x : Mat α)
    (g : List α) (s : GaussianEngine α) : Except Fatal (List α) × GaussianEngine α :=
  let s1 := Gaussian.SetModelParameters env x s
  let numParams := x.n_cols
  let g1 := Gaussian.vecSetSize env g numParams
  if s1.m_Modified then
    let validParams := (Gaussian.CheckModelParameters env s1).1
    let s2 := (Gaussian.CheckModelParameters env s1).2
    if !validParams then (Except.ok (g1.map (fun _ => 0)), s2)
    else
      match Gaussian.recomputeTerms env s2 with
      | (some e, s3) => (Except.error e, s3)
      | (none, s3) => Gaussian.finishGradient env numParams g1 s3
  else Gaussian.finishGradient env numParams g1 s1

/-- The member `EvaluateConstraint(i, x)` of `logLikelihood.cpp`. -/
def Gaussian.EvaluateConstraint {α : Type} [LinearOrderedField α] (env : GaussianEnv α)
    (i : Nat) (x : Mat α) (s : GaussianEngine α) : α × GaussianEngine α :=
  let s1 := Gaussian.SetModelParameters env x s
  let s2 := if s1.m_Modified then (Gaussian.CheckModelParameters env s1).2 else s1
  (s2.m_ConstraintVector.getD i 0, s2)

/-! ## Concrete data for evaluation over `ℚ` -/

/-- A square root on `ℚ`, exact on the squares of rationals. -/
def sqrtQ (q : ℚ) : ℚ := (Nat.sqrt q.num.toNat : ℚ) / (Nat.sqrt q.den : ℚ)

/-- An engine over `ℚ` in the state left by the constructor: dimension one, unit
volume, periodic domain, dirty flag set, cached terms zero, jointly estimated
intensities; the members the constructor does not set are zero. -/
def exampleEngine : Engine ℚ :=
  { m_DomainDimension := 1
    m_SampleSize := 0
    m_PointLabels := []
    m_DomainVolume := 1
    m_Neighborhood := []
    m_DistanceMatrix := { n_rows := 0, n_cols := 0, elem := fun _ _ => 0 }
    m_UsePeriodicDomain := true
    m_EstimateIntensities := true
    m_FirstIntensity := 0
    m_SecondIntensity := 0
    m_FirstAmplitude := 0
    m_SecondAmplitude := 0
    m_NormalizedCrossAmplitude := 0
    m_CrossBeta := 0
    m_NormalizedFirstAlpha := 0
    m_NormalizedSecondAlpha := 0
    m_FirstAlpha := 0
    m_SecondAlpha := 0
    m_InverseCrossAlpha := 0
    m_CrossAmplitude := 0
    m_Modified := true
    m_Integral := 0
    m_LogDeterminant := 0
    m_GradientIntegral := []
    m_GradientLogDeterminant := []
    m_ConstraintVector := [] }

/-- An environment over `ℚ`: the exact rational square root and simple stand-ins
for the routines that are not part of the translation unit. -/
def exampleEnv : Env ℚ :=
  { sqrt := sqrtQ
    pow := fun a _ => a
    tgamma := fun _ => 1
    pi := 3
    isfinite := fun _ => true
    DBL_MAX := 1000000
    uninit := fun _ => 0
    RetrieveAlphaFromParameters := fun a _ _ => a
    RetrieveIntensityFromParameters := fun a _ _ => a
    GetCrossAlphaLowerBound := fun _ => 1
    CheckModelParameters := fun s =>
      (decide (s.m_FirstAmplitude < 1 ∧ s.m_SecondAmplitude < 1), s.m_ConstraintVector)
    EvaluateLFunction := fun sqDist amplitude _ _ _ _ => amplitude + sqDist + 1
    EvaluateL12Function := fun _ _ _ crossAmplitude _ _ => crossAmplitude
    integrate := fun _ b => b.FirstAmplitude + b.SecondAmplitude
    log_det := fun M => M.elem 0 0
    inv := fun M => some M }

/-- Two points of the unit square, `(1/4, 1/2)` and `(3/4, 1/2)`. -/
def examplePoints : Mat ℚ :=
  { n_rows := 2
    n_cols := 2
    elem := fun i j => if j = 0 then (if i = 0 then 1 / 4 else 3 / 4) else 1 / 2 }

/-- A parameter vector that `exampleEnv` finds feasible. -/
def exampleParams : List ℚ := [1 / 2, 1 / 4, 0, 1, 1, 1]

/-- A second feasible parameter vector. -/
def exampleOtherParams : List ℚ := [1 / 4, 1 / 4, 0, 1, 1, 1]

/-- A parameter vector whose first amplitude is not below one. -/
def exampleInfeasibleParams : List ℚ := [2, 1 / 4, 0, 1, 1, 1]

/-- The state reached from `exampleEngine` by `Evaluate(exampleParams)` followed
by `EvaluateConstraint(0, exampleOtherParams)`. -/
def exampleStaleEngine : Engine ℚ :=
  (EvaluateConstraint exampleEnv 0 exampleOtherParams
    (Evaluate exampleEnv exampleParams exampleEngine).2).2

/-- A stand-in for `std::pow` over `ℚ`, exact at the exponents one and two. -/
def powQ (b e : ℚ) : ℚ := if e = 1 then b else if e = 2 then b * b else 1

/-- An environment over `ℚ` for `logLikelihood.cpp`: `22 / 7` for `M_PI`, whose
square root `sqrtQ` rounds to two, a positive stand-in for the exponential that
is exact at zero, and simple stand-ins for the quadrature and the matrix
routines. -/
def exampleGaussianEnv : GaussianEnv ℚ :=
  { exp := fun a => 1 + a * a
    pow := powQ
    sqrt := sqrtQ
    pi := 22 / 7
    isfinite := fun _ => true
    DBL_MAX := 1000000
    uninit := fun _ => 0
    toUnsigned := fun a => a.floor.toNat
    integrate := fun _ b => b.Intensity1 + b.Intensity2
    log_det := fun M => M.elem 0 0
    inv := fun M => some M }

/-- A Gaussian-family engine over `ℚ` before any input: every scalar is zero and
the two gradient vectors have four entries. -/
def exampleGaussianBlank : GaussianEngine ℚ :=
  { m_DataDimension := 0
    m_SampleSize := 0
    m_PointLabels := []
    m_DataVolume := 0
    m_DistanceMatrix := { n_rows := 0, n_cols := 0, elem := fun _ _ => 0 }
    m_Intensity1 := 0
    m_Intensity2 := 0
    m_Alpha1 := 0
    m_Alpha12 := 0
    m_Alpha2 := 0
    m_Covariance := 0
    m_Amplitude1 := 0
    m_Amplitude12 := 0
    m_Amplitude2 := 0
    m_Modified := false
    m_Integral := 0
    m_LogDeterminant := 0
    m_GradientIntegral := [0, 0, 0, 0]
    m_GradientLogDeterminant := [0, 0, 0, 0]
    m_ConstraintVector := [] }

/-- Two points on a line with their labels in the last column: `1/4` of type 1
and `3/4` of type 2. -/
def exampleGaussianPoints : Mat ℚ :=
  { n_rows := 2
    n_cols := 2
    elem := fun i j => if j = 0 then (if i = 0 then 1 / 4 else 3 / 4) else (if i = 0 then 1 else 2) }

/-- The state after `SetInputs(exampleGaussianPoints, 4)` on the blank engine. -/
def exampleGaussianEngine : GaussianEngine ℚ :=
  (Gaussian.SetInputs exampleGaussianEnv exampleGaussianPoints 4 exampleGaussianBlank).getD
    exampleGaussianBlank

/-- The `4 x 1` parameter column `(0, 0, 0, 0)`. -/
def exampleGaussianParams : Mat ℚ := { n_rows := 4, n_cols := 1, elem := fun _ _ => 0 }

/-- The `4 x 1` parameter column `(0, 0, 0, 1)`. -/
def exampleGaussianInfeasibleParams : Mat ℚ :=
  { n_rows := 4, n_cols := 1, elem := fun i _ => if i = 3 then 1 else 0 }

/-- The call `Gradient(x, g)` on the example engine with the column
`(0, 0, 0, 0)`: the result and the state it leaves. -/
def exampleGaussianFirst : Except Fatal (List ℚ) × GaussianEngine ℚ :=
  Gaussian.Gradient exampleGaussianEnv exampleGaussianParams [] exampleGaussianEngine

/-- The next call, with the column `(0, 0, 0, 1)`. -/
def exampleGaussianSecond : Except Fatal (List ℚ) × GaussianEngine ℚ :=
  Gaussian.Gradient exampleGaussianEnv exampleGaussianInfeasibleParams [] exampleGaussianFirst.2

/-- The call after that, with the same column `(0, 0, 0, 1)`. -/
def exampleGaussianThird : Except Fatal (List ℚ) × GaussianEngine ℚ :=
  Gaussian.Gradient exampleGaussianEnv exampleGaussianInfeasibleParams [] exampleGaussianSecond.2

/-- The example engine of the Gaussian family after the parameter mapping of the
column `(0, 0, 0, 0)`. -/
def exampleGaussianMapped : GaussianEngine ℚ :=
  Gaussian.SetModelParameters exampleGaussianEnv exampleGaussianParams exampleGaussianEngine

/-- The environment `exampleEnv` with a width that depends on the supplied
intensity, `amplitude / intensity`. -/
def intensityEnv : Env ℚ :=
  { exampleEnv with
    RetrieveAlphaFromParameters := fun amplitude intensity _ => amplitude / intensity }

/-- The state after `SetIntensities(1, 1)`, `EvaluateConstraint(0, exampleParams)`
and `SetIntensities(2, 2)`. -/
def exampleHistoryA : Engine ℚ :=
  SetIntensities 2 2
    (EvaluateConstraint intensityEnv 0 exampleParams (SetIntensities 1 1 exampleEngine)).2

/-- The state after `SetIntensities(2, 2)` alone. -/
def exampleHistoryB : Engine ℚ := SetIntensities 2 2 exampleEngine

/-- The state after `SetInputs` on the two example points of the unit square,
with the labels `1` and `2`. -/
def exampleLabelledEngine : Engine ℚ :=
  SetInputs exampleEnv examplePoints [1, 2] [0, 0] [1, 1] exampleEngine

/-! ## A singular kernel matrix -/

/-- Determinant of a matrix of at most two rows, `1` for the empty matrix; for a
larger matrix, that of its leading block of two rows. -/
def smallDet (M : Mat ℚ) : ℚ :=
  if M.n_rows = 0 then 1
  else if M.n_rows = 1 then M.elem 0 0
  else M.elem 0 0 * M.elem 1 1 - M.elem 0 1 * M.elem 1 0

/-- The environment `exampleEnv` with a finiteness test bounded by `DBL_MAX` and
library routines that react to a determinant of zero as Armadillo does on a
singular matrix: `arma::log_det` gives a value that the finiteness test rejects
(in place of minus infinity) and `arma::inv` throws.  The empty matrix is
inverted. -/
def degenerateEnv : Env ℚ :=
  { exampleEnv with
    isfinite := fun a => decide (|a| ≤ 1000000)
    log_det := fun M => if smallDet M = 0 then -2000000 else M.elem 0 0
    inv := fun M => if smallDet M = 0 then none else some M }

/-- Two points of the unit square at the same place `(1/4, 1/2)`. -/
def exampleCoincidentPoints : Mat ℚ :=
  { n_rows := 2
    n_cols := 2
    elem := fun _ j => if j = 0 then 1 / 4 else 1 / 2 }

/-- The state after `SetInputs` on the two coincident points, both of type `1`. -/
def exampleCoincidentEngine : Engine ℚ :=
  SetInputs degenerateEnv exampleCoincidentPoints [1, 1] [0, 0] [1, 1] exampleEngine

/-! ## Reordering of the points -/

/-- The inner loop of `GetTrialVectors` in floating-point arithmetic: the side
length `ub[j] - lb[j]`, its product with the offset and the sum with the
coordinate are rounded one after the other. -/
def Rounded.trialVector {α : Type} [LinearOrderedField α] (fl : α → α) (dim : Nat)
    (x lb ub : List α) (workNeighborhood : List Int) : List α :=
  (List.range dim).foldl
    (fun workVector j =>
      workVector.set j
        (fl (workVector.getD j 0 +
          fl (((workNeighborhood.getD j 0 : Int) : α) * fl (ub.getD j 0 - lb.getD j 0)))))
    x

/-- The periodic images of `x` in floating-point arithmetic. -/
def Rounded.GetTrialVectors {α : Type} [LinearOrderedField α] (fl : α → α) (s : Engine α)
    (x lb ub : List α) : List (List α) :=
  s.m_Neighborhood.map (Rounded.trialVector fl s.m_DomainDimension x lb ub)

/-- Componentwise difference `a - b` in floating-point arithmetic. -/
def Rounded.vsub {α : Type} [LinearOrderedField α] (fl : α → α) (a b : List α) : List α :=
  List.zipWith (fun p q => fl (p - q)) a b

/-- The norm `arma::norm(v)` in floating-point arithmetic: every product and
every sum of the sum of squares is rounded, and `sqrt` is the square root of the
machine.  The squares are added in the order of the components; the library may
add them in another order, which gives the same value for a vector of one or
two components. -/
def Rounded.norm {α : Type} [LinearOrderedField α] (fl : α → α) (sqrt : α → α)
    (v : List α) : α :=
  sqrt (v.foldl (fun acc c => fl (acc + fl (c * c))) 0)

/-- The loop over the trial vectors in `SetInputs` in floating-point arithmetic. -/
def Rounded.periodicDistance {α : Type} [LinearOrderedField α] (fl : α → α) (env : Env α)
    (trialVectors : List (List α)) (workVec2 : List α) : α :=
  (List.range trialVectors.length).foldl
    (fun workDistance k =>
      let testDistance :=
        Rounded.norm fl env.sqrt (Rounded.vsub fl (trialVectors.getD k []) workVec2)
      if testDistance < workDistance ∨ k = 0 then testDistance else workDistance)
    0

/-- The value `workDistance` of `SetInputs` for the pair `(i, j)` in
floating-point arithmetic. -/
def Rounded.workDistance {α : Type} [LinearOrderedField α] (fl : α → α) (env : Env α)
    (s : Engine α) (points : Mat α) (lb ub : List α) (i j : Nat) : α :=
  if s.m_UsePeriodicDomain then
    Rounded.periodicDistance fl env (Rounded.GetTrialVectors fl s (points.row i) lb ub)
      (points.row j)
  else
    Rounded.norm fl env.sqrt (Rounded.vsub fl (points.row i) (points.row j))

/-- The operation `BaseLogLikelihood::SetInputs(points, labels, lb, ub)` in
floating-point arithmetic. -/
def Rounded.SetInputs {α : Type} [LinearOrderedField α] (fl : α → α) (env : Env α)
    (points : Mat α) (labels : List Nat) (lb ub : List α) (s : Engine α) : Engine α :=
  let s1 : Engine α :=
    { s with
      m_DomainDimension := points.n_cols
      m_SampleSize := points.n_rows
      m_PointLabels := labels
      m_DomainVolume :=
        (List.range points.n_cols).foldl
          (fun vol i => fl (vol * fl (ub.getD i 0 - lb.getD i 0))) 1 }
  let s2 : Engine α := { s1 with m_Neighborhood := SetNeighborhood s1.m_DomainDimension }
  let M0 := (s2.m_DistanceMatrix.set_size s2.m_SampleSize s2.m_SampleSize).fill 0
  { s2 with
    m_DistanceMatrix :=
      fillPairs s2.m_SampleSize (Rounded.workDistance fl env s2 points lb ub) M0 }

/-- The periodic image of a point as the specification words it, computed in
floating-point arithmetic. -/
def Rounded.periodicImage {α : Type} [LinearOrderedField α] (fl : α → α)
    (x lb ub : List α) (o : List Int) : List α :=
  (List.range x.length).map
    (fun k => fl (x.getD k 0 + fl (((o.getD k 0 : Int) : α) * fl (ub.getD k 0 - lb.getD k 0))))

/-- The Euclidean distance of two points computed in floating-point arithmetic. -/
def Rounded.euclideanDistance {α : Type} [LinearOrderedField α] (fl : α → α) (env : Env α)
    (p q : List α) : α :=
  Rounded.norm fl env.sqrt (Rounded.vsub fl p q)

/-- Nearest integer of a rational, a tie going to the even neighbour. -/
def roundHalfEven (q : ℚ) : Int :=
  if q - ⌊q⌋ < 1 / 2 then ⌊q⌋
  else if 1 / 2 < q - ⌊q⌋ then ⌊q⌋ + 1
  else if ⌊q⌋ % 2 = 0 then ⌊q⌋
  else ⌊q⌋ + 1

/-- Rounding to the format `double` (IEEE 754 binary64) in the default mode: the
nearest number with 53 significant bits, a tie going to the even significand.
The exponent is not bounded: overflow and subnormal numbers are left out. -/
def roundDouble (q : ℚ) : ℚ :=
  if q = 0 then 0
  else
    (if q < 0 then -1 else 1) *
      ((roundHalfEven (|q| / 2 ^ (Int.log 2 |q| - 52)) : ℚ) * 2 ^ (Int.log 2 |q| - 52))

/-- The function `std::sqrt` on `double`: the square root rounded to the format.
The root is taken to `200` binary places and a last place is set when it is not
exact, so that the rounding sees on which side of a tie the root lies. -/
def sqrtDouble (q : ℚ) : ℚ :=
  roundDouble
    (((2 * Nat.sqrt ⌊q * 4 ^ 200⌋.toNat +
        (if ((Nat.sqrt ⌊q * 4 ^ 200⌋.toNat * Nat.sqrt ⌊q * 4 ^ 200⌋.toNat : Nat) : ℚ)
            = q * 4 ^ 200 then 0 else 1) : Nat) : ℚ) / 2 ^ 201)

/-- The environment `exampleEnv` with the square root of the machine. -/
def doubleEnv : Env ℚ := { exampleEnv with sqrt := sqrtDouble }

/-- The numbers of type `double` nearest to `0.1` and to `0.9`, as the points of
a sample on the interval `[0, 1]`. -/
def doublePoints : Mat ℚ :=
  { n_rows := 2
    n_cols := 1
    elem := fun i _ =>
      if i = 0 then 3602879701896397 / 36028797018963968
      else 8106479329266893 / 9007199254740992 }

theorem fillPairs_inner_elem {α : Type} (v : Nat → Nat → α) (i : Nat) (js : List Nat)
    (M : Mat α) (a b : Nat) :
    (js.foldl (fun M j => (M.set i j (v i j)).set j i (v i j)) M).elem a b =
      if a = i ∧ b ∈ js then v i b
      else if b = i ∧ a ∈ js then v i a else M.elem a b := by
  induction js generalizing M with
  | nil => simp
  | cons j js ih =>
    rw [List.foldl_cons, ih]
    simp only [Mat.set, List.mem_cons]
    by_cases h1 : a = i ∧ b ∈ js
    · simp [h1]
    · by_cases h2 : b = i ∧ a ∈ js
      · rw [if_neg h1, if_pos h2]
        by_cases h3 : a = i ∧ (b = j ∨ b ∈ js)
        · rw [if_pos h3]
          rw [h3.1, h2.1]
        · rw [if_neg h3, if_pos ⟨h2.1, Or.inr h2.2⟩]
      · rw [if_neg h1, if_neg h2]
        by_cases h3 : a = j ∧ b = i
        · rw [if_pos h3]
          by_cases h4 : a = i ∧ (b = j ∨ b ∈ js)
          · rw [if_pos h4, h3.2]
            have : i = j := h4.1.symm.trans h3.1
            rw [this]
          · rw [if_neg h4, if_pos ⟨h3.2, Or.inl h3.1⟩, h3.1]
        · rw [if_neg h3]
          by_cases h4 : a = i ∧ b = j
          · rw [if_pos h4, if_pos ⟨h4.1, Or.inl h4.2⟩, h4.2]
          · rw [if_neg h4]
            have h5 : ¬ (a = i ∧ (b = j ∨ b ∈ js)) := by
              rintro ⟨ha, hb | hb⟩
              · exact h4 ⟨ha, hb⟩
              · exact h1 ⟨ha, hb⟩
            have h6 : ¬ (b = i ∧ (a = j ∨ a ∈ js)) := by
              rintro ⟨hb, ha | ha⟩
              · exact h3 ⟨ha, hb⟩
              · exact h2 ⟨hb, ha⟩
            rw [if_neg h5, if_neg h6]

theorem fillPairs_inner_dims {α : Type} (v : Nat → Nat → α) (i : Nat) (js : List Nat)
    (M : Mat α) :
    (js.foldl (fun M j => (M.set i j (v i j)).set j i (v i j)) M).n_rows = M.n_rows ∧
    (js.foldl (fun M j => (M.set i j (v i j)).set j i (v i j)) M).n_cols = M.n_cols := by
  induction js generalizing M with
  | nil => simp
  | cons j js ih =>
    rw [List.foldl_cons]
    exact ih _

theorem fillPairs_outer_elem {α : Type} (n : Nat) (v : Nat → Nat → α) (M : Mat α)
    (m a b : Nat) :
    ((List.range m).foldl
      (fun M i =>
        (List.range' (i + 1) (n - (i + 1))).foldl
          (fun M j => (M.set i j (v i j)).set j i (v i j)) M) M).elem a b =
      if a < m ∧ a < b ∧ b < n then v a b
      else if b < m ∧ b < a ∧ a < n then v b a else M.elem a b := by
  induction m with
  | zero => simp
  | succ m ih =>
    rw [List.range_succ, List.foldl_append, List.foldl_cons, List.foldl_nil,
      fillPairs_inner_elem, ih]
    simp only [List.mem_range'_1]
    split_ifs <;>
      first
        | rfl
        | (exfalso; omega)
        | (have hm : a = m := by omega
           subst hm; rfl)
        | (have hm : b = m := by omega
           subst hm; rfl)

/-- Entries of the matrix written by the double loop of `SetInputs`. -/
theorem fillPairs_elem {α : Type} (n : Nat) (v : Nat → Nat → α) (M : Mat α) (a b : Nat) :
    (fillPairs n v M).elem a b =
      if a < b ∧ b < n then v a b
      else if b < a ∧ a < n then v b a else M.elem a b := by
  unfold fillPairs
  rw [fillPairs_outer_elem]
  split_ifs <;> first | rfl | (exfalso; omega)

theorem fillPairs_dims {α : Type} (n : Nat) (v : Nat → Nat → α) (M : Mat α) :
    (fillPairs n v M).n_rows = M.n_rows ∧ (fillPairs n v M).n_cols = M.n_cols := by
  unfold fillPairs
  generalize List.range n = is
  induction is generalizing M with
  | nil => simp
  | cons i is ih =>
    rw [List.foldl_cons]
    have h := fillPairs_inner_dims v i (List.range' (i + 1) (n - (i + 1))) M
    have h2 := ih ((List.range' (i + 1) (n - (i + 1))).foldl
          (fun M j => (M.set i j (v i j)).set j i (v i j)) M)
    exact ⟨h2.1.trans h.1, h2.2.trans h.2⟩

/-! ## The neighbourhood -/

theorem neighborhoodStep_length (nb : List (List Int)) (i : Nat) :
    (neighborhoodStep nb i).length = 3 * nb.length := by
  unfold neighborhoodStep
  induction nb with
  | nil => simp
  | cons w nb ih =>
    simp only [List.flatMap_cons, List.length_append, List.length_map, List.length_cons,
      List.length_nil, ih]
    omega

theorem neighborhood_foldl_length (is : List Nat) (nb : List (List Int)) :
    (is.foldl neighborhoodStep nb).length = 3 ^ is.length * nb.length := by
  induction is generalizing nb with
  | nil => simp
  | cons i is ih =>
    rw [List.foldl_cons, ih, neighborhoodStep_length, List.length_cons, pow_succ]
    ring

theorem C5_size_aux (D : Nat) : (SetNeighborhood D).length = 3 ^ D := by
  unfold SetNeighborhood
  rw [neighborhood_foldl_length]
  simp

/-- C5: for every dimension `D`, the periodic neighbourhood built by
`SetNeighborhood(D)` has exactly `3 ^ D` entries, and for `D = 0` it is the list
whose only entry is the empty offset vector. -/
theorem C5_neighborhood_size (D : Nat) :
    (SetNeighborhood D).length = 3 ^ D ∧ SetNeighborhood 0 = [[]] := by
  exact ⟨C5_size_aux D, rfl⟩

theorem neighborhoodStep_zero_mem (nb : List (List Int)) (i : Nat) (z : List Int)
    (h : z ∈ nb) : z ∈ neighborhoodStep nb i := by
  unfold neighborhoodStep
  rw [List.mem_flatMap]
  refine ⟨z, h, ?_⟩
  rw [List.mem_map]
  refine ⟨0, by simp, ?_⟩
  rw [add_zero]
  by_cases hi : i < z.length
  · apply List.ext_getElem
    · simp
    · intro n h1 h2
      rw [List.getElem_set]
      split_ifs with hn
      · subst hn
        rw [List.getD_eq_getElem _ _ hi]
      · rfl
  · rw [List.set_eq_of_length_le (by omega)]

/-- The zero offset belongs to the neighbourhood. -/
theorem zero_mem_SetNeighborhood (n : Nat) : List.replicate n (0 : Int) ∈ SetNeighborhood n := by
  unfold SetNeighborhood
  have key : ∀ (is : List Nat) (nb : List (List Int)), List.replicate n (0 : Int) ∈ nb →
      List.replicate n (0 : Int) ∈ is.foldl neighborhoodStep nb := by
    intro is
    induction is with
    | nil => intro nb h; exact h
    | cons i is ih =>
      intro nb h
      rw [List.foldl_cons]
      exact ih _ (neighborhoodStep_zero_mem nb i _ h)
  exact key _ _ (by simp)

theorem neighborhoodStep_neg_mem (nb : List (List Int)) (i : Nat)
    (h : ∀ o ∈ nb, o.map (fun c => -c) ∈ nb) :
    ∀ o ∈ neighborhoodStep nb i, o.map (fun c => -c) ∈ neighborhoodStep nb i := by
  intro o ho
  unfold neighborhoodStep at ho ⊢
  rw [List.mem_flatMap] at ho ⊢
  obtain ⟨w, hw, ho⟩ := ho
  rw [List.mem_map] at ho
  obtain ⟨k, hk, rfl⟩ := ho
  refine ⟨w.map (fun c => -c), h w hw, ?_⟩
  rw [List.mem_map]
  refine ⟨-k, ?_, ?_⟩
  · simp only [List.mem_cons, List.mem_singleton, List.not_mem_nil, or_false] at hk ⊢
    omega
  · rw [List.map_set]
    congr 1
    by_cases hi : i < w.length
    · rw [List.getD_eq_getElem _ _ (by simpa using hi), List.getD_eq_getElem _ _ hi]
      simp only [List.getElem_map]
      ring
    · rw [List.getD_eq_default _ _ (by simpa using hi), List.getD_eq_default _ _ (by omega)]
      ring

/-- The neighbourhood contains the negation of each of its offsets. -/
theorem neg_mem_SetNeighborhood (n : Nat) :
    ∀ o ∈ SetNeighborhood n, o.map (fun c => -c) ∈ SetNeighborhood n := by
  unfold SetNeighborhood
  have key : ∀ (is : List Nat) (nb : List (List Int)),
      (∀ o ∈ nb, o.map (fun c => -c) ∈ nb) →
      ∀ o ∈ is.foldl neighborhoodStep nb, o.map (fun c => -c) ∈ is.foldl neighborhoodStep nb := by
    intro is
    induction is with
    | nil => intro nb h; exact h
    | cons i is ih =>
      intro nb h
      rw [List.foldl_cons]
      exact ih _ (neighborhoodStep_neg_mem nb i h)
  apply key
  intro o ho
  rw [List.mem_singleton] at ho
  subst ho
  simp

/-! ## Trial vectors -/

theorem getD_map_range {α : Type} (f : Nat → α) (n k : Nat) (d : α) :
    ((List.range n).map f).getD k d = if k < n then f k else d := by
  by_cases hk : k < n
  · rw [if_pos hk, List.getD_eq_getElem _ _ (by simpa using hk)]
    simp
  · rw [if_neg hk, List.getD_eq_default _ _ (by simpa using hk)]

theorem trialVector_foldl {α : Type} [LinearOrderedField α] (c : Nat → α) (x : List α)
    (m : Nat) (hm : m ≤ x.length) :
    (List.range m).foldl (fun workVector j => workVector.set j (workVector.getD j 0 + c j)) x =
      (List.range x.length).map (fun j => if j < m then x.getD j 0 + c j else x.getD j 0) := by
  induction m with
  | zero =>
    apply List.ext_getElem
    · simp
    · intro k h1 h2
      have hk : k < x.length := by simpa using h1
      simp [List.getElem?_eq_getElem hk]
  | succ m ih =>
    rw [List.range_succ, List.foldl_append, List.foldl_cons, List.foldl_nil, ih (by omega)]
    apply List.ext_getElem
    · simp
    · intro k h1 h2
      have hk : k < x.length := by simpa using h2
      rw [List.getElem_set]
      have hmx : m < x.length := by omega
      simp only [getD_map_range, List.getElem_map, List.getElem_range, lt_irrefl, if_false,
        hmx, if_true]
      by_cases hkm : m = k
      · subst hkm
        rw [if_pos rfl, if_pos (by omega)]
      · rw [if_neg hkm]
        by_cases hlt : k < m
        · rw [if_pos hlt, if_pos (by omega)]
        · rw [if_neg hlt, if_neg (by omega)]

/-- On a point with `dim` coordinates the loop of `GetTrialVectors` computes the
periodic image of the specification. -/
theorem trialVector_eq_periodicImage {α : Type} [LinearOrderedField α] (dim : Nat)
    (x lb ub : List α) (o : List Int) (hx : x.length = dim) :
    trialVector dim x lb ub o = periodicImage x lb ub o := by
  unfold trialVector periodicImage
  rw [trialVector_foldl (fun j => ((o.getD j 0 : Int) : α) * (ub.getD j 0 - lb.getD j 0)) x dim
    (by omega)]
  apply List.map_congr_left
  intro k hk
  rw [List.mem_range] at hk
  rw [if_pos (by omega)]

theorem periodicImage_zero {α : Type} [LinearOrderedField α] (x lb ub : List α) (n : Nat) :
    periodicImage x lb ub (List.replicate n 0) = x := by
  unfold periodicImage
  apply List.ext_getElem
  · simp
  · intro k h1 h2
    have h0 : (List.replicate n (0 : Int)).getD k 0 = 0 := by
      by_cases hk : k < n
      · rw [List.getD_eq_getElem _ _ (by simpa using hk)]
        simp
      · rw [List.getD_eq_default _ _ (by simpa using hk)]
    have hk : k < x.length := h2
    simp [h0, List.getElem?_eq_getElem hk]

theorem Mat.row_length {α : Type} (M : Mat α) (i : Nat) : (M.row i).length = M.n_cols := by
  simp [Mat.row]

/-! ## The running minimum -/

theorem periodicDistance_foldl {α : Type} [LinearOrderedField α] (d : Nat → α) (n : Nat) :
    (∀ k, k < n + 1 →
      (List.range (n + 1)).foldl
        (fun workDistance k => if d k < workDistance ∨ k = 0 then d k else workDistance) 0
        ≤ d k) ∧
    (∃ k, k < n + 1 ∧
      (List.range (n + 1)).foldl
        (fun workDistance k => if d k < workDistance ∨ k = 0 then d k else workDistance) 0
        = d k) := by
  induction n with
  | zero =>
    have h1 : (List.range (0 + 1)).foldl
        (fun workDistance k => if d k < workDistance ∨ k = 0 then d k else workDistance) 0
        = d 0 := by
      simp [List.range_succ]
    rw [h1]
    refine ⟨?_, 0, by omega, rfl⟩
    intro k hk
    have : k = 0 := by omega
    rw [this]
  | succ n ih =>
    rw [List.range_succ, List.foldl_append, List.foldl_cons, List.foldl_nil]
    generalize (List.range (n + 1)).foldl
        (fun workDistance k => if d k < workDistance ∨ k = 0 then d k else workDistance) 0 = r at ih
    obtain ⟨hle, k0, hk0, heq⟩ := ih
    by_cases hlt : d (n + 1) < r
    · rw [if_pos (Or.inl hlt)]
      refine ⟨?_, n + 1, by omega, rfl⟩
      intro k hk
      by_cases hkn : k = n + 1
      · rw [hkn]
      · exact le_of_lt (lt_of_lt_of_le hlt (hle k (by omega)))
    · rw [if_neg (by simp [hlt])]
      refine ⟨?_, k0, by omega, heq⟩
      intro k hk
      by_cases hkn : k = n + 1
      · rw [hkn]; exact not_lt.mp hlt
      · exact hle k (by omega)

/-! ## The distance matrix of `SetInputs` -/

/-- The distance that `SetInputs` computes for the pair `(i, j)`, `i < j`, as a
function of the inputs and of the periodicity setting alone. -/
theorem workDistance_SetInputs {α : Type} [LinearOrderedField α] (env : Env α)
    (points : Mat α) (labels : List Nat) (lb ub : List α) (s : Engine α) (i j : Nat) :
    workDistance env
      { s with
        m_DomainDimension := points.n_cols
        m_SampleSize := points.n_rows
        m_PointLabels := labels
        m_DomainVolume :=
          (List.range points.n_cols).foldl (fun vol i => vol * (ub.getD i 0 - lb.getD i 0)) 1
        m_Neighborhood := SetNeighborhood points.n_cols } points lb ub i j =
      if s.m_UsePeriodicDomain then
        periodicDistance env
          ((SetNeighborhood points.n_cols).map (trialVector points.n_cols (points.row i) lb ub))
          (points.row j)
      else euclideanDistance env (points.row i) (points.row j) := by
  rfl

theorem SetInputs_elem {α : Type} [LinearOrderedField α] (env : Env α)
    (points : Mat α) (labels : List Nat) (lb ub : List α) (s : Engine α) (a b : Nat) :
    (SetInputs env points labels lb ub s).m_DistanceMatrix.elem a b =
      if a < b ∧ b < points.n_rows then
        (if s.m_UsePeriodicDomain then
          periodicDistance env
            ((SetNeighborhood points.n_cols).map (trialVector points.n_cols (points.row a) lb ub))
            (points.row b)
        else euclideanDistance env (points.row a) (points.row b))
      else if b < a ∧ a < points.n_rows then
        (if s.m_UsePeriodicDomain then
          periodicDistance env
            ((SetNeighborhood points.n_cols).map (trialVector points.n_cols (points.row b) lb ub))
            (points.row a)
        else euclideanDistance env (points.row b) (points.row a))
      else 0 := by
  unfold SetInputs
  simp only []
  rw [fillPairs_elem, workDistance_SetInputs, workDistance_SetInputs]
  rfl

theorem SetInputs_dims {α : Type} [LinearOrderedField α] (env : Env α)
    (points : Mat α) (labels : List Nat) (lb ub : List α) (s : Engine α) :
    (SetInputs env points labels lb ub s).m_DistanceMatrix.n_rows = points.n_rows ∧
    (SetInputs env points labels lb ub s).m_DistanceMatrix.n_cols = points.n_rows := by
  unfold SetInputs
  simp only []
  exact fillPairs_dims _ _ _

/-- The running minimum over the images of a point is a lower bound of the
distances from the images to `w`, and is attained at an offset of the list. -/
theorem periodicDistance_isMin {α : Type} [LinearOrderedField α] (env : Env α)
    (dim : Nat) (x lb ub w : List α) (hx : x.length = dim) :
    (∀ o ∈ SetNeighborhood dim,
      periodicDistance env ((SetNeighborhood dim).map (trialVector dim x lb ub)) w
        ≤ euclideanDistance env (periodicImage x lb ub o) w) ∧
    (∃ o ∈ SetNeighborhood dim,
      periodicDistance env ((SetNeighborhood dim).map (trialVector dim x lb ub)) w
        = euclideanDistance env (periodicImage x lb ub o) w) := by
  have hlen : (SetNeighborhood dim).length = (3 ^ dim - 1) + 1 := by
    have h := (C5_size_aux dim)
    have hpos : 0 < 3 ^ dim := by positivity
    omega
  have hd : ∀ k (hk : k < (SetNeighborhood dim).length),
      norm env.sqrt (vsub (((SetNeighborhood dim).map (trialVector dim x lb ub)).getD k []) w) =
        euclideanDistance env (periodicImage x lb ub ((SetNeighborhood dim)[k])) w := by
    intro k hk
    rw [List.getD_eq_getElem _ _ (by simpa using hk)]
    simp only [List.getElem_map]
    rw [trialVector_eq_periodicImage dim x lb ub _ hx]
    rfl
  have hfold := periodicDistance_foldl
    (fun k => norm env.sqrt
      (vsub (((SetNeighborhood dim).map (trialVector dim x lb ub)).getD k []) w)) (3 ^ dim - 1)
  have hpd : periodicDistance env ((SetNeighborhood dim).map (trialVector dim x lb ub)) w =
      (List.range ((3 ^ dim - 1) + 1)).foldl
        (fun workDistance k =>
          if (fun k => norm env.sqrt
              (vsub (((SetNeighborhood dim).map (trialVector dim x lb ub)).getD k []) w)) k
              < workDistance ∨ k = 0
          then (fun k => norm env.sqrt
              (vsub (((SetNeighborhood dim).map (trialVector dim x lb ub)).getD k []) w)) k
          else workDistance) 0 := by
    unfold periodicDistance
    rw [List.length_map, hlen]
  rw [hpd]
  obtain ⟨hle, k0, hk0, heq⟩ := hfold
  constructor
  · intro o ho
    obtain ⟨k, hk, rfl⟩ := List.getElem_of_mem ho
    have h1 := hle k (by omega)
    rw [hd k hk] at h1
    exact h1
  · have hk : k0 < (SetNeighborhood dim).length := by omega
    refine ⟨(SetNeighborhood dim)[k0], List.getElem_mem _, ?_⟩
    rw [hd k0 hk] at heq
    exact heq

/-! ## Symmetries of the Euclidean distance -/

theorem vsub_sq_comm {α : Type} [LinearOrderedField α] (p q : List α) :
    (vsub p q).map (fun c => c * c) = (vsub q p).map (fun c => c * c) := by
  unfold vsub
  induction p generalizing q with
  | nil => cases q <;> simp
  | cons a p ih =>
    cases q with
    | nil => simp
    | cons b q =>
      simp only [List.zipWith_cons_cons, List.map_cons]
      rw [ih q]
      congr 1
      ring

theorem euclideanDistance_comm {α : Type} [LinearOrderedField α] (env : Env α)
    (p q : List α) : euclideanDistance env p q = euclideanDistance env q p := by
  unfold euclideanDistance norm
  rw [vsub_sq_comm]

theorem vsub_self_sq_sum {α : Type} [LinearOrderedField α] (p : List α) :
    ((vsub p p).map (fun c => c * c)).sum = 0 := by
  unfold vsub
  induction p with
  | nil => simp
  | cons a p ih =>
    simp only [List.zipWith_cons_cons, List.map_cons, List.sum_cons]
    rw [ih]
    ring

theorem euclideanDistance_self {α : Type} [LinearOrderedField α] (env : Env α)
    (p : List α) (h0 : env.sqrt 0 = 0) : euclideanDistance env p p = 0 := by
  unfold euclideanDistance norm
  rw [vsub_self_sq_sum, h0]

/-! ## Claims on the distance matrix -/

/-- C1: for every point set with `N` rows, all labels and bounds, and either
periodicity setting, the distance matrix left by `SetInputs` is `N x N`,
symmetric, and zero on the diagonal; for `N = 1` it is the `1 x 1` zero matrix. -/
theorem C1_distance_matrix_symmetric_zero_diagonal {α : Type} [LinearOrderedField α]
    (env : Env α) (points : Mat α) (labels : List Nat) (lb ub : List α) (s : Engine α)
    (periodic : Bool) :
    (SetInputs env points labels lb ub (SetUsePeriodicDomain periodic s)).m_DistanceMatrix.n_rows
      = points.n_rows ∧
    (SetInputs env points labels lb ub (SetUsePeriodicDomain periodic s)).m_DistanceMatrix.n_cols
      = points.n_rows ∧
    (∀ i j,
      (SetInputs env points labels lb ub (SetUsePeriodicDomain periodic s)).m_DistanceMatrix.elem i j
        = (SetInputs env points labels lb ub
            (SetUsePeriodicDomain periodic s)).m_DistanceMatrix.elem j i) ∧
    (∀ i,
      (SetInputs env points labels lb ub (SetUsePeriodicDomain periodic s)).m_DistanceMatrix.elem i i
        = 0) ∧
    (points.n_rows = 1 →
      (SetInputs env points labels lb ub (SetUsePeriodicDomain periodic s)).m_DistanceMatrix.toLists
        = [[0]]) := by
  have hdiag : ∀ i,
      (SetInputs env points labels lb ub (SetUsePeriodicDomain periodic s)).m_DistanceMatrix.elem i i
        = 0 := by
    intro i
    have h1 : ¬ (i < i ∧ i < points.n_rows) := by omega
    rw [SetInputs_elem]
    simp only [if_neg h1]
  obtain ⟨hr, hc⟩ := SetInputs_dims env points labels lb ub (SetUsePeriodicDomain periodic s)
  refine ⟨hr, hc, ?_, hdiag, ?_⟩
  · intro i j
    rw [SetInputs_elem, SetInputs_elem]
    rcases Nat.lt_trichotomy i j with h | h | h
    · have h1 : ¬ (j < i ∧ i < points.n_rows) := by omega
      by_cases hn : j < points.n_rows
      · simp only [if_pos (show i < j ∧ j < points.n_rows from ⟨h, hn⟩), if_neg h1]
      · have h2 : ¬ (i < j ∧ j < points.n_rows) := by omega
        simp only [if_neg h1, if_neg h2]
    · rw [h]
    · have h1 : ¬ (i < j ∧ j < points.n_rows) := by omega
      by_cases hn : i < points.n_rows
      · simp only [if_pos (show j < i ∧ i < points.n_rows from ⟨h, hn⟩), if_neg h1]
      · have h2 : ¬ (j < i ∧ i < points.n_rows) := by omega
        simp only [if_neg h1, if_neg h2]
  · intro h1
    unfold Mat.toLists
    rw [hr, hc, h1]
    simp [List.range_succ, hdiag]

/-- C2: on the same points and bounds, every entry of the distance matrix that
`SetInputs` computes in periodic mode is at most the entry it computes in
non-periodic mode. -/
theorem C2_periodic_le_nonperiodic {α : Type} [LinearOrderedField α]
    (env : Env α) (points : Mat α) (labels : List Nat) (lb ub : List α) (s : Engine α)
    (i j : Nat) :
    (SetInputs env points labels lb ub (SetUsePeriodicDomain true s)).m_DistanceMatrix.elem i j
      ≤ (SetInputs env points labels lb ub
          (SetUsePeriodicDomain false s)).m_DistanceMatrix.elem i j := by
  have key : ∀ a b : Nat,
      periodicDistance env
          ((SetNeighborhood points.n_cols).map (trialVector points.n_cols (points.row a) lb ub))
          (points.row b)
        ≤ euclideanDistance env (points.row a) (points.row b) := by
    intro a b
    have h := (periodicDistance_isMin env points.n_cols (points.row a) lb ub (points.row b)
      (Mat.row_length points a)).1 _ (zero_mem_SetNeighborhood points.n_cols)
    rw [periodicImage_zero] at h
    exact h
  rw [SetInputs_elem, SetInputs_elem]
  simp only [SetUsePeriodicDomain, if_true, Bool.false_eq_true, if_false]
  by_cases h1 : i < j ∧ j < points.n_rows
  · rw [if_pos h1, if_pos h1]
    exact key i j
  · rw [if_neg h1, if_neg h1]
    by_cases h2 : j < i ∧ i < points.n_rows
    · rw [if_pos h2, if_pos h2]
      exact key j i
    · rw [if_neg h2, if_neg h2]

/-- C4: in non-periodic mode every entry `(i, j)` of the distance matrix left by
`SetInputs` is the Euclidean distance between point `i` and point `j` (the
square root of zero being zero); for two points at distance one half the matrix
is `[[0, 1/2], [1/2, 0]]`. -/
theorem C4_nonperiodic_entry_is_euclidean {α : Type} [LinearOrderedField α]
    (env : Env α) (points : Mat α) (labels : List Nat) (lb ub : List α) (s : Engine α)
    (h0 : env.sqrt 0 = 0) :
    (∀ i j, i < points.n_rows → j < points.n_rows →
      (SetInputs env points labels lb ub (SetUsePeriodicDomain false s)).m_DistanceMatrix.elem i j
        = euclideanDistance env (points.row i) (points.row j)) ∧
    (points.n_rows = 2 → euclideanDistance env (points.row 0) (points.row 1) = 1 / 2 →
      (SetInputs env points labels lb ub (SetUsePeriodicDomain false s)).m_DistanceMatrix.toLists
        = [[0, 1 / 2], [1 / 2, 0]]) := by
  have hall : ∀ i j, i < points.n_rows → j < points.n_rows →
      (SetInputs env points labels lb ub (SetUsePeriodicDomain false s)).m_DistanceMatrix.elem i j
        = euclideanDistance env (points.row i) (points.row j) := by
    intro i j hi hj
    rw [SetInputs_elem]
    simp only [SetUsePeriodicDomain, Bool.false_eq_true, if_false]
    rcases Nat.lt_trichotomy i j with h | h | h
    · simp only [if_pos (show i < j ∧ j < points.n_rows from ⟨h, hj⟩)]
    · have h1 : ¬ (j < j ∧ j < points.n_rows) := by omega
      rw [h]
      simp only [if_neg h1, euclideanDistance_self env _ h0]
    · have h1 : ¬ (i < j ∧ j < points.n_rows) := by omega
      simp only [if_neg h1, if_pos (show j < i ∧ i < points.n_rows from ⟨h, hi⟩)]
      exact euclideanDistance_comm env _ _
  refine ⟨hall, ?_⟩
  intro h2 hd
  obtain ⟨hr, hc⟩ := SetInputs_dims env points labels lb ub (SetUsePeriodicDomain false s)
  unfold Mat.toLists
  rw [hr, hc, h2]
  have e00 := hall 0 0 (by omega) (by omega)
  have e01 := hall 0 1 (by omega) (by omega)
  have e10 := hall 1 0 (by omega) (by omega)
  have e11 := hall 1 1 (by omega) (by omega)
  rw [euclideanDistance_self env _ h0] at e00 e11
  rw [hd] at e01
  rw [euclideanDistance_comm, hd] at e10
  simp [List.range_succ, e00, e01, e10, e11]

theorem sqrtQ_zero : sqrtQ 0 = 0 := by
  simp [sqrtQ]

theorem examplePoints_distance :
    euclideanDistance exampleEnv (examplePoints.row 0) (examplePoints.row 1) = 1 / 2 := by
  have h4 : Nat.sqrt 4 = 2 := Nat.sqrt_eq 2
  have hrow0 : examplePoints.row 0 = [1 / 4, 1 / 2] := by
    simp [Mat.row, examplePoints, List.range_succ]
  have hrow1 : examplePoints.row 1 = [3 / 4, 1 / 2] := by
    simp [Mat.row, examplePoints, List.range_succ]
  rw [hrow0, hrow1]
  simp only [euclideanDistance, norm, vsub, exampleEnv, List.zipWith_cons_cons,
    List.zipWith_nil_right, List.map_cons, List.map_nil, List.sum_cons, List.sum_nil]
  have hv : ((1 / 4 - 3 / 4) * (1 / 4 - 3 / 4) + ((1 / 2 - 1 / 2) * (1 / 2 - 1 / 2) + 0) : ℚ)
      = 1 / 4 := by norm_num
  rw [hv]
  unfold sqrtQ
  norm_num [h4]

/-- Witness of C4: the two points `(1/4, 1/2)` and `(3/4, 1/2)` of the unit
square, both of type 1, give the matrix `[[0, 1/2], [1/2, 0]]`. -/
theorem C4_nonperiodic_entry_is_euclidean_witness :
    exampleEnv.sqrt 0 = 0 ∧
    (SetInputs exampleEnv examplePoints [1, 1] [0, 0] [1, 1]
        (SetUsePeriodicDomain false exampleEngine)).m_DistanceMatrix.toLists
      = [[0, 1 / 2], [1 / 2, 0]] :=
  ⟨sqrtQ_zero,
   (C4_nonperiodic_entry_is_euclidean exampleEnv examplePoints [1, 1] [0, 0] [1, 1]
      exampleEngine sqrtQ_zero).2 rfl examplePoints_distance⟩

/-! ## The parameter mapping -/

theorem sameCache_refl {α : Type} (s : Engine α) : sameCache s s :=
  ⟨rfl, rfl, rfl, rfl, rfl, rfl, rfl, rfl, rfl, rfl, rfl⟩

theorem sameCache_trans {α : Type} {s t u : Engine α} (h1 : sameCache s t)
    (h2 : sameCache t u) : sameCache s u := by
  unfold sameCache at h1 h2 ⊢
  refine ⟨h2.1.trans h1.1, h2.2.1.trans h1.2.1, h2.2.2.1.trans h1.2.2.1,
    h2.2.2.2.1.trans h1.2.2.2.1, h2.2.2.2.2.1.trans h1.2.2.2.2.1,
    h2.2.2.2.2.2.1.trans h1.2.2.2.2.2.1, h2.2.2.2.2.2.2.1.trans h1.2.2.2.2.2.2.1, ?_⟩
  have t1 := h1.2.2.2.2.2.2.2
  have t2 := h2.2.2.2.2.2.2.2
  exact ⟨t2.1.trans t1.1, t2.2.1.trans t1.2.1, t2.2.2.1.trans t1.2.2.1,
    t2.2.2.2.trans t1.2.2.2⟩

theorem SetModelParameters_k1_sameCache {α : Type} [LinearOrderedField α] (env : Env α)
    (x : List α) (s : Engine α) : sameCache s (SetModelParameters_k1 env x s) := by
  unfold SetModelParameters_k1
  simp only []
  split_ifs <;> exact ⟨rfl, rfl, rfl, rfl, rfl, rfl, rfl, rfl, rfl, rfl, rfl⟩

theorem SetModelParameters_k2_sameCache {α : Type} [LinearOrderedField α] (env : Env α)
    (x : List α) (s : Engine α) : sameCache s (SetModelParameters_k2 env x s) := by
  unfold SetModelParameters_k2
  simp only []
  split_ifs <;> exact ⟨rfl, rfl, rfl, rfl, rfl, rfl, rfl, rfl, rfl, rfl, rfl⟩

theorem SetModelParameters_k12star_sameCache {α : Type} [LinearOrderedField α]
    (x : List α) (s : Engine α) : sameCache s (SetModelParameters_k12star x s) := by
  unfold SetModelParameters_k12star
  simp only []
  split_ifs <;> exact ⟨rfl, rfl, rfl, rfl, rfl, rfl, rfl, rfl, rfl, rfl, rfl⟩

theorem SetModelParameters_beta12_sameCache {α : Type} [LinearOrderedField α]
    (x : List α) (s : Engine α) : sameCache s (SetModelParameters_beta12 x s) := by
  unfold SetModelParameters_beta12
  simp only []
  split_ifs <;> exact ⟨rfl, rfl, rfl, rfl, rfl, rfl, rfl, rfl, rfl, rfl, rfl⟩

theorem SetModelParameters_alpha_sameCache {α : Type} [LinearOrderedField α] (env : Env α)
    (x : List α) (s : Engine α) : sameCache s (SetModelParameters_alpha env x s) := by
  unfold SetModelParameters_alpha
  simp only []
  split_ifs <;> exact ⟨rfl, rfl, rfl, rfl, rfl, rfl, rfl, rfl, rfl, rfl, rfl⟩

theorem SetModelParameters_finish_sameCache {α : Type} [LinearOrderedField α] (env : Env α)
    (s : Engine α) : sameCache s (SetModelParameters_finish env s) := by
  unfold SetModelParameters_finish
  simp only []
  split_ifs <;> exact ⟨rfl, rfl, rfl, rfl, rfl, rfl, rfl, rfl, rfl, rfl, rfl⟩

/-- The parameter mapping changes neither the configuration nor the cached terms. -/
theorem SetModelParameters_sameCache {α : Type} [LinearOrderedField α] (env : Env α)
    (x : List α) (s : Engine α) : sameCache s (SetModelParameters env x s) := by
  unfold SetModelParameters
  have h0 : sameCache s { s with m_Modified := false } := ⟨rfl, rfl, rfl, rfl, rfl, rfl, rfl, rfl, rfl, rfl, rfl⟩
  exact sameCache_trans h0
    (sameCache_trans (SetModelParameters_k1_sameCache env x _)
      (sameCache_trans (SetModelParameters_k2_sameCache env x _)
        (sameCache_trans (SetModelParameters_k12star_sameCache x _)
          (sameCache_trans (SetModelParameters_beta12_sameCache x _)
            (sameCache_trans (SetModelParameters_alpha_sameCache env x _)
              (SetModelParameters_finish_sameCache env _))))))

theorem SetModelParameters_k1_of_eq {α : Type} [LinearOrderedField α] (env : Env α)
    (x : List α) (s : Engine α) (h : s.m_FirstAmplitude = x.getD 0 0) :
    SetModelParameters_k1 env x s = s := by
  unfold SetModelParameters_k1
  simp only []
  rw [if_neg (by simpa using h)]

theorem SetModelParameters_k2_of_eq {α : Type} [LinearOrderedField α] (env : Env α)
    (x : List α) (s : Engine α) (h : s.m_SecondAmplitude = x.getD 1 0) :
    SetModelParameters_k2 env x s = s := by
  unfold SetModelParameters_k2
  simp only []
  rw [if_neg (by simpa using h)]

theorem SetModelParameters_k12star_of_eq {α : Type} [LinearOrderedField α]
    (x : List α) (s : Engine α) (h : s.m_NormalizedCrossAmplitude = x.getD 2 0) :
    SetModelParameters_k12star x s = s := by
  unfold SetModelParameters_k12star
  simp only []
  rw [if_neg (by simpa using h)]

theorem SetModelParameters_beta12_of_eq {α : Type} [LinearOrderedField α]
    (x : List α) (s : Engine α) (h : s.m_CrossBeta = x.getD 3 0) :
    SetModelParameters_beta12 x s = s := by
  unfold SetModelParameters_beta12
  simp only []
  rw [if_neg (by simpa using h)]

theorem SetModelParameters_alpha_of_eq {α : Type} [LinearOrderedField α] (env : Env α)
    (x : List α) (s : Engine α)
    (h : s.m_EstimateIntensities = true →
      s.m_NormalizedFirstAlpha = x.getD 4 0 ∧ s.m_NormalizedSecondAlpha = x.getD 5 0) :
    SetModelParameters_alpha env x s = s := by
  unfold SetModelParameters_alpha
  by_cases he : s.m_EstimateIntensities = true
  · obtain ⟨h6, h7⟩ := h he
    rw [if_pos he]
    simp only [ne_eq, h6, h7, not_true_eq_false, if_false]
  · rw [if_neg he]

theorem SetModelParameters_finish_of_clean {α : Type} [LinearOrderedField α] (env : Env α)
    (s : Engine α) (h : s.m_Modified = false) : SetModelParameters_finish env s = s := by
  unfold SetModelParameters_finish
  rw [if_neg (by simp [h])]

/-- When the stored raw values are those of `x`, the parameter mapping only
clears the dirty flag, whatever the environment. -/
theorem SetModelParameters_of_rawValuesAre {α : Type} [LinearOrderedField α] (env : Env α)
    (x : List α) (s : Engine α) (h : rawValuesAre x s) :
    SetModelParameters env x s = { s with m_Modified := false } := by
  obtain ⟨h1, h2, h3, h4, h5⟩ := h
  unfold SetModelParameters
  rw [SetModelParameters_k1_of_eq env x { s with m_Modified := false } h1,
    SetModelParameters_k2_of_eq env x { s with m_Modified := false } h2,
    SetModelParameters_k12star_of_eq x { s with m_Modified := false } h3,
    SetModelParameters_beta12_of_eq x { s with m_Modified := false } h4,
    SetModelParameters_alpha_of_eq env x { s with m_Modified := false } h5,
    SetModelParameters_finish_of_clean env { s with m_Modified := false } rfl]

theorem SetModelParameters_k1_raw {α : Type} [LinearOrderedField α] (env : Env α)
    (x : List α) (s : Engine α) :
    (SetModelParameters_k1 env x s).m_FirstAmplitude = x.getD 0 0 ∧
    (SetModelParameters_k1 env x s).m_SecondAmplitude = s.m_SecondAmplitude ∧
    (SetModelParameters_k1 env x s).m_NormalizedCrossAmplitude = s.m_NormalizedCrossAmplitude ∧
    (SetModelParameters_k1 env x s).m_CrossBeta = s.m_CrossBeta ∧
    (SetModelParameters_k1 env x s).m_NormalizedFirstAlpha = s.m_NormalizedFirstAlpha ∧
    (SetModelParameters_k1 env x s).m_NormalizedSecondAlpha = s.m_NormalizedSecondAlpha := by
  unfold SetModelParameters_k1
  simp only []
  by_cases h : s.m_FirstAmplitude = x.getD 0 0
  · rw [if_neg (not_not.mpr h)]
    exact ⟨h, rfl, rfl, rfl, rfl, rfl⟩
  · rw [if_pos h]
    exact ⟨rfl, rfl, rfl, rfl, rfl, rfl⟩

theorem SetModelParameters_k2_raw {α : Type} [LinearOrderedField α] (env : Env α)
    (x : List α) (s : Engine α) :
    (SetModelParameters_k2 env x s).m_FirstAmplitude = s.m_FirstAmplitude ∧
    (SetModelParameters_k2 env x s).m_SecondAmplitude = x.getD 1 0 ∧
    (SetModelParameters_k2 env x s).m_NormalizedCrossAmplitude = s.m_NormalizedCrossAmplitude ∧
    (SetModelParameters_k2 env x s).m_CrossBeta = s.m_CrossBeta ∧
    (SetModelParameters_k2 env x s).m_NormalizedFirstAlpha = s.m_NormalizedFirstAlpha ∧
    (SetModelParameters_k2 env x s).m_NormalizedSecondAlpha = s.m_NormalizedSecondAlpha := by
  unfold SetModelParameters_k2
  simp only []
  by_cases h : s.m_SecondAmplitude = x.getD 1 0
  · rw [if_neg (not_not.mpr h)]
    exact ⟨rfl, h, rfl, rfl, rfl, rfl⟩
  · rw [if_pos h]
    exact ⟨rfl, rfl, rfl, rfl, rfl, rfl⟩

theorem SetModelParameters_k12star_raw {α : Type} [LinearOrderedField α]
    (x : List α) (s : Engine α) :
    (SetModelParameters_k12star x s).m_FirstAmplitude = s.m_FirstAmplitude ∧
    (SetModelParameters_k12star x s).m_SecondAmplitude = s.m_SecondAmplitude ∧
    (SetModelParameters_k12star x s).m_NormalizedCrossAmplitude = x.getD 2 0 ∧
    (SetModelParameters_k12star x s).m_CrossBeta = s.m_CrossBeta ∧
    (SetModelParameters_k12star x s).m_NormalizedFirstAlpha = s.m_NormalizedFirstAlpha ∧
    (SetModelParameters_k12star x s).m_NormalizedSecondAlpha = s.m_NormalizedSecondAlpha := by
  unfold SetModelParameters_k12star
  simp only []
  by_cases h : s.m_NormalizedCrossAmplitude = x.getD 2 0
  · rw [if_neg (not_not.mpr h)]
    exact ⟨rfl, rfl, h, rfl, rfl, rfl⟩
  · rw [if_pos h]
    exact ⟨rfl, rfl, rfl, rfl, rfl, rfl⟩

theorem SetModelParameters_beta12_raw {α : Type} [LinearOrderedField α]
    (x : List α) (s : Engine α) :
    (SetModelParameters_beta12 x s).m_FirstAmplitude = s.m_FirstAmplitude ∧
    (SetModelParameters_beta12 x s).m_SecondAmplitude = s.m_SecondAmplitude ∧
    (SetModelParameters_beta12 x s).m_NormalizedCrossAmplitude = s.m_NormalizedCrossAmplitude ∧
    (SetModelParameters_beta12 x s).m_CrossBeta = x.getD 3 0 ∧
    (SetModelParameters_beta12 x s).m_NormalizedFirstAlpha = s.m_NormalizedFirstAlpha ∧
    (SetModelParameters_beta12 x s).m_NormalizedSecondAlpha = s.m_NormalizedSecondAlpha := by
  unfold SetModelParameters_beta12
  simp only []
  by_cases h : s.m_CrossBeta = x.getD 3 0
  · rw [if_neg (not_not.mpr h)]
    exact ⟨rfl, rfl, rfl, h, rfl, rfl⟩
  · rw [if_pos h]
    exact ⟨rfl, rfl, rfl, rfl, rfl, rfl⟩

theorem SetModelParameters_alpha_raw {α : Type} [LinearOrderedField α] (env : Env α)
    (x : List α) (s : Engine α) :
    (SetModelParameters_alpha env x s).m_FirstAmplitude = s.m_FirstAmplitude ∧
    (SetModelParameters_alpha env x s).m_SecondAmplitude = s.m_SecondAmplitude ∧
    (SetModelParameters_alpha env x s).m_NormalizedCrossAmplitude = s.m_NormalizedCrossAmplitude ∧
    (SetModelParameters_alpha env x s).m_CrossBeta = s.m_CrossBeta ∧
    (s.m_EstimateIntensities = true →
      (SetModelParameters_alpha env x s).m_NormalizedFirstAlpha = x.getD 4 0 ∧
      (SetModelParameters_alpha env x s).m_NormalizedSecondAlpha = x.getD 5 0) := by
  unfold SetModelParameters_alpha
  by_cases he : s.m_EstimateIntensities = true
  · rw [if_pos he]
    simp only []
    by_cases h2 : s.m_NormalizedFirstAlpha = x.getD 4 0
    · rw [if_neg (not_not.mpr h2)]
      by_cases h3 : s.m_NormalizedSecondAlpha = x.getD 5 0
      · rw [if_neg (not_not.mpr h3)]
        exact ⟨rfl, rfl, rfl, rfl, fun _ => ⟨h2, h3⟩⟩
      · rw [if_pos h3]
        exact ⟨rfl, rfl, rfl, rfl, fun _ => ⟨h2, rfl⟩⟩
    · rw [if_pos h2]
      simp only []
      by_cases h3 : s.m_NormalizedSecondAlpha = x.getD 5 0
      · rw [if_neg (not_not.mpr h3)]
        exact ⟨rfl, rfl, rfl, rfl, fun _ => ⟨rfl, h3⟩⟩
      · rw [if_pos h3]
        exact ⟨rfl, rfl, rfl, rfl, fun _ => ⟨rfl, rfl⟩⟩
  · rw [if_neg he]
    exact ⟨rfl, rfl, rfl, rfl, fun h => absurd h he⟩

theorem SetModelParameters_finish_raw {α : Type} [LinearOrderedField α] (env : Env α)
    (s : Engine α) :
    (SetModelParameters_finish env s).m_FirstAmplitude = s.m_FirstAmplitude ∧
    (SetModelParameters_finish env s).m_SecondAmplitude = s.m_SecondAmplitude ∧
    (SetModelParameters_finish env s).m_NormalizedCrossAmplitude = s.m_NormalizedCrossAmplitude ∧
    (SetModelParameters_finish env s).m_CrossBeta = s.m_CrossBeta ∧
    (SetModelParameters_finish env s).m_NormalizedFirstAlpha = s.m_NormalizedFirstAlpha ∧
    (SetModelParameters_finish env s).m_NormalizedSecondAlpha = s.m_NormalizedSecondAlpha ∧
    (SetModelParameters_finish env s).m_Modified = s.m_Modified := by
  unfold SetModelParameters_finish
  simp only []
  split_ifs <;> exact ⟨rfl, rfl, rfl, rfl, rfl, rfl, rfl⟩

/-- After the parameter mapping the stored raw values are those of `x`. -/
theorem SetModelParameters_rawValuesAre {α : Type} [LinearOrderedField α] (env : Env α)
    (x : List α) (s : Engine α) : rawValuesAre x (SetModelParameters env x s) := by
  unfold SetModelParameters
  generalize ({ s with m_Modified := false } : Engine α) = s0
  have A := SetModelParameters_k1_raw env x s0
  have cA := SetModelParameters_k1_sameCache env x s0
  generalize SetModelParameters_k1 env x s0 = s1 at A cA ⊢
  have B := SetModelParameters_k2_raw env x s1
  have cB := SetModelParameters_k2_sameCache env x s1
  generalize SetModelParameters_k2 env x s1 = s2 at B cB ⊢
  have C := SetModelParameters_k12star_raw x s2
  have cC := SetModelParameters_k12star_sameCache x s2
  generalize SetModelParameters_k12star x s2 = s3 at C cC ⊢
  have D := SetModelParameters_beta12_raw x s3
  have cD := SetModelParameters_beta12_sameCache x s3
  generalize SetModelParameters_beta12 x s3 = s4 at D cD ⊢
  have E := SetModelParameters_alpha_raw env x s4
  have cE := SetModelParameters_alpha_sameCache env x s4
  generalize SetModelParameters_alpha env x s4 = s5 at E cE ⊢
  have F := SetModelParameters_finish_raw env s5
  have cF := SetModelParameters_finish_sameCache env s5
  generalize SetModelParameters_finish env s5 = s6 at F cF ⊢
  obtain ⟨a1, a2, a3, a4, a5, a6⟩ := A
  obtain ⟨b1, b2, b3, b4, b5, b6⟩ := B
  obtain ⟨c1, c2, c3, c4, c5, c6⟩ := C
  obtain ⟨d1, d2, d3, d4, d5, d6⟩ := D
  obtain ⟨e1, e2, e3, e4, e5⟩ := E
  obtain ⟨f1, f2, f3, f4, f5, f6, f7⟩ := F
  refine ⟨?_, ?_, ?_, ?_, ?_⟩
  · rw [f1, e1, d1, c1, b1, a1]
  · rw [f2, e2, d2, c2, b2]
  · rw [f3, e3, d3, c3]
  · rw [f4, e4, d4]
  · intro he
    have he5 : s5.m_EstimateIntensities = true := by rw [← cF.2.1]; exact he
    have he4 : s4.m_EstimateIntensities = true := by rw [← cE.2.1]; exact he5
    obtain ⟨h6, h7⟩ := e5 he4
    exact ⟨by rw [f5, h6], by rw [f6, h7]⟩

/-! ## Recomputation of the two terms -/

theorem GetLogDeterminant_none {α : Type} [LinearOrderedField α] (env : Env α) (s : Engine α)
    (h : env.inv (lMatrix env s) = none) : GetLogDeterminant env s = (none, s) := by
  unfold GetLogDeterminant
  simp only [h]

theorem GetLogDeterminant_some {α : Type} [LinearOrderedField α] (env : Env α) (s : Engine α)
    (Minv : Mat α) (h : env.inv (lMatrix env s) = some Minv) :
    (GetLogDeterminant env s).1 = some (env.log_det (lMatrix env s)) := by
  unfold GetLogDeterminant
  simp only [h]

theorem GetLogDeterminant_value {α : Type} [LinearOrderedField α] (env : Env α) (s : Engine α)
    (L : α) (h : (GetLogDeterminant env s).1 = some L) :
    (∃ Minv, env.inv (lMatrix env s) = some Minv) ∧ L = env.log_det (lMatrix env s) := by
  cases hinv : env.inv (lMatrix env s) with
  | none =>
    rw [GetLogDeterminant_none env s hinv] at h
    exact absurd h (by simp)
  | some Minv =>
    rw [GetLogDeterminant_some env s Minv hinv] at h
    exact ⟨⟨Minv, rfl⟩, (Option.some.inj h).symm⟩

theorem recomputeTerms_none {α : Type} [LinearOrderedField α] (env : Env α) (s : Engine α)
    (h : env.inv (lMatrix env s) = none) :
    recomputeTerms env s =
      (some Fatal.singular,
        { (GetIntegral env s).2 with m_Integral := (GetIntegral env s).1 }) := by
  have h1 : env.inv (lMatrix env
      { (GetIntegral env s).2 with m_Integral := (GetIntegral env s).1 }) = none := h
  unfold recomputeTerms
  simp only [GetLogDeterminant_none env _ h1]

theorem recomputeTerms_some {α : Type} [LinearOrderedField α] (env : Env α) (s : Engine α)
    (Minv : Mat α) (h : env.inv (lMatrix env s) = some Minv) :
    recomputeTerms env s =
      (none,
        { s with
          m_Integral := (GetIntegral env s).1
          m_LogDeterminant := env.log_det (lMatrix env s)
          m_GradientIntegral := (GetIntegral env s).2.m_GradientIntegral
          m_GradientLogDeterminant := (GetLogDeterminant env s).2.m_GradientLogDeterminant }) := by
  have h1 : env.inv (lMatrix env
      { (GetIntegral env s).2 with m_Integral := (GetIntegral env s).1 }) = some Minv := h
  unfold recomputeTerms GetLogDeterminant
  simp only [h1, h]
  rfl

/-! ## `Evaluate` -/

theorem Evaluate_clean {α : Type} [LinearOrderedField α] (env : Env α) (x : List α)
    (s : Engine α) (hm : (SetModelParameters env x s).m_Modified = false)
    (hI : env.isfinite (SetModelParameters env x s).m_Integral = true)
    (hL : env.isfinite (SetModelParameters env x s).m_LogDeterminant = true) :
    Evaluate env x s =
      (Except.ok (objectiveValue (SetModelParameters env x s)), SetModelParameters env x s) := by
  unfold Evaluate
  simp [hm, hI, hL]

theorem Evaluate_dirty {α : Type} [LinearOrderedField α] (env : Env α) (x : List α)
    (s : Engine α) (Minv : Mat α) (hm : (SetModelParameters env x s).m_Modified = true)
    (hinv : env.inv (lMatrix env (SetModelParameters env x s)) = some Minv)
    (hI : env.isfinite (GetIntegral env (SetModelParameters env x s)).1 = true)
    (hL : env.isfinite (env.log_det (lMatrix env (SetModelParameters env x s))) = true) :
    Evaluate env x s =
      (Except.ok (-2 * (2 * s.m_DomainVolume
          + s.m_DomainVolume * (GetIntegral env (SetModelParameters env x s)).1
          + env.log_det (lMatrix env (SetModelParameters env x s)))),
        { SetModelParameters env x s with
          m_Integral := (GetIntegral env (SetModelParameters env x s)).1
          m_LogDeterminant := env.log_det (lMatrix env (SetModelParameters env x s))
          m_GradientIntegral :=
            (GetIntegral env (SetModelParameters env x s)).2.m_GradientIntegral
          m_GradientLogDeterminant :=
            (GetLogDeterminant env (SetModelParameters env x s)).2.m_GradientLogDeterminant }) := by
  have hv := (SetModelParameters_sameCache env x s).1
  unfold Evaluate
  simp [hm, recomputeTerms_some env _ Minv hinv, hI, hL, objectiveValue, hv]

theorem Evaluate_singular {α : Type} [LinearOrderedField α] (env : Env α) (x : List α)
    (s : Engine α) (hm : (SetModelParameters env x s).m_Modified = true)
    (hinv : env.inv (lMatrix env (SetModelParameters env x s)) = none) :
    (Evaluate env x s).1 = Except.error Fatal.singular := by
  unfold Evaluate
  simp [hm, recomputeTerms_none env _ hinv]

/-- C6: when the integral term and the log-determinant term in force after the
parameter mapping are finite (the values freshly computed by `GetIntegral` and
`GetLogDeterminant` if the mapping reported a change, the cached ones
otherwise), `Evaluate(x)` returns `-2 * (2 * volume + volume * integral +
logDeterminant)`; and the result of `Evaluate` is the same whatever feasibility
check the environment supplies. -/
theorem C6_Evaluate_value {α : Type} [LinearOrderedField α] (env : Env α) (x : List α)
    (s : Engine α) (L : α)
    (hL : (if (SetModelParameters env x s).m_Modified
            then (GetLogDeterminant env (SetModelParameters env x s)).1
            else some s.m_LogDeterminant) = some L)
    (hIfin : env.isfinite
        (if (SetModelParameters env x s).m_Modified
          then (GetIntegral env (SetModelParameters env x s)).1
          else s.m_Integral) = true)
    (hLfin : env.isfinite L = true) :
    (Evaluate env x s).1 =
      Except.ok (-2 * (2 * s.m_DomainVolume
        + s.m_DomainVolume *
            (if (SetModelParameters env x s).m_Modified
              then (GetIntegral env (SetModelParameters env x s)).1
              else s.m_Integral)
        + L)) ∧
    ∀ chk : Engine α → Bool × List α,
      Evaluate { env with CheckModelParameters := chk } x s = Evaluate env x s := by
  refine ⟨?_, fun chk => rfl⟩
  obtain ⟨hv, -, hi, hl, -⟩ := SetModelParameters_sameCache env x s
  cases hm : (SetModelParameters env x s).m_Modified with
  | false =>
    rw [hm] at hL hIfin
    simp only [Bool.false_eq_true, if_false] at hL hIfin ⊢
    have hL2 : s.m_LogDeterminant = L := Option.some.inj hL
    rw [Evaluate_clean env x s hm (by rw [hi]; exact hIfin) (by rw [hl, hL2]; exact hLfin)]
    simp only [objectiveValue, hv, hi, hl, hL2]
  | true =>
    rw [hm] at hL hIfin
    simp only [if_true] at hL hIfin ⊢
    obtain ⟨⟨Minv, hinv⟩, hLeq⟩ := GetLogDeterminant_value env _ L hL
    rw [Evaluate_dirty env x s Minv hm hinv hIfin (by rw [← hLeq]; exact hLfin), hLeq]

/-! ## The dirty flag -/

theorem SetModelParameters_k2_modified {α : Type} [LinearOrderedField α] (env : Env α)
    (x : List α) (s : Engine α) (h : s.m_Modified = true) :
    (SetModelParameters_k2 env x s).m_Modified = true := by
  unfold SetModelParameters_k2
  simp only []
  split_ifs <;> first | rfl | exact h

theorem SetModelParameters_k12star_modified {α : Type} [LinearOrderedField α]
    (x : List α) (s : Engine α) (h : s.m_Modified = true) :
    (SetModelParameters_k12star x s).m_Modified = true := by
  unfold SetModelParameters_k12star
  simp only []
  split_ifs <;> first | rfl | exact h

theorem SetModelParameters_beta12_modified {α : Type} [LinearOrderedField α]
    (x : List α) (s : Engine α) (h : s.m_Modified = true) :
    (SetModelParameters_beta12 x s).m_Modified = true := by
  unfold SetModelParameters_beta12
  simp only []
  split_ifs <;> first | rfl | exact h

theorem SetModelParameters_alpha_modified {α : Type} [LinearOrderedField α] (env : Env α)
    (x : List α) (s : Engine α) (h : s.m_Modified = true) :
    (SetModelParameters_alpha env x s).m_Modified = true := by
  unfold SetModelParameters_alpha
  simp only []
  split_ifs <;> first | rfl | exact h

/-- A first amplitude that differs from the stored one leaves the dirty flag set. -/
theorem SetModelParameters_modified_of_ne {α : Type} [LinearOrderedField α] (env : Env α)
    (x : List α) (s : Engine α) (h : s.m_FirstAmplitude ≠ x.getD 0 0) :
    (SetModelParameters env x s).m_Modified = true := by
  unfold SetModelParameters
  rw [(SetModelParameters_finish_raw env _).2.2.2.2.2.2]
  apply SetModelParameters_alpha_modified
  apply SetModelParameters_beta12_modified
  apply SetModelParameters_k12star_modified
  apply SetModelParameters_k2_modified
  unfold SetModelParameters_k1
  simp only []
  rw [if_pos h]

/-! ## Vectors -/

theorem vecSetSize_length {α : Type} (env : Env α) (v : List α) (n : Nat) :
    (vecSetSize env v n).length = n := by
  unfold vecSetSize
  split_ifs with h
  · exact h
  · simp

theorem map_const_zero {α : Type} [LinearOrderedField α] (v : List α) :
    v.map (fun _ => (0 : α)) = List.replicate v.length 0 := by
  induction v with
  | nil => rfl
  | cons a v ih => simp [List.replicate_succ, ih]

theorem foldl_set_range {α : Type} [LinearOrderedField α] (f : Nat → α) (g : List α)
    (m : Nat) (hm : m ≤ g.length) :
    (List.range m).foldl (fun g i => g.set i (f i)) g =
      (List.range g.length).map (fun j => if j < m then f j else g.getD j 0) := by
  induction m with
  | zero =>
    apply List.ext_getElem
    · simp
    · intro k h1 h2
      have hk : k < g.length := by simpa using h1
      simp [List.getElem?_eq_getElem hk]
  | succ m ih =>
    rw [List.range_succ, List.foldl_append, List.foldl_cons, List.foldl_nil, ih (by omega)]
    apply List.ext_getElem
    · simp
    · intro k h1 h2
      have hk : k < g.length := by simpa using h2
      rw [List.getElem_set]
      simp only [List.getElem_map, List.getElem_range]
      by_cases hkm : m = k
      · subst hkm
        rw [if_pos rfl, if_pos (by omega)]
      · rw [if_neg hkm]
        by_cases hlt : k < m
        · rw [if_pos hlt, if_pos (by omega)]
        · rw [if_neg hlt, if_neg (by omega)]

/-- The vector produced by the gradient loop and the scaling by `-2.0`. -/
theorem assembleGradient_spec {α : Type} [LinearOrderedField α] (s : Engine α) (g : List α)
    (hg : g.length = GetNumberOfParameters s) :
    (assembleGradient s g).length = GetNumberOfParameters s ∧
    ∀ i, i < GetNumberOfParameters s →
      (assembleGradient s g).getD i 0 =
        -2 * (s.m_DomainVolume * s.m_GradientIntegral.getD i 0
          + s.m_GradientLogDeterminant.getD i 0) := by
  unfold assembleGradient
  rw [foldl_set_range _ g _ (by omega)]
  constructor
  · simp [hg]
  · intro i hi
    rw [List.getD_eq_getElem _ _ (by simp; omega)]
    simp only [List.getElem_map, List.getElem_range]
    rw [if_pos hi]
    ring

theorem recomputeTerms_rawValuesAre {α : Type} [LinearOrderedField α] (env : Env α)
    (x : List α) (s s2 : Engine α) (h : recomputeTerms env s = (none, s2))
    (hr : rawValuesAre x s) : rawValuesAre x s2 := by
  cases hinv : env.inv (lMatrix env s) with
  | none =>
    rw [recomputeTerms_none env s hinv] at h
    exact absurd (congrArg Prod.fst h) (by simp)
  | some Minv =>
    rw [recomputeTerms_some env s Minv hinv] at h
    have h2 := congrArg Prod.snd h
    simp only at h2
    rw [← h2]
    exact hr

/-- What a normal return of `Evaluate` tells about the state it leaves. -/
theorem Evaluate_ok {α : Type} [LinearOrderedField α] (env : Env α) (x : List α)
    (s s1 : Engine α) (v : α) (h : Evaluate env x s = (Except.ok v, s1)) :
    rawValuesAre x s1 ∧ v = objectiveValue s1 ∧ env.isfinite s1.m_Integral = true ∧
      env.isfinite s1.m_LogDeterminant = true := by
  have hraw := SetModelParameters_rawValuesAre env x s
  unfold Evaluate at h
  simp only [] at h
  generalize SetModelParameters env x s = sm at h hraw
  have key : ∀ r : Option Fatal × Engine α,
      (r.1 = none → rawValuesAre x r.2) →
      (match r with
        | (some e, s2) => (Except.error e, s2)
        | (none, s2) =>
          if (!env.isfinite s2.m_Integral || !env.isfinite s2.m_LogDeterminant) = true then
            (Except.error Fatal.nonFinite, s2)
          else (Except.ok (objectiveValue s2), s2)) = (Except.ok v, s1) →
      rawValuesAre x s1 ∧ v = objectiveValue s1 ∧ env.isfinite s1.m_Integral = true ∧
        env.isfinite s1.m_LogDeterminant = true := by
    rintro ⟨e, s2⟩ hr hm
    cases e with
    | some e =>
      simp only at hm
      exact absurd (congrArg Prod.fst hm) (by simp)
    | none =>
      simp only at hm
      by_cases hf : (!env.isfinite s2.m_Integral || !env.isfinite s2.m_LogDeterminant) = true
      · rw [if_pos hf] at hm
        exact absurd (congrArg Prod.fst hm) (by simp)
      · rw [if_neg hf] at hm
        have h1 := congrArg Prod.fst hm
        have h2 := congrArg Prod.snd hm
        simp only at h1 h2
        subst h2
        simp only [Bool.or_eq_true, Bool.not_eq_true', not_or, Bool.not_eq_false] at hf
        exact ⟨hr rfl, (Except.ok.inj h1).symm, hf.1, hf.2⟩
  apply key _ _ h
  intro hnone
  by_cases hm : sm.m_Modified = true
  · rw [if_pos hm] at hnone ⊢
    exact recomputeTerms_rawValuesAre env x sm _ (Prod.ext hnone rfl) hraw
  · rw [if_neg hm]
    exact hraw

/-- C8: when `Evaluate(x)` has returned normally, a second call `Evaluate(x)`
made at once finds the dirty flag false after the parameter mapping and returns
the same value, whatever routines then stand for the quadrature, the kernel
functions, `arma::log_det` and `arma::inv` (no recomputation takes place: only
`std::isfinite` is shared between the two calls), and it leaves the state
unchanged but for the cleared flag. -/
theorem C8_Evaluate_repeat {α : Type} [LinearOrderedField α] (env env2 : Env α)
    (x : List α) (s s1 : Engine α) (v : α)
    (h : Evaluate env x s = (Except.ok v, s1)) (hfin : env2.isfinite = env.isfinite) :
    (SetModelParameters env2 x s1).m_Modified = false ∧
    Evaluate env2 x s1 = (Except.ok v, { s1 with m_Modified := false }) := by
  obtain ⟨hraw, hv, hI, hL⟩ := Evaluate_ok env x s s1 v h
  have hs := SetModelParameters_of_rawValuesAre env2 x s1 hraw
  have hm : (SetModelParameters env2 x s1).m_Modified = false := by rw [hs]
  refine ⟨hm, ?_⟩
  rw [Evaluate_clean env2 x s1 hm (by rw [hs, hfin]; exact hI) (by rw [hs, hfin]; exact hL),
    hs, hv]
  rfl

/-! ## `Gradient` -/

theorem GetNumberOfParameters_SetModelParameters {α : Type} [LinearOrderedField α]
    (env : Env α) (x : List α) (s : Engine α) :
    GetNumberOfParameters (SetModelParameters env x s) = GetNumberOfParameters s := by
  unfold GetNumberOfParameters
  rw [(SetModelParameters_sameCache env x s).2.1]

theorem CheckModelParameters_sameCache {α : Type} (env : Env α) (s : Engine α) :
    (CheckModelParameters env s).2.m_DomainVolume = s.m_DomainVolume ∧
    (CheckModelParameters env s).2.m_EstimateIntensities = s.m_EstimateIntensities ∧
    (CheckModelParameters env s).2.m_Integral = s.m_Integral ∧
    (CheckModelParameters env s).2.m_LogDeterminant = s.m_LogDeterminant ∧
    (CheckModelParameters env s).2.m_GradientIntegral = s.m_GradientIntegral ∧
    (CheckModelParameters env s).2.m_GradientLogDeterminant = s.m_GradientLogDeterminant ∧
    (CheckModelParameters env s).2.m_Modified = s.m_Modified :=
  ⟨rfl, rfl, rfl, rfl, rfl, rfl, rfl⟩

theorem CheckModelParameters_rawValuesAre {α : Type} [LinearOrderedField α] (env : Env α)
    (x : List α) (s : Engine α) (h : rawValuesAre x s) :
    rawValuesAre x (CheckModelParameters env s).2 := h

/-- The gradient vector written by `GetLogDeterminant` does not depend on the
constraint vector of the state. -/
theorem GetLogDeterminant_gradient_CheckModelParameters {α : Type} [LinearOrderedField α]
    (env : Env α) (s : Engine α) :
    (GetLogDeterminant env (CheckModelParameters env s).2).2.m_GradientLogDeterminant =
      (GetLogDeterminant env s).2.m_GradientLogDeterminant := by
  have hl : lMatrix env (CheckModelParameters env s).2 = lMatrix env s := rfl
  unfold GetLogDeterminant
  rw [hl]
  cases env.inv (lMatrix env s) with
  | none => rfl
  | some Minv => rfl

theorem Gradient_infeasible {α : Type} [LinearOrderedField α] (env : Env α) (x g : List α)
    (s : Engine α) (hinf : (env.CheckModelParameters (SetModelParameters env x s)).1 = false) :
    Gradient env x g s =
      (Except.ok (List.replicate (GetNumberOfParameters s) 0),
        (CheckModelParameters env (SetModelParameters env x s)).2) := by
  have hinf2 : (CheckModelParameters env (SetModelParameters env x s)).1 = false := hinf
  unfold Gradient
  simp only [hinf2, Bool.not_false, if_true]
  rw [map_const_zero, vecSetSize_length, GetNumberOfParameters_SetModelParameters]

/-- The outcome of `Gradient` on feasible parameters that the mapping left
unchanged, the cached terms being finite. -/
theorem Gradient_clean {α : Type} [LinearOrderedField α] (env : Env α) (x g : List α)
    (s : Engine α) (hfeas : (env.CheckModelParameters (SetModelParameters env x s)).1 = true)
    (hm : (SetModelParameters env x s).m_Modified = false)
    (hI : env.isfinite (SetModelParameters env x s).m_Integral = true)
    (hL : env.isfinite (SetModelParameters env x s).m_LogDeterminant = true) :
    Gradient env x g s =
      (Except.ok (assembleGradient (CheckModelParameters env (SetModelParameters env x s)).2
        (vecSetSize env g (GetNumberOfParameters (SetModelParameters env x s)))),
       (CheckModelParameters env (SetModelParameters env x s)).2) := by
  have hfeas2 : (CheckModelParameters env (SetModelParameters env x s)).1 = true := hfeas
  have hm2 : (CheckModelParameters env (SetModelParameters env x s)).2.m_Modified = false := hm
  have hI2 : env.isfinite (CheckModelParameters env (SetModelParameters env x s)).2.m_Integral
      = true := hI
  have hL2 : env.isfinite
      (CheckModelParameters env (SetModelParameters env x s)).2.m_LogDeterminant = true := hL
  unfold Gradient
  simp [hfeas2, hm2, hI2, hL2]

/-- The outcome of `Gradient` on feasible parameters that the mapping changed,
the recomputed terms being finite. -/
theorem Gradient_dirty {α : Type} [LinearOrderedField α] (env : Env α) (x g : List α)
    (s : Engine α) (Minv : Mat α)
    (hfeas : (env.CheckModelParameters (SetModelParameters env x s)).1 = true)
    (hm : (SetModelParameters env x s).m_Modified = true)
    (hinv : env.inv (lMatrix env (SetModelParameters env x s)) = some Minv)
    (hI : env.isfinite (GetIntegral env (SetModelParameters env x s)).1 = true)
    (hL : env.isfinite (env.log_det (lMatrix env (SetModelParameters env x s))) = true) :
    Gradient env x g s =
      (Except.ok (assembleGradient
        { (CheckModelParameters env (SetModelParameters env x s)).2 with
          m_Integral := (GetIntegral env (CheckModelParameters env (SetModelParameters env x s)).2).1
          m_LogDeterminant := env.log_det (lMatrix env (CheckModelParameters env (SetModelParameters env x s)).2)
          m_GradientIntegral := (GetIntegral env (CheckModelParameters env (SetModelParameters env x s)).2).2.m_GradientIntegral
          m_GradientLogDeterminant := (GetLogDeterminant env (CheckModelParameters env (SetModelParameters env x s)).2).2.m_GradientLogDeterminant }
        (vecSetSize env g (GetNumberOfParameters (SetModelParameters env x s)))),
       { (CheckModelParameters env (SetModelParameters env x s)).2 with
          m_Integral := (GetIntegral env (CheckModelParameters env (SetModelParameters env x s)).2).1
          m_LogDeterminant := env.log_det (lMatrix env (CheckModelParameters env (SetModelParameters env x s)).2)
          m_GradientIntegral := (GetIntegral env (CheckModelParameters env (SetModelParameters env x s)).2).2.m_GradientIntegral
          m_GradientLogDeterminant := (GetLogDeterminant env (CheckModelParameters env (SetModelParameters env x s)).2).2.m_GradientLogDeterminant })
      := by
  have hfeas2 : (CheckModelParameters env (SetModelParameters env x s)).1 = true := hfeas
  have hm2 : (CheckModelParameters env (SetModelParameters env x s)).2.m_Modified = true := hm
  have hinv2 : env.inv (lMatrix env (CheckModelParameters env (SetModelParameters env x s)).2)
      = some Minv := hinv
  have hI2 : env.isfinite
      (GetIntegral env (CheckModelParameters env (SetModelParameters env x s)).2).1 = true := hI
  have hL2 : env.isfinite
      (env.log_det (lMatrix env (CheckModelParameters env (SetModelParameters env x s)).2))
      = true := hL
  unfold Gradient
  simp only [hfeas2, hm2, Bool.not_true, Bool.false_eq_true, if_false, if_true]
  rw [recomputeTerms_some env _ Minv hinv2]
  simp only [hI2, hL2, hm2, Bool.not_true, Bool.or_self, Bool.false_eq_true, if_false]

/-- C9: when the feasibility check of the model family reports a violation
after the parameter mapping, `Gradient(x, g)` sets `g` to the zero vector with
`GetNumberOfParameters()` entries, leaves the cached integral, log-determinant
and the two cached gradient vectors as they were, and its outcome is the same
whatever routines stand for the quadrature, the kernel functions,
`arma::log_det` and `arma::inv` (neither `GetIntegral` nor `GetLogDeterminant`
is run). -/
theorem C9_Gradient_infeasible {α : Type} [LinearOrderedField α] (env : Env α)
    (x g : List α) (s : Engine α)
    (hinf : (env.CheckModelParameters (SetModelParameters env x s)).1 = false) :
    (Gradient env x g s).1 = Except.ok (List.replicate (GetNumberOfParameters s) 0) ∧
    (List.replicate (GetNumberOfParameters s) (0 : α)).length = GetNumberOfParameters s ∧
    (Gradient env x g s).2.m_Integral = s.m_Integral ∧
    (Gradient env x g s).2.m_LogDeterminant = s.m_LogDeterminant ∧
    (Gradient env x g s).2.m_GradientIntegral = s.m_GradientIntegral ∧
    (Gradient env x g s).2.m_GradientLogDeterminant = s.m_GradientLogDeterminant ∧
    ∀ (integrate2 : IntegrandMember → BaseIntegrand α → α) (log_det2 : Mat α → α)
      (inv2 : Mat α → Option (Mat α)) (lFunction2 l12Function2 : α → α → α → α → α → Nat → α),
      Gradient
        { env with
          integrate := integrate2
          log_det := log_det2
          inv := inv2
          EvaluateLFunction := lFunction2
          EvaluateL12Function := l12Function2 } x g s = Gradient env x g s := by
  obtain ⟨-, -, hi, hl, hgi, hgl, -⟩ := SetModelParameters_sameCache env x s
  rw [Gradient_infeasible env x g s hinf]
  refine ⟨rfl, List.length_replicate _ _, hi, hl, hgi, hgl, ?_⟩
  intro integrate2 log_det2 inv2 lFunction2 l12Function2
  exact Gradient_infeasible _ x g s hinf

/-- C10: when the parameters are feasible and the two terms in force after the
parameter mapping are finite, `Gradient(x, g)` returns a vector with
`GetNumberOfParameters()` entries whose entry `i` is
`-2 * (volume * integralGradient[i] + logDetGradient[i])`, the two gradient
vectors being those written by `GetIntegral` and `GetLogDeterminant` when the
mapping reported a change and the cached ones otherwise. -/
theorem C10_Gradient_value {α : Type} [LinearOrderedField α] (env : Env α)
    (x g : List α) (s : Engine α) (L : α)
    (hfeas : (env.CheckModelParameters (SetModelParameters env x s)).1 = true)
    (hL : (if (SetModelParameters env x s).m_Modified
            then (GetLogDeterminant env (SetModelParameters env x s)).1
            else some s.m_LogDeterminant) = some L)
    (hIfin : env.isfinite
        (if (SetModelParameters env x s).m_Modified
          then (GetIntegral env (SetModelParameters env x s)).1
          else s.m_Integral) = true)
    (hLfin : env.isfinite L = true) :
    ∃ g2 : List α, (Gradient env x g s).1 = Except.ok g2 ∧
      g2.length = GetNumberOfParameters s ∧
      ∀ i, i < GetNumberOfParameters s →
        g2.getD i 0 =
          -2 * (s.m_DomainVolume *
              (if (SetModelParameters env x s).m_Modified
                then (GetIntegral env (SetModelParameters env x s)).2.m_GradientIntegral
                else s.m_GradientIntegral).getD i 0
            + (if (SetModelParameters env x s).m_Modified
                then (GetLogDeterminant env (SetModelParameters env x s)).2.m_GradientLogDeterminant
                else s.m_GradientLogDeterminant).getD i 0) := by
  obtain ⟨hv, -, hi, hl, hgi, hgl, -⟩ := SetModelParameters_sameCache env x s
  have hn := GetNumberOfParameters_SetModelParameters env x s
  cases hm : (SetModelParameters env x s).m_Modified with
  | false =>
    rw [hm] at hL hIfin
    simp only [Bool.false_eq_true, if_false] at hL hIfin ⊢
    have hL2 : s.m_LogDeterminant = L := Option.some.inj hL
    rw [Gradient_clean env x g s hfeas hm (by rw [hi]; exact hIfin)
      (by rw [hl, hL2]; exact hLfin)]
    obtain ⟨h1, h2⟩ := assembleGradient_spec
      (CheckModelParameters env (SetModelParameters env x s)).2
      (vecSetSize env g (GetNumberOfParameters (SetModelParameters env x s)))
      (vecSetSize_length _ _ _)
    refine ⟨_, rfl, h1.trans hn, ?_⟩
    intro i hi2
    have h3 := h2 i (by rw [← hn] at hi2; exact hi2)
    rw [h3]
    show -2 * ((SetModelParameters env x s).m_DomainVolume *
        (SetModelParameters env x s).m_GradientIntegral.getD i 0
        + (SetModelParameters env x s).m_GradientLogDeterminant.getD i 0) = _
    rw [hv, hgi, hgl]
  | true =>
    rw [hm] at hL hIfin
    simp only [if_true] at hL hIfin ⊢
    obtain ⟨⟨Minv, hinv⟩, hLeq⟩ := GetLogDeterminant_value env _ L hL
    rw [Gradient_dirty env x g s Minv hfeas hm hinv hIfin (by rw [← hLeq]; exact hLfin)]
    obtain ⟨h1, h2⟩ := assembleGradient_spec
      { (CheckModelParameters env (SetModelParameters env x s)).2 with
        m_Integral := (GetIntegral env (CheckModelParameters env (SetModelParameters env x s)).2).1
        m_LogDeterminant := env.log_det (lMatrix env (CheckModelParameters env (SetModelParameters env x s)).2)
        m_GradientIntegral := (GetIntegral env (CheckModelParameters env (SetModelParameters env x s)).2).2.m_GradientIntegral
        m_GradientLogDeterminant := (GetLogDeterminant env (CheckModelParameters env (SetModelParameters env x s)).2).2.m_GradientLogDeterminant }
      (vecSetSize env g (GetNumberOfParameters (SetModelParameters env x s)))
      (vecSetSize_length _ _ _)
    refine ⟨_, rfl, h1.trans hn, ?_⟩
    intro i hi2
    have h3 := h2 i (by rw [← hn] at hi2; exact hi2)
    rw [h3]
    have e1 : (GetIntegral env (CheckModelParameters env (SetModelParameters env x s)).2).2.m_GradientIntegral =
        (GetIntegral env (SetModelParameters env x s)).2.m_GradientIntegral := rfl
    show -2 * ((SetModelParameters env x s).m_DomainVolume *
        List.getD (GetIntegral env (CheckModelParameters env (SetModelParameters env x s)).2).2.m_GradientIntegral i 0
      + List.getD (GetLogDeterminant env (CheckModelParameters env (SetModelParameters env x s)).2).2.m_GradientLogDeterminant i 0) = _
    rw [hv, e1, GetLogDeterminant_gradient_CheckModelParameters]

/-! ## `EvaluateWithGradient` -/

theorem EvaluateWithGradient_infeasible {α : Type} [LinearOrderedField α] (env : Env α)
    (x g : List α) (s : Engine α)
    (hinf : (env.CheckModelParameters (SetModelParameters env x s)).1 = false) :
    EvaluateWithGradient env x g s =
      (Except.ok (env.DBL_MAX, List.replicate (GetNumberOfParameters s) 0),
        (CheckModelParameters env (SetModelParameters env x s)).2) := by
  have hinf2 : (CheckModelParameters env (SetModelParameters env x s)).1 = false := hinf
  unfold EvaluateWithGradient
  simp only [hinf2, Bool.not_false, if_true]
  rw [map_const_zero, vecSetSize_length, GetNumberOfParameters_SetModelParameters]

/-- The state in which `EvaluateWithGradient` and a recomputing `Gradient` leave
the engine: the checked state with the four cached members rewritten. -/
theorem EvaluateWithGradient_feasible {α : Type} [LinearOrderedField α] (env : Env α)
    (x g : List α) (s : Engine α) (Minv : Mat α)
    (hfeas : (env.CheckModelParameters (SetModelParameters env x s)).1 = true)
    (hinv : env.inv (lMatrix env (SetModelParameters env x s)) = some Minv)
    (hI : env.isfinite (GetIntegral env (SetModelParameters env x s)).1 = true)
    (hL : env.isfinite (env.log_det (lMatrix env (SetModelParameters env x s))) = true) :
    EvaluateWithGradient env x g s =
      (Except.ok
        (objectiveValue
          { (CheckModelParameters env (SetModelParameters env x s)).2 with
            m_Integral :=
              (GetIntegral env (CheckModelParameters env (SetModelParameters env x s)).2).1
            m_LogDeterminant :=
              env.log_det (lMatrix env (CheckModelParameters env (SetModelParameters env x s)).2)
            m_GradientIntegral :=
              (GetIntegral env
                (CheckModelParameters env (SetModelParameters env x s)).2).2.m_GradientIntegral
            m_GradientLogDeterminant :=
              (GetLogDeterminant env
                (CheckModelParameters env
                  (SetModelParameters env x s)).2).2.m_GradientLogDeterminant },
         assembleGradient
          { (CheckModelParameters env (SetModelParameters env x s)).2 with
            m_Integral :=
              (GetIntegral env (CheckModelParameters env (SetModelParameters env x s)).2).1
            m_LogDeterminant :=
              env.log_det (lMatrix env (CheckModelParameters env (SetModelParameters env x s)).2)
            m_GradientIntegral :=
              (GetIntegral env
                (CheckModelParameters env (SetModelParameters env x s)).2).2.m_GradientIntegral
            m_GradientLogDeterminant :=
              (GetLogDeterminant env
                (CheckModelParameters env
                  (SetModelParameters env x s)).2).2.m_GradientLogDeterminant }
          (vecSetSize env g (GetNumberOfParameters (SetModelParameters env x s)))),
       { (CheckModelParameters env (SetModelParameters env x s)).2 with
          m_Integral :=
            (GetIntegral env (CheckModelParameters env (SetModelParameters env x s)).2).1
          m_LogDeterminant :=
            env.log_det (lMatrix env (CheckModelParameters env (SetModelParameters env x s)).2)
          m_GradientIntegral :=
            (GetIntegral env
              (CheckModelParameters env (SetModelParameters env x s)).2).2.m_GradientIntegral
          m_GradientLogDeterminant :=
            (GetLogDeterminant env
              (CheckModelParameters env
                (SetModelParameters env x s)).2).2.m_GradientLogDeterminant }) := by
  have hfeas2 : (CheckModelParameters env (SetModelParameters env x s)).1 = true := hfeas
  have hinv2 : env.inv (lMatrix env (CheckModelParameters env (SetModelParameters env x s)).2)
      = some Minv := hinv
  have hI2 : env.isfinite
      (GetIntegral env (CheckModelParameters env (SetModelParameters env x s)).2).1 = true := hI
  have hL2 : env.isfinite
      (env.log_det (lMatrix env (CheckModelParameters env (SetModelParameters env x s)).2))
      = true := hL
  unfold EvaluateWithGradient
  simp only [hfeas2, Bool.not_true, Bool.false_eq_true, if_false]
  rw [recomputeTerms_some env _ Minv hinv2]
  simp only [hI2, hL2, Bool.not_true, Bool.or_self, Bool.false_eq_true, if_false]

theorem EvaluateWithGradient_feasible_value {α : Type} [LinearOrderedField α] (env : Env α)
    (x g : List α) (s : Engine α) (Minv : Mat α)
    (hfeas : (env.CheckModelParameters (SetModelParameters env x s)).1 = true)
    (hinv : env.inv (lMatrix env (SetModelParameters env x s)) = some Minv)
    (hI : env.isfinite (GetIntegral env (SetModelParameters env x s)).1 = true)
    (hL : env.isfinite (env.log_det (lMatrix env (SetModelParameters env x s))) = true) :
    (EvaluateWithGradient env x g s).1.map Prod.fst =
      Except.ok (-2 * (2 * s.m_DomainVolume
        + s.m_DomainVolume * (GetIntegral env (SetModelParameters env x s)).1
        + env.log_det (lMatrix env (SetModelParameters env x s)))) := by
  rw [EvaluateWithGradient_feasible env x g s Minv hfeas hinv hI hL]
  show Except.ok (-2 * (2 * (SetModelParameters env x s).m_DomainVolume
    + (SetModelParameters env x s).m_DomainVolume * (GetIntegral env (SetModelParameters env x s)).1
    + env.log_det (lMatrix env (SetModelParameters env x s)))) = _
  rw [(SetModelParameters_sameCache env x s).1]

theorem EvaluateWithGradient_integral {α : Type} [LinearOrderedField α] (env : Env α)
    (x g : List α) (s : Engine α)
    (hfeas : (env.CheckModelParameters (SetModelParameters env x s)).1 = true) :
    (EvaluateWithGradient env x g s).2.m_Integral
      = (GetIntegral env (SetModelParameters env x s)).1 := by
  have hfeas2 : (CheckModelParameters env (SetModelParameters env x s)).1 = true := hfeas
  unfold EvaluateWithGradient
  simp only [hfeas2, Bool.not_true, Bool.false_eq_true, if_false]
  cases hinv : env.inv (lMatrix env (CheckModelParameters env (SetModelParameters env x s)).2)
    with
  | none =>
    rw [recomputeTerms_none env _ hinv]
    rfl
  | some Minv =>
    rw [recomputeTerms_some env _ Minv hinv]
    simp only []
    split_ifs <;> rfl

/-! ## The stale cache behind C7 -/

/-- After `Evaluate(x0)` has returned `v`, a call `EvaluateConstraint(i, x1)`
stores the parameters `x1` without recomputing the terms, and the next
`Evaluate(x1)` returns `v` again: the objective of `x0`, whatever `x1` is. -/
theorem Evaluate_after_EvaluateConstraint {α : Type} [LinearOrderedField α] (env : Env α)
    (x0 x1 : List α) (i : Nat) (s s1 : Engine α) (v : α)
    (h : Evaluate env x0 s = (Except.ok v, s1)) :
    Evaluate env x1 (EvaluateConstraint env i x1 s1).2 =
      (Except.ok v, { (EvaluateConstraint env i x1 s1).2 with m_Modified := false }) := by
  obtain ⟨-, hv, hI, hL⟩ := Evaluate_ok env x0 s s1 v h
  have hraw : rawValuesAre x1 (EvaluateConstraint env i x1 s1).2 :=
    CheckModelParameters_rawValuesAre env x1 _ (SetModelParameters_rawValuesAre env x1 s1)
  obtain ⟨cv, -, ci, cl, -⟩ := SetModelParameters_sameCache env x1 s1
  have e1 : (EvaluateConstraint env i x1 s1).2.m_Integral = s1.m_Integral := ci
  have e2 : (EvaluateConstraint env i x1 s1).2.m_LogDeterminant = s1.m_LogDeterminant := cl
  have e3 : (EvaluateConstraint env i x1 s1).2.m_DomainVolume = s1.m_DomainVolume := cv
  have hs := SetModelParameters_of_rawValuesAre env x1 _ hraw
  have hm : (SetModelParameters env x1 (EvaluateConstraint env i x1 s1).2).m_Modified = false := by
    rw [hs]
  have hI2 : env.isfinite
      (SetModelParameters env x1 (EvaluateConstraint env i x1 s1).2).m_Integral = true := by
    rw [hs]
    show env.isfinite (EvaluateConstraint env i x1 s1).2.m_Integral = true
    rw [e1]
    exact hI
  have hL2 : env.isfinite
      (SetModelParameters env x1 (EvaluateConstraint env i x1 s1).2).m_LogDeterminant = true := by
    rw [hs]
    show env.isfinite (EvaluateConstraint env i x1 s1).2.m_LogDeterminant = true
    rw [e2]
    exact hL
  have hval : objectiveValue
      ({ (EvaluateConstraint env i x1 s1).2 with m_Modified := false } : Engine α)
      = objectiveValue s1 := by
    show -2 * (2 * (EvaluateConstraint env i x1 s1).2.m_DomainVolume
      + (EvaluateConstraint env i x1 s1).2.m_DomainVolume
          * (EvaluateConstraint env i x1 s1).2.m_Integral
      + (EvaluateConstraint env i x1 s1).2.m_LogDeterminant) = _
    rw [e1, e2, e3]
    rfl
  rw [Evaluate_clean env x1 _ hm hI2 hL2, hs, hv, hval]

/-! ## Evaluation in the example environment -/

theorem exampleEnv_log_det {s : Engine ℚ} (h : s.m_SampleSize = 0) :
    exampleEnv.log_det (lMatrix exampleEnv s) = 0 := by
  unfold lMatrix
  rw [h]
  rfl

theorem exampleEnv_GetIntegral (s : Engine ℚ) :
    (GetIntegral exampleEnv s).1 = 2 * 3 * (s.m_FirstAmplitude + s.m_SecondAmplitude) := rfl

theorem exampleEnv_feasible (s : Engine ℚ) (h1 : s.m_FirstAmplitude < 1)
    (h2 : s.m_SecondAmplitude < 1) : (exampleEnv.CheckModelParameters s).1 = true := by
  show decide (s.m_FirstAmplitude < 1 ∧ s.m_SecondAmplitude < 1) = true
  exact decide_eq_true ⟨h1, h2⟩

theorem exampleEnv_infeasible (s : Engine ℚ) (h1 : 1 ≤ s.m_FirstAmplitude) :
    (exampleEnv.CheckModelParameters s).1 = false := by
  show decide (s.m_FirstAmplitude < 1 ∧ s.m_SecondAmplitude < 1) = false
  exact decide_eq_false (fun h => absurd h.1 (not_lt.mpr h1))

theorem exampleParams_modified :
    (SetModelParameters exampleEnv exampleParams exampleEngine).m_Modified = true := by
  apply SetModelParameters_modified_of_ne
  norm_num [exampleEngine, exampleParams]

theorem exampleParams_feasible :
    (exampleEnv.CheckModelParameters
      (SetModelParameters exampleEnv exampleParams exampleEngine)).1 = true := by
  obtain ⟨h1, h2, -⟩ := SetModelParameters_rawValuesAre exampleEnv exampleParams exampleEngine
  apply exampleEnv_feasible
  · rw [h1]; norm_num [exampleParams]
  · rw [h2]; norm_num [exampleParams]

theorem exampleInfeasibleParams_infeasible :
    (exampleEnv.CheckModelParameters
      (SetModelParameters exampleEnv exampleInfeasibleParams exampleEngine)).1 = false := by
  obtain ⟨h1, -⟩ :=
    SetModelParameters_rawValuesAre exampleEnv exampleInfeasibleParams exampleEngine
  apply exampleEnv_infeasible
  rw [h1]; norm_num [exampleInfeasibleParams]

/-- The first call: `Evaluate(exampleParams)` on the fresh engine returns `-13`. -/
theorem exampleEngine_Evaluate :
    Evaluate exampleEnv exampleParams exampleEngine =
      (Except.ok (-13), (Evaluate exampleEnv exampleParams exampleEngine).2) := by
  obtain ⟨h1, h2, -⟩ := SetModelParameters_rawValuesAre exampleEnv exampleParams exampleEngine
  have hc := SetModelParameters_sameCache exampleEnv exampleParams exampleEngine
  have hN : (SetModelParameters exampleEnv exampleParams exampleEngine).m_SampleSize = 0 :=
    hc.2.2.2.2.2.2.2.2.1
  have hv : (Evaluate exampleEnv exampleParams exampleEngine).1 = Except.ok (-13) := by
    rw [Evaluate_dirty exampleEnv exampleParams exampleEngine _ exampleParams_modified rfl rfl
      rfl]
    rw [exampleEnv_log_det hN, exampleEnv_GetIntegral, h1, h2]
    norm_num [exampleEngine, exampleParams]
  exact Prod.ext hv rfl

/-! ## The configuration is left alone -/

theorem sameConfig_of_sameCache {α : Type} {s t : Engine α} (h : sameCache s t) :
    sameConfig s t := by
  obtain ⟨a1, a2, -, -, -, -, -, a8, a9, a10, a11⟩ := h
  exact ⟨a1, a2, a8, a9, a10, a11⟩

theorem sameConfig_trans {α : Type} {s t u : Engine α} (h1 : sameConfig s t)
    (h2 : sameConfig t u) : sameConfig s u := by
  exact ⟨h2.1.trans h1.1, h2.2.1.trans h1.2.1, h2.2.2.1.trans h1.2.2.1,
    h2.2.2.2.1.trans h1.2.2.2.1, h2.2.2.2.2.1.trans h1.2.2.2.2.1,
    h2.2.2.2.2.2.trans h1.2.2.2.2.2⟩

theorem recomputeTerms_sameConfig {α : Type} [LinearOrderedField α] (env : Env α)
    (s : Engine α) : sameConfig s (recomputeTerms env s).2 := by
  cases hinv : env.inv (lMatrix env s) with
  | none =>
    rw [recomputeTerms_none env s hinv]
    exact ⟨rfl, rfl, rfl, rfl, rfl, rfl⟩
  | some Minv =>
    rw [recomputeTerms_some env s Minv hinv]
    exact ⟨rfl, rfl, rfl, rfl, rfl, rfl⟩

theorem CheckModelParameters_sameConfig {α : Type} (env : Env α) (s : Engine α) :
    sameConfig s (CheckModelParameters env s).2 :=
  ⟨rfl, rfl, rfl, rfl, rfl, rfl⟩

/-- `Evaluate` changes neither the volume, the estimation mode, the dimension,
the sample size, the labels nor the distance matrix. -/
theorem Evaluate_sameConfig {α : Type} [LinearOrderedField α] (env : Env α) (x : List α)
    (s : Engine α) : sameConfig s (Evaluate env x s).2 := by
  have h1 := sameConfig_of_sameCache (SetModelParameters_sameCache env x s)
  have h2 := recomputeTerms_sameConfig env (SetModelParameters env x s)
  unfold Evaluate
  simp only []
  generalize SetModelParameters env x s = sm at h1 h2
  by_cases hm : sm.m_Modified = true
  · rw [if_pos hm]
    generalize recomputeTerms env sm = r at h2
    obtain ⟨e, s2⟩ := r
    cases e with
    | some e => exact sameConfig_trans h1 h2
    | none =>
      simp only []
      split_ifs <;> exact sameConfig_trans h1 h2
  · rw [if_neg hm]
    simp only []
    split_ifs <;> exact h1

theorem EvaluateConstraint_sameConfig {α : Type} [LinearOrderedField α] (env : Env α)
    (i : Nat) (x : List α) (s : Engine α) : sameConfig s (EvaluateConstraint env i x s).2 :=
  sameConfig_trans (sameConfig_of_sameCache (SetModelParameters_sameCache env x s))
    (CheckModelParameters_sameConfig env _)

theorem EvaluateConstraint_rawValuesAre {α : Type} [LinearOrderedField α] (env : Env α)
    (i : Nat) (x : List α) (s : Engine α) : rawValuesAre x (EvaluateConstraint env i x s).2 :=
  CheckModelParameters_rawValuesAre env x _ (SetModelParameters_rawValuesAre env x s)

/-! ## C7 -/

theorem exampleStaleEngine_config :
    exampleStaleEngine.m_DomainVolume = 1 ∧ exampleStaleEngine.m_SampleSize = 0 := by
  have h := sameConfig_trans (Evaluate_sameConfig exampleEnv exampleParams exampleEngine)
    (EvaluateConstraint_sameConfig exampleEnv 0 exampleOtherParams
      (Evaluate exampleEnv exampleParams exampleEngine).2)
  exact ⟨h.1, h.2.2.2.1⟩

theorem exampleStaleEngine_feasible :
    (exampleEnv.CheckModelParameters
      (SetModelParameters exampleEnv exampleOtherParams exampleStaleEngine)).1 = true := by
  obtain ⟨h1, h2, -⟩ :=
    SetModelParameters_rawValuesAre exampleEnv exampleOtherParams exampleStaleEngine
  apply exampleEnv_feasible
  · rw [h1]; norm_num [exampleOtherParams]
  · rw [h2]; norm_num [exampleOtherParams]

/-- C7, the code at a failing input: after `Evaluate(exampleParams)` and
`EvaluateConstraint(0, exampleOtherParams)` on a fresh engine, the feasible
vector `exampleOtherParams` gets the objective `-13` from `Evaluate` (the value
of `exampleParams`, assembled from the terms that were cached) and `-10` from
`EvaluateWithGradient` (assembled from recomputed terms). -/
theorem C7_Evaluate_differs_from_EvaluateWithGradient :
    (exampleEnv.CheckModelParameters
      (SetModelParameters exampleEnv exampleOtherParams exampleStaleEngine)).1 = true ∧
    (Evaluate exampleEnv exampleOtherParams exampleStaleEngine).1 = Except.ok (-13) ∧
    (EvaluateWithGradient exampleEnv exampleOtherParams [] exampleStaleEngine).1.map Prod.fst
      = Except.ok (-10) := by
  refine ⟨exampleStaleEngine_feasible, ?_, ?_⟩
  · have h := Evaluate_after_EvaluateConstraint exampleEnv exampleParams exampleOtherParams 0
      exampleEngine _ (-13) exampleEngine_Evaluate
    exact congrArg Prod.fst h
  · obtain ⟨hV, hN⟩ := exampleStaleEngine_config
    obtain ⟨h1, h2, -⟩ :=
      SetModelParameters_rawValuesAre exampleEnv exampleOtherParams exampleStaleEngine
    have hc := SetModelParameters_sameCache exampleEnv exampleOtherParams exampleStaleEngine
    have hN2 : (SetModelParameters exampleEnv exampleOtherParams exampleStaleEngine).m_SampleSize
        = 0 := hc.2.2.2.2.2.2.2.2.1.trans hN
    rw [EvaluateWithGradient_feasible_value exampleEnv exampleOtherParams [] exampleStaleEngine
      _ exampleStaleEngine_feasible rfl rfl rfl]
    rw [exampleEnv_log_det hN2, exampleEnv_GetIntegral, h1, h2, hV]
    norm_num [exampleOtherParams]

/-! ## Witnesses for the objective assembly -/

theorem exampleParams_logDeterminant :
    (if (SetModelParameters exampleEnv exampleParams exampleEngine).m_Modified
      then (GetLogDeterminant exampleEnv
        (SetModelParameters exampleEnv exampleParams exampleEngine)).1
      else some exampleEngine.m_LogDeterminant) = some 0 := by
  have hc := SetModelParameters_sameCache exampleEnv exampleParams exampleEngine
  have hN : (SetModelParameters exampleEnv exampleParams exampleEngine).m_SampleSize = 0 :=
    hc.2.2.2.2.2.2.2.2.1
  rw [exampleParams_modified, if_pos rfl, GetLogDeterminant_some exampleEnv _ _ rfl,
    exampleEnv_log_det hN]

/-- Witness of C6: `Evaluate(exampleParams)` on the fresh example engine. -/
theorem C6_Evaluate_value_witness :
    ((if (SetModelParameters exampleEnv exampleParams exampleEngine).m_Modified
      then (GetLogDeterminant exampleEnv
        (SetModelParameters exampleEnv exampleParams exampleEngine)).1
      else some exampleEngine.m_LogDeterminant) = some 0) ∧
    exampleEnv.isfinite
      (if (SetModelParameters exampleEnv exampleParams exampleEngine).m_Modified
        then (GetIntegral exampleEnv
          (SetModelParameters exampleEnv exampleParams exampleEngine)).1
        else exampleEngine.m_Integral) = true ∧
    exampleEnv.isfinite 0 = true ∧
    (Evaluate exampleEnv exampleParams exampleEngine).1 =
      Except.ok (-2 * (2 * exampleEngine.m_DomainVolume
        + exampleEngine.m_DomainVolume *
            (if (SetModelParameters exampleEnv exampleParams exampleEngine).m_Modified
              then (GetIntegral exampleEnv
                (SetModelParameters exampleEnv exampleParams exampleEngine)).1
              else exampleEngine.m_Integral)
        + 0)) :=
  ⟨exampleParams_logDeterminant, rfl, rfl,
    (C6_Evaluate_value exampleEnv exampleParams exampleEngine 0 exampleParams_logDeterminant
      rfl rfl).1⟩

/-- Witness of C8: the second `Evaluate(exampleParams)` returns `-13` again, also
when the quadrature of the second call is replaced by the zero function. -/
theorem C8_Evaluate_repeat_witness :
    Evaluate exampleEnv exampleParams exampleEngine =
      (Except.ok (-13), (Evaluate exampleEnv exampleParams exampleEngine).2) ∧
    ({ exampleEnv with integrate := fun _ _ => 0 } : Env ℚ).isfinite = exampleEnv.isfinite ∧
    (SetModelParameters { exampleEnv with integrate := fun _ _ => 0 } exampleParams
      (Evaluate exampleEnv exampleParams exampleEngine).2).m_Modified = false ∧
    Evaluate { exampleEnv with integrate := fun _ _ => 0 } exampleParams
        (Evaluate exampleEnv exampleParams exampleEngine).2 =
      (Except.ok (-13),
        { (Evaluate exampleEnv exampleParams exampleEngine).2 with m_Modified := false }) :=
  ⟨exampleEngine_Evaluate, rfl,
    C8_Evaluate_repeat exampleEnv { exampleEnv with integrate := fun _ _ => 0 } exampleParams
      exampleEngine _ (-13) exampleEngine_Evaluate rfl⟩

/-- Witness of C9: a first amplitude of `2` is infeasible for `exampleEnv`. -/
theorem C9_Gradient_infeasible_witness :
    (exampleEnv.CheckModelParameters
      (SetModelParameters exampleEnv exampleInfeasibleParams exampleEngine)).1 = false ∧
    (Gradient exampleEnv exampleInfeasibleParams [] exampleEngine).1
      = Except.ok (List.replicate (GetNumberOfParameters exampleEngine) 0) ∧
    (Gradient exampleEnv exampleInfeasibleParams [] exampleEngine).2.m_Integral
      = exampleEngine.m_Integral :=
  ⟨exampleInfeasibleParams_infeasible,
    (C9_Gradient_infeasible exampleEnv exampleInfeasibleParams [] exampleEngine
      exampleInfeasibleParams_infeasible).1,
    (C9_Gradient_infeasible exampleEnv exampleInfeasibleParams [] exampleEngine
      exampleInfeasibleParams_infeasible).2.2.1⟩

/-- Witness of C10: `Gradient(exampleParams, g)` on the fresh example engine. -/
theorem C10_Gradient_value_witness :
    (exampleEnv.CheckModelParameters
      (SetModelParameters exampleEnv exampleParams exampleEngine)).1 = true ∧
    ((if (SetModelParameters exampleEnv exampleParams exampleEngine).m_Modified
      then (GetLogDeterminant exampleEnv
        (SetModelParameters exampleEnv exampleParams exampleEngine)).1
      else some exampleEngine.m_LogDeterminant) = some 0) ∧
    exampleEnv.isfinite
      (if (SetModelParameters exampleEnv exampleParams exampleEngine).m_Modified
        then (GetIntegral exampleEnv
          (SetModelParameters exampleEnv exampleParams exampleEngine)).1
        else exampleEngine.m_Integral) = true ∧
    exampleEnv.isfinite 0 = true ∧
    ∃ g2 : List ℚ, (Gradient exampleEnv exampleParams [] exampleEngine).1 = Except.ok g2 ∧
      g2.length = GetNumberOfParameters exampleEngine ∧
      ∀ i, i < GetNumberOfParameters exampleEngine →
        g2.getD i 0 =
          -2 * (exampleEngine.m_DomainVolume *
              (if (SetModelParameters exampleEnv exampleParams exampleEngine).m_Modified
                then (GetIntegral exampleEnv
                  (SetModelParameters exampleEnv exampleParams exampleEngine)).2.m_GradientIntegral
                else exampleEngine.m_GradientIntegral).getD i 0
            + (if (SetModelParameters exampleEnv exampleParams exampleEngine).m_Modified
                then (GetLogDeterminant exampleEnv
                  (SetModelParameters exampleEnv exampleParams
                    exampleEngine)).2.m_GradientLogDeterminant
                else exampleEngine.m_GradientLogDeterminant).getD i 0) :=
  ⟨exampleParams_feasible, exampleParams_logDeterminant, rfl, rfl,
    C10_Gradient_value exampleEnv exampleParams [] exampleEngine 0 exampleParams_feasible
      exampleParams_logDeterminant rfl rfl⟩

/-! ## Outcomes of the three evaluations -/

/-- The outcome of `Evaluate` in every case. -/
theorem Evaluate_outcome {α : Type} [LinearOrderedField α] (env : Env α) (x : List α)
    (s : Engine α) :
    (Evaluate env x s).1 =
      if (SetModelParameters env x s).m_Modified = true then
        (match env.inv (lMatrix env (SetModelParameters env x s)) with
          | none => Except.error Fatal.singular
          | some _ =>
            if env.isfinite (GetIntegral env (SetModelParameters env x s)).1 = true ∧
                env.isfinite (env.log_det (lMatrix env (SetModelParameters env x s))) = true
            then Except.ok (-2 * (2 * s.m_DomainVolume
              + s.m_DomainVolume * (GetIntegral env (SetModelParameters env x s)).1
              + env.log_det (lMatrix env (SetModelParameters env x s))))
            else Except.error Fatal.nonFinite)
      else
        if env.isfinite s.m_Integral = true ∧ env.isfinite s.m_LogDeterminant = true
        then Except.ok (-2 * (2 * s.m_DomainVolume + s.m_DomainVolume * s.m_Integral
          + s.m_LogDeterminant))
        else Except.error Fatal.nonFinite := by
  obtain ⟨hv, -, hi, hl, -⟩ := SetModelParameters_sameCache env x s
  by_cases hm : (SetModelParameters env x s).m_Modified = true
  · rw [if_pos hm]
    cases hinv : env.inv (lMatrix env (SetModelParameters env x s)) with
    | none => exact Evaluate_singular env x s hm hinv
    | some Minv =>
      simp only []
      by_cases hf : env.isfinite (GetIntegral env (SetModelParameters env x s)).1 = true ∧
          env.isfinite (env.log_det (lMatrix env (SetModelParameters env x s))) = true
      · rw [if_pos hf, Evaluate_dirty env x s Minv hm hinv hf.1 hf.2]
      · rw [if_neg hf]
        unfold Evaluate
        simp only [hm, if_true]
        rw [recomputeTerms_some env _ Minv hinv]
        simp only []
        rw [if_pos]
        simp only [Bool.or_eq_true, Bool.not_eq_true']
        by_contra hc
        simp only [not_or, Bool.not_eq_false] at hc
        exact hf hc
  · rw [if_neg hm]
    have hm2 : (SetModelParameters env x s).m_Modified = false := by simpa using hm
    by_cases hf : env.isfinite s.m_Integral = true ∧ env.isfinite s.m_LogDeterminant = true
    · rw [if_pos hf, Evaluate_clean env x s hm2 (by rw [hi]; exact hf.1)
        (by rw [hl]; exact hf.2)]
      simp only [objectiveValue, hv, hi, hl]
    · rw [if_neg hf]
      unfold Evaluate
      simp only [hm2, Bool.false_eq_true, if_false]
      rw [if_pos]
      simp only [Bool.or_eq_true, Bool.not_eq_true', hi, hl]
      by_contra hc
      simp only [not_or, Bool.not_eq_false] at hc
      exact hf hc

/-! ## Fatal errors -/

theorem raises_error {β : Type} (e : Fatal) : raises (Except.error e : Except Fatal β) :=
  ⟨e, rfl⟩

theorem not_raises_ok {β : Type} (v : β) : ¬ raises (Except.ok v : Except Fatal β) := by
  rintro ⟨e, h⟩
  exact absurd h (by simp)

theorem recomputeTerms_fst {α : Type} [LinearOrderedField α] (env : Env α) (s : Engine α) :
    (recomputeTerms env s).1 = none ↔ env.inv (lMatrix env s) ≠ none := by
  cases hinv : env.inv (lMatrix env s) with
  | none => rw [recomputeTerms_none env s hinv]; simp
  | some Minv => rw [recomputeTerms_some env s Minv hinv]; simp

theorem recomputeTerms_terms {α : Type} [LinearOrderedField α] (env : Env α) (s : Engine α)
    (h : env.inv (lMatrix env s) ≠ none) :
    (recomputeTerms env s).2.m_Integral = (GetIntegral env s).1 ∧
    (recomputeTerms env s).2.m_LogDeterminant = env.log_det (lMatrix env s) := by
  cases hinv : env.inv (lMatrix env s) with
  | none => exact absurd hinv h
  | some Minv => rw [recomputeTerms_some env s Minv hinv]; exact ⟨rfl, rfl⟩

theorem Evaluate_raises {α : Type} [LinearOrderedField α] (env : Env α) (x : List α)
    (s : Engine α) :
    raises (Evaluate env x s).1 ↔
      ((SetModelParameters env x s).m_Modified = true ∧
          env.inv (lMatrix env (SetModelParameters env x s)) = none) ∨
        env.isfinite (integralInForce env x s) = false ∨
        env.isfinite (logDeterminantInForce env x s) = false := by
  rw [Evaluate_outcome]
  unfold integralInForce logDeterminantInForce
  by_cases hm : (SetModelParameters env x s).m_Modified = true
  · simp only [hm, if_true, true_and]
    cases hinv : env.inv (lMatrix env (SetModelParameters env x s)) with
    | none => simp [raises_error]
    | some Minv =>
      simp only []
      split_ifs with hf
      · simp [not_raises_ok, hf.1, hf.2]
      · simp only [raises_error, true_iff]
        right
        by_contra hc
        simp only [not_or, Bool.not_eq_false] at hc
        exact hf hc
  · simp only [hm, if_false, false_and, false_or, Bool.false_eq_true]
    split_ifs with hf
    · simp [not_raises_ok, hf.1, hf.2]
    · simp only [raises_error, true_iff]
      by_contra hc
      simp only [not_or, Bool.not_eq_false] at hc
      exact hf hc

theorem Gradient_raises {α : Type} [LinearOrderedField α] (env : Env α) (x g : List α)
    (s : Engine α) :
    raises (Gradient env x g s).1 ↔
      (env.CheckModelParameters (SetModelParameters env x s)).1 = true ∧
      (((SetModelParameters env x s).m_Modified = true ∧
          env.inv (lMatrix env (SetModelParameters env x s)) = none) ∨
        env.isfinite (integralInForce env x s) = false ∨
        env.isfinite (logDeterminantInForce env x s) = false) := by
  obtain ⟨-, -, hi, hl, -⟩ := SetModelParameters_sameCache env x s
  unfold integralInForce logDeterminantInForce
  cases hfeas : (env.CheckModelParameters (SetModelParameters env x s)).1 with
  | false =>
    rw [Gradient_infeasible env x g s hfeas]
    simp [not_raises_ok]
  | true =>
    have hfeas2 : (CheckModelParameters env (SetModelParameters env x s)).1 = true := hfeas
    simp only [true_and]
    by_cases hm : (SetModelParameters env x s).m_Modified = true
    · have hm2 : (CheckModelParameters env (SetModelParameters env x s)).2.m_Modified = true := hm
      simp only [hm, if_true, true_and]
      cases hinv : env.inv (lMatrix env (SetModelParameters env x s)) with
      | none =>
        have hinv2 : env.inv (lMatrix env
            (CheckModelParameters env (SetModelParameters env x s)).2) = none := hinv
        unfold Gradient
        simp only [hfeas2, hm2, Bool.not_true, Bool.false_eq_true, if_false, if_true]
        rw [recomputeTerms_none env _ hinv2]
        simp [raises_error]
      | some Minv =>
        by_cases hf : env.isfinite (GetIntegral env (SetModelParameters env x s)).1 = true ∧
            env.isfinite (env.log_det (lMatrix env (SetModelParameters env x s))) = true
        · rw [Gradient_dirty env x g s Minv hfeas hm hinv hf.1 hf.2]
          simp [not_raises_ok, hf.1, hf.2]
        · have hinv2 : env.inv (lMatrix env
              (CheckModelParameters env (SetModelParameters env x s)).2) = some Minv := hinv
          have hf2 : env.isfinite (GetIntegral env (SetModelParameters env x s)).1 = false ∨
              env.isfinite (env.log_det (lMatrix env (SetModelParameters env x s))) = false := by
            by_contra hc
            simp only [not_or, Bool.not_eq_false] at hc
            exact hf hc
          have hf3 : (!env.isfinite
                (GetIntegral env (CheckModelParameters env (SetModelParameters env x s)).2).1 ||
              !env.isfinite (env.log_det (lMatrix env
                (CheckModelParameters env (SetModelParameters env x s)).2))) = true := by
            simp only [Bool.or_eq_true, Bool.not_eq_true']
            exact hf2
          unfold Gradient
          simp only [hfeas2, hm2, Bool.not_true, Bool.false_eq_true, if_false, if_true]
          rw [recomputeTerms_some env _ Minv hinv2]
          simp only [hf3, if_true, raises_error, true_iff]
          right
          exact hf2
    · have hm3 : (SetModelParameters env x s).m_Modified = false := by simpa using hm
      have hm2 : (CheckModelParameters env (SetModelParameters env x s)).2.m_Modified = false :=
        hm3
      simp only [hm3, Bool.false_eq_true, if_false, false_and, false_or]
      by_cases hf : env.isfinite s.m_Integral = true ∧ env.isfinite s.m_LogDeterminant = true
      · rw [Gradient_clean env x g s hfeas hm3 (by rw [hi]; exact hf.1)
          (by rw [hl]; exact hf.2)]
        simp [not_raises_ok, hf.1, hf.2]
      · have hf2 : env.isfinite s.m_Integral = false ∨ env.isfinite s.m_LogDeterminant = false := by
          by_contra hc
          simp only [not_or, Bool.not_eq_false] at hc
          exact hf hc
        have hf3 : (!env.isfinite
              (CheckModelParameters env (SetModelParameters env x s)).2.m_Integral ||
            !env.isfinite
              (CheckModelParameters env (SetModelParameters env x s)).2.m_LogDeterminant)
            = true := by
          simp only [Bool.or_eq_true, Bool.not_eq_true']
          show env.isfinite (SetModelParameters env x s).m_Integral = false ∨
            env.isfinite (SetModelParameters env x s).m_LogDeterminant = false
          rw [hi, hl]
          exact hf2
        unfold Gradient
        simp only [hfeas2, hm2, Bool.not_true, Bool.false_eq_true, if_false]
        simp only [hf3, if_true, raises_error, true_iff]
        exact hf2

theorem EvaluateWithGradient_raises {α : Type} [LinearOrderedField α] (env : Env α)
    (x g : List α) (s : Engine α) :
    raises (EvaluateWithGradient env x g s).1 ↔
      (env.CheckModelParameters (SetModelParameters env x s)).1 = true ∧
      (env.inv (lMatrix env (SetModelParameters env x s)) = none ∨
        env.isfinite (GetIntegral env (SetModelParameters env x s)).1 = false ∨
        env.isfinite (env.log_det (lMatrix env (SetModelParameters env x s))) = false) := by
  cases hfeas : (env.CheckModelParameters (SetModelParameters env x s)).1 with
  | false =>
    rw [EvaluateWithGradient_infeasible env x g s hfeas]
    simp [not_raises_ok]
  | true =>
    have hfeas2 : (CheckModelParameters env (SetModelParameters env x s)).1 = true := hfeas
    simp only [true_and]
    cases hinv : env.inv (lMatrix env (SetModelParameters env x s)) with
    | none =>
      have hinv2 : env.inv (lMatrix env
          (CheckModelParameters env (SetModelParameters env x s)).2) = none := hinv
      unfold EvaluateWithGradient
      simp only [hfeas2, Bool.not_true, Bool.false_eq_true, if_false]
      rw [recomputeTerms_none env _ hinv2]
      simp [raises_error]
    | some Minv =>
      by_cases hf : env.isfinite (GetIntegral env (SetModelParameters env x s)).1 = true ∧
          env.isfinite (env.log_det (lMatrix env (SetModelParameters env x s))) = true
      · rw [EvaluateWithGradient_feasible env x g s Minv hfeas hinv hf.1 hf.2]
        simp [not_raises_ok, hf.1, hf.2]
      · have hinv2 : env.inv (lMatrix env
            (CheckModelParameters env (SetModelParameters env x s)).2) = some Minv := hinv
        have hf2 : env.isfinite (GetIntegral env (SetModelParameters env x s)).1 = false ∨
            env.isfinite (env.log_det (lMatrix env (SetModelParameters env x s))) = false := by
          by_contra hc
          simp only [not_or, Bool.not_eq_false] at hc
          exact hf hc
        have hf3 : (!env.isfinite
              (GetIntegral env (CheckModelParameters env (SetModelParameters env x s)).2).1 ||
            !env.isfinite (env.log_det (lMatrix env
              (CheckModelParameters env (SetModelParameters env x s)).2))) = true := by
          simp only [Bool.or_eq_true, Bool.not_eq_true']
          exact hf2
        unfold EvaluateWithGradient
        simp only [hfeas2, Bool.not_true, Bool.false_eq_true, if_false]
        rw [recomputeTerms_some env _ Minv hinv2]
        simp only [hf3, if_true, raises_error, true_iff]
        exact Or.inr hf2

/-! ## C11 -/

theorem EvaluateWithGradient_logDeterminant {α : Type} [LinearOrderedField α] (env : Env α)
    (x g : List α) (s : Engine α) (Minv : Mat α)
    (hfeas : (env.CheckModelParameters (SetModelParameters env x s)).1 = true)
    (hinv : env.inv (lMatrix env (SetModelParameters env x s)) = some Minv) :
    (EvaluateWithGradient env x g s).2.m_LogDeterminant
      = env.log_det (lMatrix env (SetModelParameters env x s)) := by
  have hfeas2 : (CheckModelParameters env (SetModelParameters env x s)).1 = true := hfeas
  have hinv2 : env.inv (lMatrix env (CheckModelParameters env (SetModelParameters env x s)).2)
      = some Minv := hinv
  unfold EvaluateWithGradient
  simp only [hfeas2, Bool.not_true, Bool.false_eq_true, if_false]
  rw [recomputeTerms_some env _ Minv hinv2]
  simp only []
  split_ifs <;> rfl

/-- C11: when the feasibility check reports a violation, `EvaluateWithGradient(x,
g)` returns `DBL_MAX` together with the zero vector of `GetNumberOfParameters()`
entries, without an error; when it reports feasibility, the integral term is
the value of a new run of `GetIntegral` and, `arma::inv` returning, the
log-determinant term is the new value of `arma::log_det`, whatever the dirty flag
and the cached terms were, and the value returned for finite terms is assembled
from these new terms. -/
theorem C11_EvaluateWithGradient {α : Type} [LinearOrderedField α] (env : Env α)
    (x g : List α) (s : Engine α) :
    ((env.CheckModelParameters (SetModelParameters env x s)).1 = false →
      (EvaluateWithGradient env x g s).1 =
        Except.ok (env.DBL_MAX, List.replicate (GetNumberOfParameters s) 0)) ∧
    ((env.CheckModelParameters (SetModelParameters env x s)).1 = true →
      (EvaluateWithGradient env x g s).2.m_Integral
        = (GetIntegral env (SetModelParameters env x s)).1 ∧
      ∀ Minv : Mat α, env.inv (lMatrix env (SetModelParameters env x s)) = some Minv →
        (EvaluateWithGradient env x g s).2.m_LogDeterminant
          = env.log_det (lMatrix env (SetModelParameters env x s)) ∧
        (env.isfinite (GetIntegral env (SetModelParameters env x s)).1 = true →
          env.isfinite (env.log_det (lMatrix env (SetModelParameters env x s))) = true →
          (EvaluateWithGradient env x g s).1.map Prod.fst =
            Except.ok (-2 * (2 * s.m_DomainVolume
              + s.m_DomainVolume * (GetIntegral env (SetModelParameters env x s)).1
              + env.log_det (lMatrix env (SetModelParameters env x s)))))) := by
  constructor
  · intro hinf
    rw [EvaluateWithGradient_infeasible env x g s hinf]
  · intro hfeas
    refine ⟨EvaluateWithGradient_integral env x g s hfeas, ?_⟩
    intro Minv hinv
    refine ⟨EvaluateWithGradient_logDeterminant env x g s Minv hfeas hinv, ?_⟩
    intro hI hL
    exact EvaluateWithGradient_feasible_value env x g s Minv hfeas hinv hI hL

/-- Witness of C11: the infeasible and the feasible example vectors. -/
theorem C11_EvaluateWithGradient_witness :
    (exampleEnv.CheckModelParameters
      (SetModelParameters exampleEnv exampleInfeasibleParams exampleEngine)).1 = false ∧
    (EvaluateWithGradient exampleEnv exampleInfeasibleParams [] exampleEngine).1 =
      Except.ok (exampleEnv.DBL_MAX, List.replicate (GetNumberOfParameters exampleEngine) 0) ∧
    (exampleEnv.CheckModelParameters
      (SetModelParameters exampleEnv exampleParams exampleEngine)).1 = true ∧
    (EvaluateWithGradient exampleEnv exampleParams [] exampleEngine).2.m_Integral
      = (GetIntegral exampleEnv (SetModelParameters exampleEnv exampleParams exampleEngine)).1 :=
  ⟨exampleInfeasibleParams_infeasible,
    (C11_EvaluateWithGradient exampleEnv exampleInfeasibleParams [] exampleEngine).1
      exampleInfeasibleParams_infeasible,
    exampleParams_feasible,
    ((C11_EvaluateWithGradient exampleEnv exampleParams [] exampleEngine).2
      exampleParams_feasible).1⟩

/-! ## C15, C17, C18 -/

/-- The cross-amplitude stored by a parameter mapping that reported a change. -/
theorem SetModelParameters_crossAmplitude {α : Type} [LinearOrderedField α] (env : Env α)
    (x : List α) (s : Engine α) (hm : (SetModelParameters env x s).m_Modified = true) :
    (SetModelParameters env x s).m_CrossAmplitude =
      x.getD 2 0 * env.sqrt (max (min ((1 - x.getD 0 0) * (1 - x.getD 1 0))
        (x.getD 0 0 * x.getD 1 0)) 0) := by
  unfold SetModelParameters at hm ⊢
  generalize ({ s with m_Modified := false } : Engine α) = s0 at hm ⊢
  have A := SetModelParameters_k1_raw env x s0
  generalize SetModelParameters_k1 env x s0 = s1 at A hm ⊢
  have B := SetModelParameters_k2_raw env x s1
  generalize SetModelParameters_k2 env x s1 = s2 at B hm ⊢
  have C := SetModelParameters_k12star_raw x s2
  generalize SetModelParameters_k12star x s2 = s3 at C hm ⊢
  have D := SetModelParameters_beta12_raw x s3
  generalize SetModelParameters_beta12 x s3 = s4 at D hm ⊢
  have E := SetModelParameters_alpha_raw env x s4
  generalize SetModelParameters_alpha env x s4 = s5 at E hm ⊢
  have h1 : s5.m_FirstAmplitude = x.getD 0 0 := by
    rw [E.1, D.1, C.1, B.1, A.1]
  have h2 : s5.m_SecondAmplitude = x.getD 1 0 := by
    rw [E.2.1, D.2.1, C.2.1, B.2.1]
  have h3 : s5.m_NormalizedCrossAmplitude = x.getD 2 0 := by
    rw [E.2.2.1, D.2.2.1, C.2.2.1]
  have hm5 : s5.m_Modified = true := by
    rw [← (SetModelParameters_finish_raw env s5).2.2.2.2.2.2]
    exact hm
  unfold SetModelParameters_finish
  rw [if_pos hm5]
  simp only []
  split_ifs <;> simp only [h1, h2, h3]

theorem sqrtQ_nonneg (t : ℚ) : 0 ≤ sqrtQ t := by
  unfold sqrtQ
  exact div_nonneg (Nat.cast_nonneg _) (Nat.cast_nonneg _)

theorem sqrtQ_quarter : sqrtQ (1 / 4) = 1 / 2 := by
  have h4 : Nat.sqrt 4 = 2 := Nat.sqrt_eq 2
  unfold sqrtQ
  norm_num [h4]

/-- C15, as stated, fails: a raw first amplitude of `2` is stored as it is, and
with both amplitudes `1/2` a normalized cross-amplitude of `2` gives the
cross-amplitude `1`, above the bound `sqrt (min (1/4) (1/4)) = 1/2`. -/
theorem C15_counterexample :
    ¬ ((SetModelParameters exampleEnv exampleInfeasibleParams exampleEngine).m_FirstAmplitude
        < 1) ∧
    ¬ ((SetModelParameters exampleEnv [1 / 2, 1 / 2, 2, 1, 1, 1] exampleEngine).m_CrossAmplitude
        ≤ exampleEnv.sqrt (min ((1 - 1 / 2) * (1 - 1 / 2)) (1 / 2 * (1 / 2)))) := by
  constructor
  · rw [(SetModelParameters_rawValuesAre exampleEnv exampleInfeasibleParams exampleEngine).1]
    norm_num [exampleInfeasibleParams]
  · have hm : (SetModelParameters exampleEnv [1 / 2, 1 / 2, 2, 1, 1, 1]
        exampleEngine).m_Modified = true := by
      apply SetModelParameters_modified_of_ne
      norm_num [exampleEngine]
    rw [SetModelParameters_crossAmplitude exampleEnv _ exampleEngine hm]
    have e1 : (max (min ((1 - (1 / 2 : ℚ)) * (1 - 1 / 2)) (1 / 2 * (1 / 2))) 0) = 1 / 4 := by
      norm_num
    have e2 : (min ((1 - (1 / 2 : ℚ)) * (1 - 1 / 2)) (1 / 2 * (1 / 2))) = 1 / 4 := by
      norm_num
    show ¬ ((2 : ℚ) * sqrtQ (max (min ((1 - 1 / 2) * (1 - 1 / 2)) (1 / 2 * (1 / 2))) 0)
      ≤ sqrtQ (min ((1 - 1 / 2) * (1 - 1 / 2)) (1 / 2 * (1 / 2))))
    rw [e1, e2, sqrtQ_quarter]
    norm_num

/-- C15, amended: when the two raw amplitudes lie in `[0, 1)` and the raw
normalized cross-amplitude is at most `1`, after a parameter mapping that
reported a change the stored per-type amplitudes are the raw values, hence in
`[0, 1)`, and the stored cross-amplitude does not exceed
`sqrt (min ((1 - a1) * (1 - a2)) (a1 * a2))` (the square root being
non-negative). -/
theorem C15_amplitude_invariant {α : Type} [LinearOrderedField α] (env : Env α)
    (x : List α) (s : Engine α) (hsqrt : ∀ t, 0 ≤ env.sqrt t)
    (h0 : 0 ≤ x.getD 0 0 ∧ x.getD 0 0 < 1) (h1 : 0 ≤ x.getD 1 0 ∧ x.getD 1 0 < 1)
    (h2 : x.getD 2 0 ≤ 1) (hm : (SetModelParameters env x s).m_Modified = true) :
    (0 ≤ (SetModelParameters env x s).m_FirstAmplitude ∧
      (SetModelParameters env x s).m_FirstAmplitude < 1) ∧
    (0 ≤ (SetModelParameters env x s).m_SecondAmplitude ∧
      (SetModelParameters env x s).m_SecondAmplitude < 1) ∧
    (SetModelParameters env x s).m_CrossAmplitude ≤
      env.sqrt (min
        ((1 - (SetModelParameters env x s).m_FirstAmplitude)
          * (1 - (SetModelParameters env x s).m_SecondAmplitude))
        ((SetModelParameters env x s).m_FirstAmplitude
          * (SetModelParameters env x s).m_SecondAmplitude)) := by
  obtain ⟨r1, r2, -⟩ := SetModelParameters_rawValuesAre env x s
  rw [SetModelParameters_crossAmplitude env x s hm, r1, r2]
  refine ⟨h0, h1, ?_⟩
  have hmin : 0 ≤ min ((1 - x.getD 0 0) * (1 - x.getD 1 0)) (x.getD 0 0 * x.getD 1 0) := by
    apply le_min
    · exact mul_nonneg (by linarith [h0.2]) (by linarith [h1.2])
    · exact mul_nonneg h0.1 h1.1
  rw [max_eq_left hmin]
  calc x.getD 2 0 * env.sqrt (min ((1 - x.getD 0 0) * (1 - x.getD 1 0))
          (x.getD 0 0 * x.getD 1 0))
      ≤ 1 * env.sqrt (min ((1 - x.getD 0 0) * (1 - x.getD 1 0))
          (x.getD 0 0 * x.getD 1 0)) :=
        mul_le_mul_of_nonneg_right h2 (hsqrt _)
    _ = env.sqrt (min ((1 - x.getD 0 0) * (1 - x.getD 1 0)) (x.getD 0 0 * x.getD 1 0)) :=
        one_mul _

/-- Witness of C15: the feasible example vector on the fresh engine. -/
theorem C15_amplitude_invariant_witness :
    (∀ t, 0 ≤ exampleEnv.sqrt t) ∧
    (0 ≤ exampleParams.getD 0 0 ∧ exampleParams.getD 0 0 < 1) ∧
    (0 ≤ exampleParams.getD 1 0 ∧ exampleParams.getD 1 0 < 1) ∧
    exampleParams.getD 2 0 ≤ 1 ∧
    (SetModelParameters exampleEnv exampleParams exampleEngine).m_Modified = true ∧
    (SetModelParameters exampleEnv exampleParams exampleEngine).m_CrossAmplitude ≤
      exampleEnv.sqrt (min
        ((1 - (SetModelParameters exampleEnv exampleParams exampleEngine).m_FirstAmplitude)
          * (1 - (SetModelParameters exampleEnv exampleParams exampleEngine).m_SecondAmplitude))
        ((SetModelParameters exampleEnv exampleParams exampleEngine).m_FirstAmplitude
          * (SetModelParameters exampleEnv exampleParams exampleEngine).m_SecondAmplitude)) :=
  ⟨sqrtQ_nonneg, by norm_num [exampleParams], by norm_num [exampleParams],
    by norm_num [exampleParams], exampleParams_modified,
    (C15_amplitude_invariant exampleEnv exampleParams exampleEngine sqrtQ_nonneg
      (by norm_num [exampleParams]) (by norm_num [exampleParams]) (by norm_num [exampleParams])
      exampleParams_modified).2.2⟩

/-- C17: `GetNumberOfParameters()` is `6` while the intensities are estimated
and `4` otherwise; after `SetIntensities(rho1, rho2)` it is `4` and the stored
intensities are `rho1` and `rho2`. -/
theorem C17_number_of_parameters {α : Type} (s : Engine α) (rho1 rho2 : α) :
    GetNumberOfParameters s = (if s.m_EstimateIntensities = true then 6 else 4) ∧
    GetNumberOfParameters (SetIntensities rho1 rho2 s) = 4 ∧
    (SetIntensities rho1 rho2 s).m_FirstIntensity = rho1 ∧
    (SetIntensities rho1 rho2 s).m_SecondIntensity = rho2 ∧
    (SetIntensities rho1 rho2 s).m_EstimateIntensities = false := by
  refine ⟨?_, rfl, rfl, rfl, rfl⟩
  unfold GetNumberOfParameters
  split_ifs <;> rfl

/-- The verdict and the constraint vector of the check when inequality `k` is the
first one that is violated. -/
theorem Gaussian_CheckModelParameters_first {α : Type} [LinearOrderedField α]
    (env : GaussianEnv α) (s : GaussianEngine α) (k : Nat) (hk : k < 5)
    (hv : Gaussian.constraintViolated env s k)
    (hlow : ∀ j, j < k → ¬ Gaussian.constraintViolated env s j) :
    Gaussian.CheckModelParameters env s =
      (false, { s with m_ConstraintVector := (List.replicate 5 (0 : α)).set k env.DBL_MAX }) := by
  interval_cases k
  · have h0 : s.m_Amplitude1 ≥ 1 := by simpa [Gaussian.constraintViolated] using hv
    unfold Gaussian.CheckModelParameters
    simp only []
    rw [if_pos h0]
  · have h0 : ¬ s.m_Amplitude1 ≥ 1 := by
      simpa [Gaussian.constraintViolated] using hlow 0 (by norm_num)
    have h1 : s.m_Amplitude2 ≥ 1 := by simpa [Gaussian.constraintViolated] using hv
    unfold Gaussian.CheckModelParameters
    simp only []
    rw [if_neg h0, if_pos h1]
  · have h0 : ¬ s.m_Amplitude1 ≥ 1 := by
      simpa [Gaussian.constraintViolated] using hlow 0 (by norm_num)
    have h1 : ¬ s.m_Amplitude2 ≥ 1 := by
      simpa [Gaussian.constraintViolated] using hlow 1 (by norm_num)
    have h2 : 2 * s.m_Alpha12 * s.m_Alpha12 < s.m_Alpha1 * s.m_Alpha1 + s.m_Alpha2 * s.m_Alpha2 := by
      simpa [Gaussian.constraintViolated] using hv
    unfold Gaussian.CheckModelParameters
    simp only []
    rw [if_neg h0, if_neg h1, if_pos h2]
  · have h0 : ¬ s.m_Amplitude1 ≥ 1 := by
      simpa [Gaussian.constraintViolated] using hlow 0 (by norm_num)
    have h1 : ¬ s.m_Amplitude2 ≥ 1 := by
      simpa [Gaussian.constraintViolated] using hlow 1 (by norm_num)
    have h2 : ¬ 2 * s.m_Alpha12 * s.m_Alpha12
        < s.m_Alpha1 * s.m_Alpha1 + s.m_Alpha2 * s.m_Alpha2 := by
      simpa [Gaussian.constraintViolated] using hlow 2 (by norm_num)
    have h3 : s.m_Covariance * s.m_Covariance * env.pow s.m_Alpha12 (2 * (s.m_DataDimension : α))
        > s.m_Intensity1 * s.m_Intensity2
          * env.pow (s.m_Alpha1 * s.m_Alpha2) (s.m_DataDimension : α) := by
      simpa [Gaussian.constraintViolated] using hv
    unfold Gaussian.CheckModelParameters
    simp only []
    rw [if_neg h0, if_neg h1, if_neg h2, if_pos h3]
  · have h0 : ¬ s.m_Amplitude1 ≥ 1 := by
      simpa [Gaussian.constraintViolated] using hlow 0 (by norm_num)
    have h1 : ¬ s.m_Amplitude2 ≥ 1 := by
      simpa [Gaussian.constraintViolated] using hlow 1 (by norm_num)
    have h2 : ¬ 2 * s.m_Alpha12 * s.m_Alpha12
        < s.m_Alpha1 * s.m_Alpha1 + s.m_Alpha2 * s.m_Alpha2 := by
      simpa [Gaussian.constraintViolated] using hlow 2 (by norm_num)
    have h3 : ¬ s.m_Covariance * s.m_Covariance
          * env.pow s.m_Alpha12 (2 * (s.m_DataDimension : α))
        > s.m_Intensity1 * s.m_Intensity2
          * env.pow (s.m_Alpha1 * s.m_Alpha2) (s.m_DataDimension : α) := by
      simpa [Gaussian.constraintViolated] using hlow 3 (by norm_num)
    have h4 : s.m_Covariance * s.m_Covariance * env.pow s.m_Alpha12 (2 * (s.m_DataDimension : α))
        > 4 * (s.m_Intensity1 * s.m_Intensity2
            * env.pow (s.m_Alpha1 * s.m_Alpha2) (s.m_DataDimension : α))
          * (1 / s.m_Amplitude1 - 1) * (1 / s.m_Amplitude2 - 1) := by
      simpa [Gaussian.constraintViolated] using hv
    unfold Gaussian.CheckModelParameters
    simp only []
    rw [if_neg h0, if_neg h1, if_neg h2, if_neg h3, if_pos h4]

/-- The verdict and the constraint vector of the check when no inequality is
violated. -/
theorem Gaussian_CheckModelParameters_none {α : Type} [LinearOrderedField α]
    (env : GaussianEnv α) (s : GaussianEngine α)
    (hall : ∀ k, k < 5 → ¬ Gaussian.constraintViolated env s k) :
    Gaussian.CheckModelParameters env s =
      (true, { s with m_ConstraintVector := List.replicate 5 (0 : α) }) := by
  have h0 : ¬ s.m_Amplitude1 ≥ 1 := by
    simpa [Gaussian.constraintViolated] using hall 0 (by norm_num)
  have h1 : ¬ s.m_Amplitude2 ≥ 1 := by
    simpa [Gaussian.constraintViolated] using hall 1 (by norm_num)
  have h2 : ¬ 2 * s.m_Alpha12 * s.m_Alpha12
      < s.m_Alpha1 * s.m_Alpha1 + s.m_Alpha2 * s.m_Alpha2 := by
    simpa [Gaussian.constraintViolated] using hall 2 (by norm_num)
  have h3 : ¬ s.m_Covariance * s.m_Covariance
        * env.pow s.m_Alpha12 (2 * (s.m_DataDimension : α))
      > s.m_Intensity1 * s.m_Intensity2
        * env.pow (s.m_Alpha1 * s.m_Alpha2) (s.m_DataDimension : α) := by
    simpa [Gaussian.constraintViolated] using hall 3 (by norm_num)
  have h4 : ¬ s.m_Covariance * s.m_Covariance
        * env.pow s.m_Alpha12 (2 * (s.m_DataDimension : α))
      > 4 * (s.m_Intensity1 * s.m_Intensity2
          * env.pow (s.m_Alpha1 * s.m_Alpha2) (s.m_DataDimension : α))
        * (1 / s.m_Amplitude1 - 1) * (1 / s.m_Amplitude2 - 1) := by
    simpa [Gaussian.constraintViolated] using hall 4 (by norm_num)
  unfold Gaussian.CheckModelParameters
  simp only []
  rw [if_neg h0, if_neg h1, if_neg h2, if_neg h3, if_neg h4]

/-- Among the five inequalities, either none is violated or there is a violated
one of lowest index. -/
theorem Gaussian_first_violated {α : Type} [LinearOrderedField α]
    (env : GaussianEnv α) (s : GaussianEngine α) :
    (∀ k, k < 5 → ¬ Gaussian.constraintViolated env s k) ∨
    ∃ k, k < 5 ∧ Gaussian.constraintViolated env s k ∧
      ∀ j, j < k → ¬ Gaussian.constraintViolated env s j := by
  classical
  by_cases h : ∃ k, k < 5 ∧ Gaussian.constraintViolated env s k
  · right
    refine ⟨Nat.find h, (Nat.find_spec h).1, (Nat.find_spec h).2, ?_⟩
    intro j hj hvj
    exact Nat.find_min h hj ⟨lt_trans hj (Nat.find_spec h).1, hvj⟩
  · left
    intro k hk hv
    exact h ⟨k, hk, hv⟩

/-- C13: the feasibility check of the Gaussian family reports satisfied exactly
when none of its five inequalities is violated; then both amplitudes are below
one and the constraint vector is five zeros.  When inequality `k` is the violated
one of lowest index, it reports violated, entry `k` of the five-entry constraint
vector is `DBL_MAX` and the four other entries are zero; a report of violated
always comes with such an inequality. -/
theorem C13_Gaussian_CheckModelParameters {α : Type} [LinearOrderedField α]
    (env : GaussianEnv α) (s : GaussianEngine α) :
    ((Gaussian.CheckModelParameters env s).1 = true ↔
      ∀ k, k < 5 → ¬ Gaussian.constraintViolated env s k) ∧
    ((Gaussian.CheckModelParameters env s).1 = true →
      s.m_Amplitude1 < 1 ∧ s.m_Amplitude2 < 1 ∧
      (Gaussian.CheckModelParameters env s).2.m_ConstraintVector = [0, 0, 0, 0, 0]) ∧
    (∀ k, k < 5 → Gaussian.constraintViolated env s k →
      (∀ j, j < k → ¬ Gaussian.constraintViolated env s j) →
      (Gaussian.CheckModelParameters env s).1 = false ∧
      (Gaussian.CheckModelParameters env s).2.m_ConstraintVector.length = 5 ∧
      ∀ i, i < 5 →
        (Gaussian.CheckModelParameters env s).2.m_ConstraintVector.getD i 0 =
          if i = k then env.DBL_MAX else 0) ∧
    ((Gaussian.CheckModelParameters env s).1 = false →
      ∃ k, k < 5 ∧ Gaussian.constraintViolated env s k ∧
        ∀ j, j < k → ¬ Gaussian.constraintViolated env s j) := by
  have hfirst : ∀ k, k < 5 → Gaussian.constraintViolated env s k →
      (∀ j, j < k → ¬ Gaussian.constraintViolated env s j) →
      (Gaussian.CheckModelParameters env s).1 = false := by
    intro k hk hv hlow
    rw [Gaussian_CheckModelParameters_first env s k hk hv hlow]
  have hiff : (Gaussian.CheckModelParameters env s).1 = true ↔
      ∀ k, k < 5 → ¬ Gaussian.constraintViolated env s k := by
    constructor
    · intro ht
      rcases Gaussian_first_violated env s with hall | ⟨k, hk, hv, hlow⟩
      · exact hall
      · rw [hfirst k hk hv hlow] at ht
        exact absurd ht (by decide)
    · intro hall
      rw [Gaussian_CheckModelParameters_none env s hall]
  refine ⟨hiff, ?_, ?_, ?_⟩
  · intro ht
    have hall := hiff.1 ht
    refine ⟨?_, ?_, ?_⟩
    · simpa [Gaussian.constraintViolated] using hall 0 (by norm_num)
    · simpa [Gaussian.constraintViolated] using hall 1 (by norm_num)
    · rw [Gaussian_CheckModelParameters_none env s hall]
      rfl
  · intro k hk hv hlow
    refine ⟨hfirst k hk hv hlow, ?_, ?_⟩
    · rw [Gaussian_CheckModelParameters_first env s k hk hv hlow]
      simp
    · intro i hi
      rw [Gaussian_CheckModelParameters_first env s k hk hv hlow]
      interval_cases k <;> interval_cases i <;> simp [List.replicate]
  · intro hf
    rcases Gaussian_first_violated env s with hall | h
    · rw [hiff.2 hall] at hf
      exact absurd hf (by decide)
    · exact h

/-! ## The parameter mapping of the Gaussian family -/

theorem Gaussian_SetModelParameters_alpha1_eq {α : Type} [LinearOrderedField α]
    (env : GaussianEnv α) (x : Mat α) (s : GaussianEngine α) :
    Gaussian.SetModelParameters_alpha1 env x s =
      { s with
        m_Alpha1 := env.exp (x.linear 0)
        m_Modified := s.m_Modified || decide (s.m_Alpha1 ≠ env.exp (x.linear 0)) } := by
  unfold Gaussian.SetModelParameters_alpha1
  by_cases h : s.m_Alpha1 = env.exp (x.linear 0)
  · simp only [h, ne_eq, not_true_eq_false, if_false, decide_False, Bool.or_false]
    cases s
    simp only [GaussianEngine.mk.injEq, true_and, and_true]
    exact h
  · simp only [ne_eq, h, not_false_eq_true, if_true, decide_True, Bool.or_true]

theorem Gaussian_SetModelParameters_alpha12_eq {α : Type} [LinearOrderedField α]
    (env : GaussianEnv α) (x : Mat α) (s : GaussianEngine α) :
    Gaussian.SetModelParameters_alpha12 env x s =
      { s with
        m_Alpha12 := env.exp (x.linear 1)
        m_Modified := s.m_Modified || decide (s.m_Alpha12 ≠ env.exp (x.linear 1)) } := by
  unfold Gaussian.SetModelParameters_alpha12
  by_cases h : s.m_Alpha12 = env.exp (x.linear 1)
  · simp only [h, ne_eq, not_true_eq_false, if_false, decide_False, Bool.or_false]
    cases s
    simp only [GaussianEngine.mk.injEq, true_and, and_true]
    exact h
  · simp only [ne_eq, h, not_false_eq_true, if_true, decide_True, Bool.or_true]

theorem Gaussian_SetModelParameters_alpha2_eq {α : Type} [LinearOrderedField α]
    (env : GaussianEnv α) (x : Mat α) (s : GaussianEngine α) :
    Gaussian.SetModelParameters_alpha2 env x s =
      { s with
        m_Alpha2 := env.exp (x.linear 2)
        m_Modified := s.m_Modified || decide (s.m_Alpha2 ≠ env.exp (x.linear 2)) } := by
  unfold Gaussian.SetModelParameters_alpha2
  by_cases h : s.m_Alpha2 = env.exp (x.linear 2)
  · simp only [h, ne_eq, not_true_eq_false, if_false, decide_False, Bool.or_false]
    cases s
    simp only [GaussianEngine.mk.injEq, true_and, and_true]
    exact h
  · simp only [ne_eq, h, not_false_eq_true, if_true, decide_True, Bool.or_true]

theorem Gaussian_SetModelParameters_covariance_eq {α : Type} [LinearOrderedField α]
    (x : Mat α) (s : GaussianEngine α) :
    Gaussian.SetModelParameters_covariance x s =
      { s with
        m_Covariance := x.linear 3
        m_Modified := s.m_Modified || decide (s.m_Covariance ≠ x.linear 3) } := by
  unfold Gaussian.SetModelParameters_covariance
  by_cases h : s.m_Covariance = x.linear 3
  · simp only [h, ne_eq, not_true_eq_false, if_false, decide_False, Bool.or_false]
    cases s
    simp only [GaussianEngine.mk.injEq, true_and, and_true]
    exact h
  · simp only [ne_eq, h, not_false_eq_true, if_true, decide_True, Bool.or_true]

/-- The state before the closing block of `SetModelParameters`: the four raw
values are stored and the flag tells whether one of them changed. -/
theorem Gaussian_SetModelParameters_eq {α : Type} [LinearOrderedField α]
    (env : GaussianEnv α) (x : Mat α) (s : GaussianEngine α) :
    Gaussian.SetModelParameters env x s =
      Gaussian.SetModelParameters_finish env
        { s with
          m_Alpha1 := env.exp (x.linear 0)
          m_Alpha12 := env.exp (x.linear 1)
          m_Alpha2 := env.exp (x.linear 2)
          m_Covariance := x.linear 3
          m_Modified :=
            decide (s.m_Alpha1 ≠ env.exp (x.linear 0))
              || decide (s.m_Alpha12 ≠ env.exp (x.linear 1))
              || decide (s.m_Alpha2 ≠ env.exp (x.linear 2))
              || decide (s.m_Covariance ≠ x.linear 3) } := by
  unfold Gaussian.SetModelParameters
  rw [Gaussian_SetModelParameters_alpha1_eq, Gaussian_SetModelParameters_alpha12_eq,
    Gaussian_SetModelParameters_alpha2_eq, Gaussian_SetModelParameters_covariance_eq]
  simp only [Bool.false_or]

/-- A call of `SetModelParameters` with the values already stored resets the
flag and changes nothing else. -/
theorem Gaussian_SetModelParameters_same {α : Type} [LinearOrderedField α]
    (env : GaussianEnv α) (x : Mat α) (s : GaussianEngine α)
    (h1 : s.m_Alpha1 = env.exp (x.linear 0)) (h12 : s.m_Alpha12 = env.exp (x.linear 1))
    (h2 : s.m_Alpha2 = env.exp (x.linear 2)) (hc : s.m_Covariance = x.linear 3) :
    Gaussian.SetModelParameters env x s = { s with m_Modified := false } := by
  rw [Gaussian_SetModelParameters_eq]
  unfold Gaussian.SetModelParameters_finish
  simp only [← h1, ← h12, ← h2, ← hc, ne_eq, not_true_eq_false, decide_False, Bool.or_self,
    Bool.false_eq_true, if_false]

/-- A call of `SetModelParameters` with a value that differs from the stored one
stores the four raw values, sets the flag and recomputes the three amplitudes. -/
theorem Gaussian_SetModelParameters_changed {α : Type} [LinearOrderedField α]
    (env : GaussianEnv α) (x : Mat α) (s : GaussianEngine α)
    (h : s.m_Alpha1 ≠ env.exp (x.linear 0) ∨ s.m_Alpha12 ≠ env.exp (x.linear 1) ∨
      s.m_Alpha2 ≠ env.exp (x.linear 2) ∨ s.m_Covariance ≠ x.linear 3) :
    Gaussian.SetModelParameters env x s =
      { s with
        m_Alpha1 := env.exp (x.linear 0)
        m_Alpha12 := env.exp (x.linear 1)
        m_Alpha2 := env.exp (x.linear 2)
        m_Covariance := x.linear 3
        m_Modified := true
        m_Amplitude1 :=
          s.m_Intensity1
            * env.pow (env.sqrt env.pi * env.exp (x.linear 0)) (s.m_DataDimension : α)
        m_Amplitude12 :=
          x.linear 3 * env.pow (env.sqrt env.pi * env.exp (x.linear 1)) (s.m_DataDimension : α)
        m_Amplitude2 :=
          s.m_Intensity2
            * env.pow (env.sqrt env.pi * env.exp (x.linear 2)) (s.m_DataDimension : α) } := by
  have hflag : (decide (s.m_Alpha1 ≠ env.exp (x.linear 0))
      || decide (s.m_Alpha12 ≠ env.exp (x.linear 1))
      || decide (s.m_Alpha2 ≠ env.exp (x.linear 2))
      || decide (s.m_Covariance ≠ x.linear 3)) = true := by
    rcases h with h | h | h | h <;> simp [h]
  rw [Gaussian_SetModelParameters_eq, hflag]
  rfl

/-- After the mapping the stored raw values are those of `x`. -/
theorem Gaussian_SetModelParameters_raw {α : Type} [LinearOrderedField α]
    (env : GaussianEnv α) (x : Mat α) (s : GaussianEngine α) :
    (Gaussian.SetModelParameters env x s).m_Alpha1 = env.exp (x.linear 0) ∧
    (Gaussian.SetModelParameters env x s).m_Alpha12 = env.exp (x.linear 1) ∧
    (Gaussian.SetModelParameters env x s).m_Alpha2 = env.exp (x.linear 2) ∧
    (Gaussian.SetModelParameters env x s).m_Covariance = x.linear 3 := by
  by_cases h : s.m_Alpha1 ≠ env.exp (x.linear 0) ∨ s.m_Alpha12 ≠ env.exp (x.linear 1) ∨
      s.m_Alpha2 ≠ env.exp (x.linear 2) ∨ s.m_Covariance ≠ x.linear 3
  · rw [Gaussian_SetModelParameters_changed env x s h]
    exact ⟨rfl, rfl, rfl, rfl⟩
  · simp only [not_or, not_not] at h
    rw [Gaussian_SetModelParameters_same env x s h.1 h.2.1 h.2.2.1 h.2.2.2]
    exact ⟨h.1, h.2.1, h.2.2.1, h.2.2.2⟩

/-- The check writes the constraint vector and nothing else. -/
theorem Gaussian_CheckModelParameters_snd {α : Type} [LinearOrderedField α]
    (env : GaussianEnv α) (s : GaussianEngine α) :
    (Gaussian.CheckModelParameters env s).2 =
      { s with m_ConstraintVector := (Gaussian.CheckModelParameters env s).2.m_ConstraintVector } := by
  unfold Gaussian.CheckModelParameters
  simp only []
  split_ifs <;> rfl

/-- A second call with the same `x`, after the check has run on the mapped
state, finds nothing to change: it resets the flag and keeps every cached term. -/
theorem Gaussian_SetModelParameters_repeat {α : Type} [LinearOrderedField α]
    (env : GaussianEnv α) (x : Mat α) (s : GaussianEngine α) :
    Gaussian.SetModelParameters env x
        (Gaussian.CheckModelParameters env (Gaussian.SetModelParameters env x s)).2 =
      { (Gaussian.CheckModelParameters env (Gaussian.SetModelParameters env x s)).2 with
        m_Modified := false } := by
  obtain ⟨h1, h12, h2, hc⟩ := Gaussian_SetModelParameters_raw env x s
  apply Gaussian_SetModelParameters_same
  · rw [Gaussian_CheckModelParameters_snd]; exact h1
  · rw [Gaussian_CheckModelParameters_snd]; exact h12
  · rw [Gaussian_CheckModelParameters_snd]; exact h2
  · rw [Gaussian_CheckModelParameters_snd]; exact hc

/-- The mapping leaves the data and the cached terms alone. -/
theorem Gaussian_SetModelParameters_frame {α : Type} [LinearOrderedField α]
    (env : GaussianEnv α) (x : Mat α) (s : GaussianEngine α) :
    (Gaussian.SetModelParameters env x s).m_DataVolume = s.m_DataVolume ∧
    (Gaussian.SetModelParameters env x s).m_Integral = s.m_Integral ∧
    (Gaussian.SetModelParameters env x s).m_LogDeterminant = s.m_LogDeterminant ∧
    (Gaussian.SetModelParameters env x s).m_GradientIntegral = s.m_GradientIntegral ∧
    (Gaussian.SetModelParameters env x s).m_GradientLogDeterminant
      = s.m_GradientLogDeterminant ∧
    (Gaussian.SetModelParameters env x s).m_ConstraintVector = s.m_ConstraintVector ∧
    (Gaussian.SetModelParameters env x s).m_Intensity1 = s.m_Intensity1 ∧
    (Gaussian.SetModelParameters env x s).m_Intensity2 = s.m_Intensity2 ∧
    (Gaussian.SetModelParameters env x s).m_DataDimension = s.m_DataDimension := by
  by_cases h : s.m_Alpha1 ≠ env.exp (x.linear 0) ∨ s.m_Alpha12 ≠ env.exp (x.linear 1) ∨
      s.m_Alpha2 ≠ env.exp (x.linear 2) ∨ s.m_Covariance ≠ x.linear 3
  · rw [Gaussian_SetModelParameters_changed env x s h]
    exact ⟨rfl, rfl, rfl, rfl, rfl, rfl, rfl, rfl, rfl⟩
  · simp only [not_or, not_not] at h
    rw [Gaussian_SetModelParameters_same env x s h.1 h.2.1 h.2.2.1 h.2.2.2]
    exact ⟨rfl, rfl, rfl, rfl, rfl, rfl, rfl, rfl, rfl⟩

/-! ## The objective of the Gaussian family -/

/-- The check leaves the data, the parameters and the cached terms alone. -/
theorem Gaussian_CheckModelParameters_frame {α : Type} [LinearOrderedField α]
    (env : GaussianEnv α) (s : GaussianEngine α) :
    (Gaussian.CheckModelParameters env s).2.m_DataVolume = s.m_DataVolume ∧
    (Gaussian.CheckModelParameters env s).2.m_Integral = s.m_Integral ∧
    (Gaussian.CheckModelParameters env s).2.m_LogDeterminant = s.m_LogDeterminant ∧
    (Gaussian.CheckModelParameters env s).2.m_GradientIntegral = s.m_GradientIntegral ∧
    (Gaussian.CheckModelParameters env s).2.m_GradientLogDeterminant
      = s.m_GradientLogDeterminant := by
  rw [Gaussian_CheckModelParameters_snd]
  exact ⟨rfl, rfl, rfl, rfl, rfl⟩

/-- On parameters that changed and fail the check, `Evaluate` returns `DBL_MAX`
and leaves the cached terms as they were. -/
theorem Gaussian_Evaluate_infeasible {α : Type} [LinearOrderedField α]
    (env : GaussianEnv α) (x : Mat α) (s : GaussianEngine α)
    (hm : (Gaussian.SetModelParameters env x s).m_Modified = true)
    (hf : (Gaussian.CheckModelParameters env (Gaussian.SetModelParameters env x s)).1 = false) :
    Gaussian.Evaluate env x s =
      (Except.ok env.DBL_MAX,
        (Gaussian.CheckModelParameters env (Gaussian.SetModelParameters env x s)).2) := by
  unfold Gaussian.Evaluate
  simp only [hm, hf, if_true, Bool.not_false]

/-- On parameters that did not change, `Evaluate` runs no check and assembles the
value from the cached terms. -/
theorem Gaussian_Evaluate_clean {α : Type} [LinearOrderedField α]
    (env : GaussianEnv α) (x : Mat α) (s : GaussianEngine α)
    (hm : (Gaussian.SetModelParameters env x s).m_Modified = false)
    (hI : env.isfinite (Gaussian.SetModelParameters env x s).m_Integral = true)
    (hL : env.isfinite (Gaussian.SetModelParameters env x s).m_LogDeterminant = true) :
    Gaussian.Evaluate env x s =
      (Except.ok (Gaussian.objectiveValue (Gaussian.SetModelParameters env x s)),
        Gaussian.SetModelParameters env x s) := by
  unfold Gaussian.Evaluate Gaussian.finishEvaluate
  simp only [hm, hI, hL, Bool.false_eq_true, if_false, Bool.not_true, Bool.or_self]

/-- The second of two calls of `Evaluate` with the same parameters that changed
and fail the check: the check is skipped and the value is assembled from the
terms cached before the first call. -/
theorem Gaussian_Evaluate_infeasible_twice {α : Type} [LinearOrderedField α]
    (env : GaussianEnv α) (x : Mat α) (s : GaussianEngine α)
    (hm : (Gaussian.SetModelParameters env x s).m_Modified = true)
    (hf : (Gaussian.CheckModelParameters env (Gaussian.SetModelParameters env x s)).1 = false)
    (hI : env.isfinite s.m_Integral = true) (hL : env.isfinite s.m_LogDeterminant = true) :
    (Gaussian.Evaluate env x s).1 = Except.ok env.DBL_MAX ∧
    (Gaussian.Evaluate env x (Gaussian.Evaluate env x s).2).1 =
      Except.ok (-2 * (2 * s.m_DataVolume + s.m_DataVolume * s.m_Integral + s.m_LogDeterminant)) := by
  have hfr := Gaussian_SetModelParameters_frame env x s
  have hck := Gaussian_CheckModelParameters_frame env (Gaussian.SetModelParameters env x s)
  rw [Gaussian_Evaluate_infeasible env x s hm hf]
  refine ⟨rfl, ?_⟩
  simp only []
  have hrep := Gaussian_SetModelParameters_repeat env x s
  rw [Gaussian_Evaluate_clean]
  · rw [hrep]
    unfold Gaussian.objectiveValue
    simp only []
    rw [hck.1, hck.2.1, hck.2.2.1, hfr.1, hfr.2.1, hfr.2.2.1]
  · rw [hrep]
  · rw [hrep]
    simp only []
    rw [hck.2.1, hfr.2.1]
    exact hI
  · rw [hrep]
    simp only []
    rw [hck.2.2.1, hfr.2.2.1]
    exact hL

/-- On parameters that changed, `EvaluateConstraint` returns the entry of the
constraint vector written by the check. -/
theorem Gaussian_EvaluateConstraint_modified {α : Type} [LinearOrderedField α]
    (env : GaussianEnv α) (i : Nat) (x : Mat α) (s : GaussianEngine α)
    (hm : (Gaussian.SetModelParameters env x s).m_Modified = true) :
    (Gaussian.EvaluateConstraint env i x s).1 =
      (Gaussian.CheckModelParameters env
        (Gaussian.SetModelParameters env x s)).2.m_ConstraintVector.getD i 0 := by
  unfold Gaussian.EvaluateConstraint
  simp only [hm, if_true]

/-- The vector that `Gradient` hands back has `x.n_cols` entries. -/
theorem Gaussian_Gradient_length {α : Type} [LinearOrderedField α]
    (env : GaussianEnv α) (x : Mat α) (g v : List α) (s : GaussianEngine α)
    (h : (Gaussian.Gradient env x g s).1 = Except.ok v) : v.length = x.n_cols := by
  have hsz : (Gaussian.vecSetSize env g x.n_cols).length = x.n_cols := by
    unfold Gaussian.vecSetSize
    split_ifs with h1
    · exact h1
    · simp
  have hfold : ∀ (t : GaussianEngine α) (n : Nat) (w : List α),
      ((List.range n).foldl
        (fun g i =>
          g.set i (t.m_GradientIntegral.getD i 0 + t.m_GradientLogDeterminant.getD i 0))
        w).length = w.length := by
    intro t n w
    induction n with
    | zero => rfl
    | succ n ih =>
      rw [List.range_succ, List.foldl_append, List.foldl_cons, List.foldl_nil, List.length_set, ih]
  have hfin : ∀ (t : GaussianEngine α),
      (Gaussian.finishGradient env x.n_cols (Gaussian.vecSetSize env g x.n_cols) t).1
        = Except.ok v → v.length = x.n_cols := by
    intro t ht
    unfold Gaussian.finishGradient at ht
    by_cases hc : (!env.isfinite t.m_Integral || !env.isfinite t.m_LogDeterminant) = true
    · rw [if_pos hc] at ht
      exact absurd ht (by simp)
    · rw [if_neg hc] at ht
      simp only [Except.ok.injEq] at ht
      rw [← ht, List.length_map, hfold, hsz]
  unfold Gaussian.Gradient at h
  simp only [] at h
  split_ifs at h with h1 h2
  · simp only [Except.ok.injEq] at h
    rw [← h, List.length_map, hsz]
  · split at h
    · exact absurd h (by simp)
    · exact hfin _ h
  · exact hfin _ h

/-- The gradient loop for a parameter matrix with one column. -/
theorem Gaussian_finishGradient_one {α : Type} [LinearOrderedField α]
    (env : GaussianEnv α) (c : α) (t : GaussianEngine α)
    (hI : env.isfinite t.m_Integral = true) (hL : env.isfinite t.m_LogDeterminant = true) :
    Gaussian.finishGradient env 1 [c] t =
      (Except.ok
        [(t.m_GradientIntegral.getD 0 0 + t.m_GradientLogDeterminant.getD 0 0) * (-2)], t) := by
  unfold Gaussian.finishGradient
  simp only [hI, hL, Bool.not_true, Bool.or_self, Bool.false_eq_true, if_false]
  rfl

/-- With an `arma::inv` that succeeds, the two assignments finish without error
and write the two cached terms and the gradient vectors. -/
theorem Gaussian_recomputeTerms_some {α : Type} [LinearOrderedField α]
    (env : GaussianEnv α) (s : GaussianEngine α) (Minv : Mat α)
    (h : env.inv (Gaussian.lMatrix env
      { (Gaussian.GetIntegral env s).2 with m_Integral := (Gaussian.GetIntegral env s).1 })
        = some Minv) :
    (Gaussian.recomputeTerms env s).1 = none ∧
    (Gaussian.recomputeTerms env s).2.m_Integral = (Gaussian.GetIntegral env s).1 ∧
    (Gaussian.recomputeTerms env s).2.m_LogDeterminant =
      env.log_det (Gaussian.lMatrix env
        { (Gaussian.GetIntegral env s).2 with m_Integral := (Gaussian.GetIntegral env s).1 }) ∧
    (Gaussian.recomputeTerms env s).2.m_GradientIntegral =
      (Gaussian.GetIntegral env s).2.m_GradientIntegral ∧
    (Gaussian.recomputeTerms env s).2.m_DataVolume = s.m_DataVolume := by
  unfold Gaussian.recomputeTerms Gaussian.GetLogDeterminant
  simp only [h]
  simp
  rfl

/-- On parameters that changed and pass the check, `Gradient` recomputes the
terms and runs the checks and the gradient loop on the new state. -/
theorem Gaussian_Gradient_feasible {α : Type} [LinearOrderedField α]
    (env : GaussianEnv α) (x : Mat α) (g : List α) (s : GaussianEngine α)
    (hm : (Gaussian.SetModelParameters env x s).m_Modified = true)
    (hf : (Gaussian.CheckModelParameters env (Gaussian.SetModelParameters env x s)).1 = true)
    (hr : (Gaussian.recomputeTerms env
      (Gaussian.CheckModelParameters env (Gaussian.SetModelParameters env x s)).2).1 = none) :
    Gaussian.Gradient env x g s =
      Gaussian.finishGradient env x.n_cols (Gaussian.vecSetSize env g x.n_cols)
        (Gaussian.recomputeTerms env
          (Gaussian.CheckModelParameters env (Gaussian.SetModelParameters env x s)).2).2 := by
  unfold Gaussian.Gradient
  simp only [hm, hf, if_true, Bool.not_true, Bool.false_eq_true, if_false]
  split
  · rename_i e s3 heq
    rw [heq] at hr
    exact absurd hr (by simp)
  · rename_i s3 heq
    rw [heq]

/-- On parameters that changed and fail the check, `Gradient` fills the vector
with zeros. -/
theorem Gaussian_Gradient_infeasible {α : Type} [LinearOrderedField α]
    (env : GaussianEnv α) (x : Mat α) (g : List α) (s : GaussianEngine α)
    (hm : (Gaussian.SetModelParameters env x s).m_Modified = true)
    (hf : (Gaussian.CheckModelParameters env (Gaussian.SetModelParameters env x s)).1 = false) :
    Gaussian.Gradient env x g s =
      (Except.ok ((Gaussian.vecSetSize env g x.n_cols).map (fun _ => 0)),
        (Gaussian.CheckModelParameters env (Gaussian.SetModelParameters env x s)).2) := by
  unfold Gaussian.Gradient
  simp only [hm, hf, if_true, Bool.not_false]

/-- On parameters that did not change, `Gradient` runs no check: it goes to the
checks for finite terms and the gradient loop on the cached vectors. -/
theorem Gaussian_Gradient_clean {α : Type} [LinearOrderedField α]
    (env : GaussianEnv α) (x : Mat α) (g : List α) (s : GaussianEngine α)
    (hm : (Gaussian.SetModelParameters env x s).m_Modified = false) :
    Gaussian.Gradient env x g s =
      Gaussian.finishGradient env x.n_cols (Gaussian.vecSetSize env g x.n_cols)
        (Gaussian.SetModelParameters env x s) := by
  unfold Gaussian.Gradient
  simp only [hm, Bool.false_eq_true, if_false]

/-! ## The example of the Gaussian family -/

theorem sqrtQ_pi : sqrtQ (22 / 7) = 2 := by
  have h22 : Nat.sqrt 22 = 4 := (Nat.eq_sqrt.2 ⟨by norm_num, by norm_num⟩).symm
  have h7 : Nat.sqrt 7 = 2 := (Nat.eq_sqrt.2 ⟨by norm_num, by norm_num⟩).symm
  have hn : Int.toNat 22 = 22 := rfl
  unfold sqrtQ
  norm_num [hn, h22, h7]

/-- The state after `SetInputs` on the two example points: dimension one, two
points, volume four and both intensities `1/4`. -/
theorem exampleGaussianEngine_eq :
    exampleGaussianEngine =
      { exampleGaussianBlank with
        m_DataDimension := 1
        m_SampleSize := 2
        m_PointLabels := [1, 2]
        m_DataVolume := 4
        m_DistanceMatrix := exampleGaussianEngine.m_DistanceMatrix
        m_Intensity1 := 1 / 4
        m_Intensity2 := 1 / 4 } := by
  unfold exampleGaussianEngine Gaussian.SetInputs
  simp [exampleGaussianPoints, Gaussian.SetInputs_step, List.range_succ]

theorem exampleGaussianEngine_fields :
    exampleGaussianEngine.m_DataDimension = 1 ∧ exampleGaussianEngine.m_DataVolume = 4 ∧
    exampleGaussianEngine.m_Intensity1 = 1 / 4 ∧ exampleGaussianEngine.m_Intensity2 = 1 / 4 ∧
    exampleGaussianEngine.m_Alpha1 = 0 ∧ exampleGaussianEngine.m_Alpha12 = 0 ∧
    exampleGaussianEngine.m_Alpha2 = 0 ∧ exampleGaussianEngine.m_Covariance = 0 ∧
    exampleGaussianEngine.m_Integral = 0 ∧ exampleGaussianEngine.m_LogDeterminant = 0 ∧
    exampleGaussianEngine.m_GradientIntegral = [0, 0, 0, 0] ∧
    exampleGaussianEngine.m_GradientLogDeterminant = [0, 0, 0, 0] := by
  rw [exampleGaussianEngine_eq]
  exact ⟨rfl, rfl, rfl, rfl, rfl, rfl, rfl, rfl, rfl, rfl, rfl, rfl⟩

theorem exampleGaussianParams_linear (k : Nat) : exampleGaussianParams.linear k = 0 := rfl

theorem exampleGaussianInfeasibleParams_linear :
    exampleGaussianInfeasibleParams.linear 0 = 0 ∧ exampleGaussianInfeasibleParams.linear 1 = 0 ∧
    exampleGaussianInfeasibleParams.linear 2 = 0 ∧ exampleGaussianInfeasibleParams.linear 3 = 1 := by
  simp [Mat.linear, exampleGaussianInfeasibleParams]

/-- The state that `SetModelParameters` leaves from a state with the data of the
example and the widths zero, for a column `(0, 0, 0, c)`: the three widths are
`exp 0 = 1`, the covariance parameter is `c`, both amplitudes are `1/2`. -/
theorem exampleGaussian_mapped (x : Mat ℚ) (c : ℚ) (s : GaussianEngine ℚ)
    (h0 : x.linear 0 = 0) (h1 : x.linear 1 = 0) (h2 : x.linear 2 = 0) (h3 : x.linear 3 = c)
    (hD : s.m_DataDimension = 1) (hI1 : s.m_Intensity1 = 1 / 4) (hI2 : s.m_Intensity2 = 1 / 4)
    (ha : s.m_Alpha1 ≠ 1 ∨ s.m_Covariance ≠ c) :
    (Gaussian.SetModelParameters exampleGaussianEnv x s).m_Modified = true ∧
    (Gaussian.SetModelParameters exampleGaussianEnv x s).m_Alpha1 = 1 ∧
    (Gaussian.SetModelParameters exampleGaussianEnv x s).m_Alpha12 = 1 ∧
    (Gaussian.SetModelParameters exampleGaussianEnv x s).m_Alpha2 = 1 ∧
    (Gaussian.SetModelParameters exampleGaussianEnv x s).m_Covariance = c ∧
    (Gaussian.SetModelParameters exampleGaussianEnv x s).m_Amplitude1 = 1 / 2 ∧
    (Gaussian.SetModelParameters exampleGaussianEnv x s).m_Amplitude2 = 1 / 2 ∧
    (Gaussian.SetModelParameters exampleGaussianEnv x s).m_Intensity1 = 1 / 4 ∧
    (Gaussian.SetModelParameters exampleGaussianEnv x s).m_Intensity2 = 1 / 4 ∧
    (Gaussian.SetModelParameters exampleGaussianEnv x s).m_DataDimension = 1 := by
  have hexp : exampleGaussianEnv.exp 0 = 1 := by
    show (1 : ℚ) + 0 * 0 = 1
    norm_num
  have hamp : (1 / 4 : ℚ) * exampleGaussianEnv.pow
      (exampleGaussianEnv.sqrt exampleGaussianEnv.pi * 1) ((1 : Nat) : ℚ) = 1 / 2 := by
    show (1 / 4 : ℚ) * powQ (sqrtQ (22 / 7) * 1) ((1 : Nat) : ℚ) = 1 / 2
    rw [sqrtQ_pi]
    unfold powQ
    norm_num
  have hch : s.m_Alpha1 ≠ exampleGaussianEnv.exp (x.linear 0) ∨
      s.m_Alpha12 ≠ exampleGaussianEnv.exp (x.linear 1) ∨
      s.m_Alpha2 ≠ exampleGaussianEnv.exp (x.linear 2) ∨ s.m_Covariance ≠ x.linear 3 := by
    rw [h0, h3, hexp]
    rcases ha with ha | ha
    · exact Or.inl ha
    · exact Or.inr (Or.inr (Or.inr ha))
  rw [Gaussian_SetModelParameters_changed exampleGaussianEnv x s hch]
  simp only [h0, h1, h2, h3, hexp, hD, hI1, hI2, hamp]
  exact ⟨trivial, trivial, trivial, trivial, trivial, trivial, trivial, trivial, trivial, trivial⟩

/-- With the widths `1`, both amplitudes `1/2`, both intensities `1/4` and
dimension one, the five inequalities read: `1/2 ≥ 1`, `1/2 ≥ 1`, `2 < 2`,
`c * c > 1/16` and `c * c > 1/4`. -/
theorem exampleGaussian_violated (c : ℚ) (t : GaussianEngine ℚ)
    (h1 : t.m_Alpha1 = 1) (h12 : t.m_Alpha12 = 1) (h2 : t.m_Alpha2 = 1)
    (hc : t.m_Covariance = c) (hA1 : t.m_Amplitude1 = 1 / 2) (hA2 : t.m_Amplitude2 = 1 / 2)
    (hI1 : t.m_Intensity1 = 1 / 4) (hI2 : t.m_Intensity2 = 1 / 4)
    (hD : t.m_DataDimension = 1) :
    ¬ Gaussian.constraintViolated exampleGaussianEnv t 0 ∧
    ¬ Gaussian.constraintViolated exampleGaussianEnv t 1 ∧
    ¬ Gaussian.constraintViolated exampleGaussianEnv t 2 ∧
    (Gaussian.constraintViolated exampleGaussianEnv t 3 ↔ c * c > 1 / 16) ∧
    (Gaussian.constraintViolated exampleGaussianEnv t 4 ↔ c * c > 1 / 4) := by
  have hp1 : exampleGaussianEnv.pow (1 * 1) ((1 : Nat) : ℚ) = 1 := by
    show powQ (1 * 1) ((1 : Nat) : ℚ) = 1
    unfold powQ
    norm_num
  have hp2 : exampleGaussianEnv.pow 1 (2 * ((1 : Nat) : ℚ)) = 1 := by
    show powQ 1 (2 * ((1 : Nat) : ℚ)) = 1
    unfold powQ
    norm_num
  unfold Gaussian.constraintViolated
  simp only [h1, h12, h2, hc, hA1, hA2, hI1, hI2, hD, hp1, hp2]
  norm_num

/-- The facts on the state mapped from the example engine by a column
`(0, 0, 0, c)`. -/
theorem exampleGaussianEngine_mapped (x : Mat ℚ) (c : ℚ)
    (h0 : x.linear 0 = 0) (h1 : x.linear 1 = 0) (h2 : x.linear 2 = 0) (h3 : x.linear 3 = c) :
    (Gaussian.SetModelParameters exampleGaussianEnv x exampleGaussianEngine).m_Modified = true ∧
    ¬ Gaussian.constraintViolated exampleGaussianEnv
      (Gaussian.SetModelParameters exampleGaussianEnv x exampleGaussianEngine) 0 ∧
    ¬ Gaussian.constraintViolated exampleGaussianEnv
      (Gaussian.SetModelParameters exampleGaussianEnv x exampleGaussianEngine) 1 ∧
    ¬ Gaussian.constraintViolated exampleGaussianEnv
      (Gaussian.SetModelParameters exampleGaussianEnv x exampleGaussianEngine) 2 ∧
    (Gaussian.constraintViolated exampleGaussianEnv
      (Gaussian.SetModelParameters exampleGaussianEnv x exampleGaussianEngine) 3
        ↔ c * c > 1 / 16) ∧
    (Gaussian.constraintViolated exampleGaussianEnv
      (Gaussian.SetModelParameters exampleGaussianEnv x exampleGaussianEngine) 4
        ↔ c * c > 1 / 4) := by
  have hf := exampleGaussianEngine_fields
  have hne : exampleGaussianEngine.m_Alpha1 ≠ 1 ∨ exampleGaussianEngine.m_Covariance ≠ c := by
    left
    rw [hf.2.2.2.2.1]
    norm_num
  have hmap := exampleGaussian_mapped x c exampleGaussianEngine h0 h1 h2 h3 hf.1 hf.2.2.1
    hf.2.2.2.1 hne
  have hv := exampleGaussian_violated c
    (Gaussian.SetModelParameters exampleGaussianEnv x exampleGaussianEngine)
    hmap.2.1 hmap.2.2.1 hmap.2.2.2.1 hmap.2.2.2.2.1 hmap.2.2.2.2.2.1 hmap.2.2.2.2.2.2.1
    hmap.2.2.2.2.2.2.2.1 hmap.2.2.2.2.2.2.2.2.1 hmap.2.2.2.2.2.2.2.2.2
  exact ⟨hmap.1, hv⟩

/-- The column `(0, 0, 0, 1)` fails the check on the example engine: the
inequality of lowest index that is violated is the fourth one, index `3`. -/
theorem exampleGaussianInfeasibleParams_check :
    Gaussian.CheckModelParameters exampleGaussianEnv
        (Gaussian.SetModelParameters exampleGaussianEnv exampleGaussianInfeasibleParams
          exampleGaussianEngine) =
      (false,
        { Gaussian.SetModelParameters exampleGaussianEnv exampleGaussianInfeasibleParams
            exampleGaussianEngine with
          m_ConstraintVector := (List.replicate 5 (0 : ℚ)).set 3 exampleGaussianEnv.DBL_MAX }) := by
  obtain ⟨l0, l1, l2, l3⟩ := exampleGaussianInfeasibleParams_linear
  have h := exampleGaussianEngine_mapped exampleGaussianInfeasibleParams 1 l0 l1 l2 l3
  apply Gaussian_CheckModelParameters_first _ _ 3 (by norm_num)
  · exact h.2.2.2.2.1.2 (by norm_num)
  · intro j hj
    interval_cases j
    · exact h.2.1
    · exact h.2.2.1
    · exact h.2.2.2.1

/-- The column `(0, 0, 0, 0)` passes the check on the example engine. -/
theorem exampleGaussianParams_check :
    Gaussian.CheckModelParameters exampleGaussianEnv
        (Gaussian.SetModelParameters exampleGaussianEnv exampleGaussianParams
          exampleGaussianEngine) =
      (true,
        { Gaussian.SetModelParameters exampleGaussianEnv exampleGaussianParams
            exampleGaussianEngine with
          m_ConstraintVector := List.replicate 5 (0 : ℚ) }) := by
  have h := exampleGaussianEngine_mapped exampleGaussianParams 0 rfl rfl rfl rfl
  apply Gaussian_CheckModelParameters_none
  intro k hk
  interval_cases k
  · exact h.2.1
  · exact h.2.2.1
  · exact h.2.2.2.1
  · rw [h.2.2.2.2.1]
    norm_num
  · rw [h.2.2.2.2.2]
    norm_num

/-- C14 fails in the code of the Gaussian family.  On the example engine the
column `(0, 0, 0, 1)` violates the inequalities of index `3` and `4`.  The
check stops at index `3`, so `EvaluateConstraint(3, x)` returns `DBL_MAX` while
`EvaluateConstraint(4, x)` returns `0` for a constraint that is not satisfied. -/
theorem C14_EvaluateConstraint_short_circuit :
    Gaussian.constraintViolated exampleGaussianEnv
      (Gaussian.SetModelParameters exampleGaussianEnv exampleGaussianInfeasibleParams
        exampleGaussianEngine) 3 ∧
    Gaussian.constraintViolated exampleGaussianEnv
      (Gaussian.SetModelParameters exampleGaussianEnv exampleGaussianInfeasibleParams
        exampleGaussianEngine) 4 ∧
    (Gaussian.EvaluateConstraint exampleGaussianEnv 3 exampleGaussianInfeasibleParams
      exampleGaussianEngine).1 = exampleGaussianEnv.DBL_MAX ∧
    (Gaussian.EvaluateConstraint exampleGaussianEnv 4 exampleGaussianInfeasibleParams
      exampleGaussianEngine).1 = 0 ∧
    exampleGaussianEnv.DBL_MAX ≠ 0 := by
  obtain ⟨l0, l1, l2, l3⟩ := exampleGaussianInfeasibleParams_linear
  have h := exampleGaussianEngine_mapped exampleGaussianInfeasibleParams 1 l0 l1 l2 l3
  refine ⟨h.2.2.2.2.1.2 (by norm_num), h.2.2.2.2.2.2 (by norm_num), ?_, ?_, ?_⟩
  · rw [Gaussian_EvaluateConstraint_modified _ _ _ _ h.1, exampleGaussianInfeasibleParams_check]
    rfl
  · rw [Gaussian_EvaluateConstraint_modified _ _ _ _ h.1, exampleGaussianInfeasibleParams_check]
    rfl
  · show (1000000 : ℚ) ≠ 0
    norm_num

/-- C19 fails in the code of the Gaussian family.  On the example engine, with
volume `4` and cached terms `0`, the column `(0, 0, 0, 1)` fails the check: the
first call of `Evaluate` returns `DBL_MAX`; the second call finds the parameters
unchanged, skips the check and returns `-2 * (2 * 4 + 4 * 0 + 0) = -16`. -/
theorem C19_Gaussian_Evaluate_repeat_differs :
    (Gaussian.CheckModelParameters exampleGaussianEnv
      (Gaussian.SetModelParameters exampleGaussianEnv exampleGaussianInfeasibleParams
        exampleGaussianEngine)).1 = false ∧
    (Gaussian.Evaluate exampleGaussianEnv exampleGaussianInfeasibleParams
      exampleGaussianEngine).1 = Except.ok 1000000 ∧
    (Gaussian.Evaluate exampleGaussianEnv exampleGaussianInfeasibleParams
      (Gaussian.Evaluate exampleGaussianEnv exampleGaussianInfeasibleParams
        exampleGaussianEngine).2).1 = Except.ok (-16) := by
  obtain ⟨l0, l1, l2, l3⟩ := exampleGaussianInfeasibleParams_linear
  have h := exampleGaussianEngine_mapped exampleGaussianInfeasibleParams 1 l0 l1 l2 l3
  have hf : (Gaussian.CheckModelParameters exampleGaussianEnv
      (Gaussian.SetModelParameters exampleGaussianEnv exampleGaussianInfeasibleParams
        exampleGaussianEngine)).1 = false := by
    rw [exampleGaussianInfeasibleParams_check]
  have h2 := Gaussian_Evaluate_infeasible_twice exampleGaussianEnv
    exampleGaussianInfeasibleParams exampleGaussianEngine h.1 hf rfl rfl
  have hfd := exampleGaussianEngine_fields
  refine ⟨hf, h2.1, ?_⟩
  rw [h2.2, hfd.2.1, hfd.2.2.2.2.2.2.2.2.1, hfd.2.2.2.2.2.2.2.2.2.1]
  norm_num

/-! ## The pairwise loop of `GetLogDeterminant` -/

theorem fillUpper_step_eq {α : Type} (v : Nat → Nat → α) (i : Nat) :
    (fun (M : Mat α) (j : Nat) =>
      if i ≠ j then (M.set i j (v i j)).set j i (v i j) else M.set i j (v i j)) =
    (fun (M : Mat α) (j : Nat) => (M.set i j (v i j)).set j i (v i j)) := by
  funext M j
  by_cases h : i = j
  · subst h
    simp only [ne_eq, not_true_eq_false, if_false, Mat.set]
    congr 1
    funext a b
    split_ifs <;> rfl
  · simp only [ne_eq, h, not_false_eq_true, if_true]

theorem fillUpper_outer_elem {α : Type} (n : Nat) (v : Nat → Nat → α) (M : Mat α)
    (m a b : Nat) :
    ((List.range m).foldl
      (fun M i =>
        (List.range' i (n - i)).foldl
          (fun M j => if i ≠ j then (M.set i j (v i j)).set j i (v i j) else M.set i j (v i j))
          M) M).elem a b =
      if a < m ∧ a ≤ b ∧ b < n then v a b
      else if b < m ∧ b ≤ a ∧ a < n then v b a else M.elem a b := by
  induction m with
  | zero => simp
  | succ m ih =>
    rw [List.range_succ, List.foldl_append, List.foldl_cons, List.foldl_nil,
      fillUpper_step_eq, fillPairs_inner_elem, ih]
    simp only [List.mem_range'_1]
    split_ifs <;>
      first
        | rfl
        | (exfalso; omega)
        | (have hm : a = m := by omega
           subst hm; rfl)
        | (have hm : b = m := by omega
           subst hm; rfl)

/-- Entries of a matrix written by the pairwise loop of `GetLogDeterminant`. -/
theorem fillUpper_elem {α : Type} (n : Nat) (v : Nat → Nat → α) (M : Mat α) (a b : Nat)
    (ha : a < n) (hb : b < n) :
    (fillUpper n v M).elem a b = if a ≤ b then v a b else v b a := by
  unfold fillUpper
  rw [fillUpper_outer_elem]
  split_ifs <;> first | rfl | (exfalso; omega)

theorem SetInputs_elem_diag {α : Type} [LinearOrderedField α] (env : Env α)
    (points : Mat α) (labels : List Nat) (lb ub : List α) (s : Engine α) (a : Nat) :
    (SetInputs env points labels lb ub s).m_DistanceMatrix.elem a a = 0 := by
  rw [SetInputs_elem]
  rw [if_neg (fun hh => lt_irrefl a hh.1), if_neg (fun hh => lt_irrefl a hh.1)]

theorem SetInputs_elem_symm {α : Type} [LinearOrderedField α] (env : Env α)
    (points : Mat α) (labels : List Nat) (lb ub : List α) (s : Engine α) (a b : Nat) :
    (SetInputs env points labels lb ub s).m_DistanceMatrix.elem a b =
      (SetInputs env points labels lb ub s).m_DistanceMatrix.elem b a := by
  rw [SetInputs_elem, SetInputs_elem]
  split_ifs <;> first | rfl | (exfalso; omega)

/-- The outer loop of `SetInputs(points, volume)` after `m` rows: the two
counters and the matrix of the double loop. -/
theorem Gaussian_SetInputs_fold {α : Type} [LinearOrderedField α] (env : GaussianEnv α)
    (n : Nat) (labels : List α) (dataRow : Nat → List α) (m : Nat) (c1 c2 : α) (M : Mat α) :
    (List.range m).foldl (Gaussian.SetInputs_step env n labels dataRow) (c1, c2, M) =
      (c1 + ∑ i in Finset.range m, (if labels.getD i 0 = 1 then (1 : α) else 0),
        c2 + ∑ i in Finset.range m, (if labels.getD i 0 = 2 then (1 : α) else 0),
        (List.range m).foldl
          (fun M i =>
            (List.range' (i + 1) (n - (i + 1))).foldl
              (fun M j =>
                (M.set i j (norm env.sqrt (vsub (dataRow i) (dataRow j)))).set j i
                  (norm env.sqrt (vsub (dataRow i) (dataRow j)))) M) M) := by
  induction m with
  | zero => simp
  | succ m ih =>
    rw [List.range_succ, List.foldl_append, ih, List.foldl_cons, List.foldl_nil,
      List.foldl_append, List.foldl_cons, List.foldl_nil, Finset.sum_range_succ,
      Finset.sum_range_succ]
    unfold Gaussian.SetInputs_step
    simp only []
    refine Prod.ext ?_ (Prod.ext ?_ rfl)
    · simp only []
      split_ifs <;> ring
    · simp only []
      split_ifs <;> ring

/-- The state that `SetInputs(points, volume)` leaves when the matrix has at
least two columns. -/
theorem Gaussian_SetInputs_eq {α : Type} [LinearOrderedField α] (env : GaussianEnv α)
    (points : Mat α) (volume : α) (s : GaussianEngine α) (h : 2 ≤ points.n_cols) :
    Gaussian.SetInputs env points volume s =
      some
        { s with
          m_DataDimension := points.n_cols - 1
          m_SampleSize := points.n_rows
          m_PointLabels :=
            (List.range points.n_rows).map (fun i => points.elem i (points.n_cols - 1))
          m_DataVolume := volume
          m_DistanceMatrix :=
            fillPairs points.n_rows
              (fun i j =>
                norm env.sqrt
                  (vsub ((List.range (points.n_cols - 1)).map (points.elem i))
                    ((List.range (points.n_cols - 1)).map (points.elem j))))
              ((s.m_DistanceMatrix.set_size points.n_rows points.n_rows).fill 0)
          m_Intensity1 :=
            (∑ i in Finset.range points.n_rows,
              (if ((List.range points.n_rows).map
                  (fun i => points.elem i (points.n_cols - 1))).getD i 0 = 1
                then (1 : α) else 0)) / volume
          m_Intensity2 :=
            (∑ i in Finset.range points.n_rows,
              (if ((List.range points.n_rows).map
                  (fun i => points.elem i (points.n_cols - 1))).getD i 0 = 2
                then (1 : α) else 0)) / volume } := by
  unfold Gaussian.SetInputs
  rw [if_neg (by omega)]
  simp only [Gaussian_SetInputs_fold, zero_add]
  rfl

/-- The two assignments of the recomputation write the cached terms and the two
gradient vectors, and nothing else. -/
theorem Gaussian_recomputeTerms_frame {α : Type} [LinearOrderedField α]
    (env : GaussianEnv α) (s : GaussianEngine α) :
    (Gaussian.recomputeTerms env s).2.m_DataDimension = s.m_DataDimension ∧
    (Gaussian.recomputeTerms env s).2.m_Intensity1 = s.m_Intensity1 ∧
    (Gaussian.recomputeTerms env s).2.m_Intensity2 = s.m_Intensity2 ∧
    (Gaussian.recomputeTerms env s).2.m_Alpha1 = s.m_Alpha1 ∧
    (Gaussian.recomputeTerms env s).2.m_Covariance = s.m_Covariance := by
  unfold Gaussian.recomputeTerms Gaussian.GetLogDeterminant
  simp only []
  cases env.inv (Gaussian.lMatrix env
    { (Gaussian.GetIntegral env s).2 with m_Integral := (Gaussian.GetIntegral env s).1 }) with
  | none => exact ⟨rfl, rfl, rfl, rfl, rfl⟩
  | some M => exact ⟨rfl, rfl, rfl, rfl, rfl⟩

/-- A property that holds at the start of a loop and is kept by every pass holds
at its end. -/
theorem foldl_invariant {β γ : Type} (P : β → Prop) (f : β → γ → β) (l : List γ) (b : β)
    (h0 : P b) (hstep : ∀ v k, k ∈ l → P v → P (f v k)) : P (l.foldl f b) := by
  induction l generalizing b with
  | nil => exact h0
  | cons k l ih =>
    rw [List.foldl_cons]
    apply ih
    · exact hstep b k (List.mem_cons_self _ _) h0
    · intro v j hj hv
      exact hstep v j (List.mem_cons_of_mem _ hj) hv

theorem powQ_nonneg (b e : ℚ) (hb : 0 ≤ b) : 0 ≤ powQ b e := by
  unfold powQ
  split_ifs
  · exact hb
  · exact mul_nonneg hb hb
  · norm_num

/-- With the stand-ins of the example, non-negative intensities, covariance
parameter and amplitudes, and at least one point, every entry written to the
kernel matrix and to `lMatrixDeriv1` is non-negative. -/
theorem exampleGaussian_pairValues_nonneg (s : GaussianEngine ℚ) (i j : Nat)
    (hN : 1 ≤ s.m_SampleSize)
    (hI1 : 0 ≤ s.m_Intensity1) (hI2 : 0 ≤ s.m_Intensity2) (hc : 0 ≤ s.m_Covariance)
    (hA1 : 0 ≤ s.m_Amplitude1) (hA12 : 0 ≤ s.m_Amplitude12) (hA2 : 0 ≤ s.m_Amplitude2) :
    0 ≤ (Gaussian.pairValues exampleGaussianEnv s i j).resVal ∧
    0 ≤ (Gaussian.pairValues exampleGaussianEnv s i j).workValue1 := by
  have hterm : ∀ (a e : ℚ) (k : Nat), 0 ≤ a →
      0 ≤ Gaussian.seriesTerm exampleGaussianEnv s a e k := by
    intro a e k ha
    unfold Gaussian.seriesTerm
    show 0 ≤ powQ a ((k : ℚ) - 1) * powQ (k : ℚ) (-(s.m_DataDimension : ℚ) / 2)
      * (1 + (-e) * (-e))
    have h1 := powQ_nonneg a ((k : ℚ) - 1) ha
    have h2 := powQ_nonneg (k : ℚ) (-(s.m_DataDimension : ℚ) / 2) (Nat.cast_nonneg k)
    have h3 : (0 : ℚ) ≤ 1 + (-e) * (-e) := by nlinarith [mul_self_nonneg e]
    exact mul_nonneg (mul_nonneg h1 h2) h3
  have hfac : ∀ (d al : ℚ) (k : Nat),
      0 ≤ (s.m_DataDimension : ℚ) * ((s.m_SampleSize : ℚ) - 1)
        + 2 * (d * d / ((k : ℚ) * al * al)) := by
    intro d al k
    have h1 : (0 : ℚ) ≤ (s.m_SampleSize : ℚ) - 1 := by
      have : (1 : ℚ) ≤ (s.m_SampleSize : ℚ) := by exact_mod_cast hN
      linarith
    have h2 : (0 : ℚ) ≤ d * d / ((k : ℚ) * al * al) := by
      apply div_nonneg (mul_self_nonneg d)
      rw [mul_assoc]
      exact mul_nonneg (Nat.cast_nonneg k) (mul_self_nonneg al)
    have h3 : (0 : ℚ) ≤ (s.m_DataDimension : ℚ) := Nat.cast_nonneg _
    nlinarith [mul_nonneg h3 h1]
  unfold Gaussian.pairValues
  simp only []
  split_ifs
  · apply foldl_invariant (fun v : PairValues ℚ => 0 ≤ v.resVal ∧ 0 ≤ v.workValue1)
    · exact ⟨le_refl _, le_refl _⟩
    · intro v k _ hv
      refine ⟨?_, ?_⟩
      · exact add_nonneg hv.1 (mul_nonneg hI1 (hterm _ _ _ hA1))
      · exact add_nonneg hv.2
          (mul_nonneg (mul_nonneg hI1 (hterm _ _ _ hA1)) (hfac _ _ _))
  · apply foldl_invariant (fun v : PairValues ℚ => 0 ≤ v.resVal ∧ 0 ≤ v.workValue1)
    · exact ⟨le_refl _, le_refl _⟩
    · intro v k _ hv
      exact ⟨add_nonneg hv.1 (mul_nonneg hc (hterm _ _ _ hA12)), hv.2⟩
  · apply foldl_invariant (fun v : PairValues ℚ => 0 ≤ v.resVal ∧ 0 ≤ v.workValue1)
    · exact ⟨le_refl _, le_refl _⟩
    · intro v k _ hv
      exact ⟨add_nonneg hv.1 (mul_nonneg hI2 (hterm _ _ _ hA2)), hv.2⟩

/-- A matrix filled by the pairwise loop with non-negative values over a
non-negative matrix is non-negative. -/
theorem fillUpper_elem_nonneg {α : Type} [LinearOrderedField α] (n : Nat)
    (v : Nat → Nat → α) (M : Mat α) (hv : ∀ a b, 0 ≤ v a b) (hM : ∀ a b, 0 ≤ M.elem a b)
    (a b : Nat) : 0 ≤ (fillUpper n v M).elem a b := by
  unfold fillUpper
  rw [fillUpper_outer_elem]
  split_ifs
  · exact hv a b
  · exact hv b a
  · exact hM a b

/-- The trace of a product of two non-negative matrices is non-negative. -/
theorem Mat.trace_mul_nonneg {α : Type} [LinearOrderedField α] (A B : Mat α)
    (hA : ∀ a b, 0 ≤ A.elem a b) (hB : ∀ a b, 0 ≤ B.elem a b) :
    0 ≤ Mat.trace (Mat.mul A B) := by
  unfold Mat.trace Mat.mul
  apply List.sum_nonneg
  intro c hc
  simp only [List.mem_map, List.mem_range] at hc
  obtain ⟨i, _, rfl⟩ := hc
  apply List.sum_nonneg
  intro d hd
  simp only [List.mem_map, List.mem_range] at hd
  obtain ⟨k, _, rfl⟩ := hd
  exact mul_nonneg (hA i k) (hB k i)

/-- With an `arma::inv` that succeeds, the entries of `m_GradientLogDeterminant`
written by the recomputation all hold the trace of the inverse times
`lMatrixDeriv1`. -/
theorem Gaussian_recomputeTerms_gradient {α : Type} [LinearOrderedField α]
    (env : GaussianEnv α) (s : GaussianEngine α) (Minv : Mat α)
    (h : env.inv (Gaussian.lMatrix env
      { (Gaussian.GetIntegral env s).2 with m_Integral := (Gaussian.GetIntegral env s).1 })
        = some Minv) :
    (Gaussian.recomputeTerms env s).2.m_GradientLogDeterminant =
      (((s.m_GradientLogDeterminant.set 0
        (Mat.trace (Mat.mul Minv (Gaussian.lMatrixDeriv1 env
          { (Gaussian.GetIntegral env s).2 with
            m_Integral := (Gaussian.GetIntegral env s).1 })))).set 1
        (Mat.trace (Mat.mul Minv (Gaussian.lMatrixDeriv1 env
          { (Gaussian.GetIntegral env s).2 with
            m_Integral := (Gaussian.GetIntegral env s).1 })))).set 2
        (Mat.trace (Mat.mul Minv (Gaussian.lMatrixDeriv1 env
          { (Gaussian.GetIntegral env s).2 with
            m_Integral := (Gaussian.GetIntegral env s).1 })))).set 3
        (Mat.trace (Mat.mul Minv (Gaussian.lMatrixDeriv1 env
          { (Gaussian.GetIntegral env s).2 with
            m_Integral := (Gaussian.GetIntegral env s).1 }))) := by
  unfold Gaussian.recomputeTerms Gaussian.GetLogDeterminant
  simp only [h]
  rfl

/-- The first call of `Gradient` on the example engine, with the column
`(0, 0, 0, 0)`: one entry, assembled without the volume. -/
theorem exampleGaussian_first_gradient :
    (Gaussian.Gradient exampleGaussianEnv exampleGaussianParams [] exampleGaussianEngine).1 =
      Except.ok
        [((Gaussian.Gradient exampleGaussianEnv exampleGaussianParams []
            exampleGaussianEngine).2.m_GradientIntegral.getD 0 0
          + (Gaussian.Gradient exampleGaussianEnv exampleGaussianParams []
            exampleGaussianEngine).2.m_GradientLogDeterminant.getD 0 0) * (-2)] ∧
    (Gaussian.Gradient exampleGaussianEnv exampleGaussianParams []
      exampleGaussianEngine).2.m_GradientIntegral.getD 0 0 = 22 / 7 ∧
    0 ≤ (Gaussian.Gradient exampleGaussianEnv exampleGaussianParams []
      exampleGaussianEngine).2.m_GradientLogDeterminant.getD 0 0 ∧
    (Gaussian.Gradient exampleGaussianEnv exampleGaussianParams []
      exampleGaussianEngine).2.m_DataVolume = 4 ∧
    (Gaussian.Gradient exampleGaussianEnv exampleGaussianParams []
      exampleGaussianEngine).2.m_DataDimension = 1 ∧
    (Gaussian.Gradient exampleGaussianEnv exampleGaussianParams []
      exampleGaussianEngine).2.m_Intensity1 = 1 / 4 ∧
    (Gaussian.Gradient exampleGaussianEnv exampleGaussianParams []
      exampleGaussianEngine).2.m_Intensity2 = 1 / 4 ∧
    (Gaussian.Gradient exampleGaussianEnv exampleGaussianParams []
      exampleGaussianEngine).2.m_Covariance = 0 := by
  have hf := exampleGaussianEngine_fields
  have hmapped := exampleGaussianEngine_mapped exampleGaussianParams 0 rfl rfl rfl rfl
  have hne : exampleGaussianEngine.m_Alpha1 ≠ 1 ∨ exampleGaussianEngine.m_Covariance ≠ 0 := by
    left
    rw [hf.2.2.2.2.1]
    norm_num
  have hmap := exampleGaussian_mapped exampleGaussianParams 0 exampleGaussianEngine rfl rfl rfl
    rfl hf.1 hf.2.2.1 hf.2.2.2.1 hne
  have hfr := Gaussian_SetModelParameters_frame exampleGaussianEnv exampleGaussianParams
    exampleGaussianEngine
  have hck := exampleGaussianParams_check
  have hfeas : (Gaussian.CheckModelParameters exampleGaussianEnv
      (Gaussian.SetModelParameters exampleGaussianEnv exampleGaussianParams
        exampleGaussianEngine)).1 = true := by rw [hck]
  have hrs := Gaussian_recomputeTerms_some exampleGaussianEnv
    (Gaussian.CheckModelParameters exampleGaussianEnv
      (Gaussian.SetModelParameters exampleGaussianEnv exampleGaussianParams
        exampleGaussianEngine)).2 _ rfl
  have hrg := Gaussian_recomputeTerms_gradient exampleGaussianEnv
    (Gaussian.CheckModelParameters exampleGaussianEnv
      (Gaussian.SetModelParameters exampleGaussianEnv exampleGaussianParams
        exampleGaussianEngine)).2 _ rfl
  have hrf := Gaussian_recomputeTerms_frame exampleGaussianEnv
    (Gaussian.CheckModelParameters exampleGaussianEnv
      (Gaussian.SetModelParameters exampleGaussianEnv exampleGaussianParams
        exampleGaussianEngine)).2
  have hG := Gaussian_Gradient_feasible exampleGaussianEnv exampleGaussianParams []
    exampleGaussianEngine hmap.1 hfeas hrs.1
  have hsz : Gaussian.vecSetSize exampleGaussianEnv ([] : List ℚ) exampleGaussianParams.n_cols
      = [0] := rfl
  rw [hG, hsz]
  have hone := Gaussian_finishGradient_one exampleGaussianEnv 0
    (Gaussian.recomputeTerms exampleGaussianEnv
      (Gaussian.CheckModelParameters exampleGaussianEnv
        (Gaussian.SetModelParameters exampleGaussianEnv exampleGaussianParams
          exampleGaussianEngine)).2).2 rfl rfl
  have hcols : exampleGaussianParams.n_cols = 1 := rfl
  rw [hcols, hone]
  simp only []
  refine ⟨trivial, ?_, ?_, ?_, ?_, ?_, ?_, ?_⟩
  · rw [hrs.2.2.2.1, hck]
    unfold Gaussian.GetIntegral
    simp only []
    rw [hfr.2.2.2.1, hf.2.2.2.2.2.2.2.2.2.2.1, hmap.2.2.2.2.2.2.2.1, hmap.2.2.2.2.2.2.2.2.1]
    show (2 : ℚ) * (22 / 7) * (1 / 4 + 1 / 4) = 22 / 7
    norm_num
  · rw [hrg, hck]
    simp only []
    rw [hfr.2.2.2.2.1, hf.2.2.2.2.2.2.2.2.2.2.2]
    show 0 ≤ Mat.trace (Mat.mul _ _)
    have hch : exampleGaussianEngine.m_Alpha1 ≠ exampleGaussianEnv.exp (exampleGaussianParams.linear 0) ∨
        exampleGaussianEngine.m_Alpha12 ≠ exampleGaussianEnv.exp (exampleGaussianParams.linear 1) ∨
        exampleGaussianEngine.m_Alpha2 ≠ exampleGaussianEnv.exp (exampleGaussianParams.linear 2) ∨
        exampleGaussianEngine.m_Covariance ≠ exampleGaussianParams.linear 3 := by
      left
      rw [hf.2.2.2.2.1]
      show (0 : ℚ) ≠ 1 + 0 * 0
      norm_num
    have hN : (Gaussian.SetModelParameters exampleGaussianEnv exampleGaussianParams
        exampleGaussianEngine).m_SampleSize = 2 := by
      rw [Gaussian_SetModelParameters_changed _ _ _ hch]
      show exampleGaussianEngine.m_SampleSize = 2
      rw [exampleGaussianEngine_eq]
    have hA12 : (Gaussian.SetModelParameters exampleGaussianEnv exampleGaussianParams
        exampleGaussianEngine).m_Amplitude12 = 0 := by
      rw [Gaussian_SetModelParameters_changed _ _ _ hch]
      show (0 : ℚ) * _ = 0
      exact zero_mul _
    have hN1 : 1 ≤ (Gaussian.SetModelParameters exampleGaussianEnv exampleGaussianParams
        exampleGaussianEngine).m_SampleSize := by
      rw [hN]
      norm_num
    have hI1 : 0 ≤ (Gaussian.SetModelParameters exampleGaussianEnv exampleGaussianParams
        exampleGaussianEngine).m_Intensity1 := by
      rw [hmap.2.2.2.2.2.2.2.1]
      norm_num
    have hI2 : 0 ≤ (Gaussian.SetModelParameters exampleGaussianEnv exampleGaussianParams
        exampleGaussianEngine).m_Intensity2 := by
      rw [hmap.2.2.2.2.2.2.2.2.1]
      norm_num
    have hc0 : 0 ≤ (Gaussian.SetModelParameters exampleGaussianEnv exampleGaussianParams
        exampleGaussianEngine).m_Covariance := by
      rw [hmap.2.2.2.2.1]
    have hA1 : 0 ≤ (Gaussian.SetModelParameters exampleGaussianEnv exampleGaussianParams
        exampleGaussianEngine).m_Amplitude1 := by
      rw [hmap.2.2.2.2.2.1]
      norm_num
    have hA12n : 0 ≤ (Gaussian.SetModelParameters exampleGaussianEnv exampleGaussianParams
        exampleGaussianEngine).m_Amplitude12 := by
      rw [hA12]
    have hA2 : 0 ≤ (Gaussian.SetModelParameters exampleGaussianEnv exampleGaussianParams
        exampleGaussianEngine).m_Amplitude2 := by
      rw [hmap.2.2.2.2.2.2.1]
      norm_num
    have hpv := fun a b => exampleGaussian_pairValues_nonneg
      { (Gaussian.GetIntegral exampleGaussianEnv
          { Gaussian.SetModelParameters exampleGaussianEnv exampleGaussianParams
              exampleGaussianEngine with
            m_ConstraintVector := List.replicate 5 (0 : ℚ) }).2 with
        m_Integral := (Gaussian.GetIntegral exampleGaussianEnv
          { Gaussian.SetModelParameters exampleGaussianEnv exampleGaussianParams
              exampleGaussianEngine with
            m_ConstraintVector := List.replicate 5 (0 : ℚ) }).1 } a b
      hN1 hI1 hI2 hc0 hA1 hA12n hA2
    apply Mat.trace_mul_nonneg
    · intro a b
      unfold Gaussian.lMatrix
      apply fillUpper_elem_nonneg
      · intro c d
        exact (hpv c d).1
      · intro c d
        exact le_refl _
    · intro a b
      unfold Gaussian.lMatrixDeriv1
      apply fillUpper_elem_nonneg
      · intro c d
        exact (hpv c d).2
      · intro c d
        exact le_refl _
  · rw [hrs.2.2.2.2, hck]
    exact hfr.1.trans hf.2.1
  · rw [hrf.1, hck]
    exact hmap.2.2.2.2.2.2.2.2.2
  · rw [hrf.2.1, hck]
    exact hmap.2.2.2.2.2.2.2.1
  · rw [hrf.2.2.1, hck]
    exact hmap.2.2.2.2.2.2.2.2.1
  · rw [hrf.2.2.2.2, hck]
    exact hmap.2.2.2.2.1

/-- The second call of `Gradient` in the example: the covariance parameter
changes from `0` to `1`, the check fails at index `3`, the vector is `[0]`. -/
theorem exampleGaussian_second_gradient :
    (Gaussian.SetModelParameters exampleGaussianEnv exampleGaussianInfeasibleParams
      exampleGaussianFirst.2).m_Modified = true ∧
    (Gaussian.CheckModelParameters exampleGaussianEnv
      (Gaussian.SetModelParameters exampleGaussianEnv exampleGaussianInfeasibleParams
        exampleGaussianFirst.2)).1 = false ∧
    exampleGaussianSecond =
      (Except.ok [0],
        (Gaussian.CheckModelParameters exampleGaussianEnv
          (Gaussian.SetModelParameters exampleGaussianEnv exampleGaussianInfeasibleParams
            exampleGaussianFirst.2)).2) := by
  obtain ⟨l0, l1, l2, l3⟩ := exampleGaussianInfeasibleParams_linear
  have h1 := exampleGaussian_first_gradient
  have hcov : exampleGaussianFirst.2.m_Alpha1 ≠ 1 ∨ exampleGaussianFirst.2.m_Covariance ≠ 1 := by
    right
    unfold exampleGaussianFirst
    rw [h1.2.2.2.2.2.2.2]
    norm_num
  have hmap := exampleGaussian_mapped exampleGaussianInfeasibleParams 1 exampleGaussianFirst.2
    l0 l1 l2 l3 h1.2.2.2.2.1 h1.2.2.2.2.2.1 h1.2.2.2.2.2.2.1 hcov
  have hv := exampleGaussian_violated 1
    (Gaussian.SetModelParameters exampleGaussianEnv exampleGaussianInfeasibleParams
      exampleGaussianFirst.2)
    hmap.2.1 hmap.2.2.1 hmap.2.2.2.1 hmap.2.2.2.2.1 hmap.2.2.2.2.2.1 hmap.2.2.2.2.2.2.1
    hmap.2.2.2.2.2.2.2.1 hmap.2.2.2.2.2.2.2.2.1 hmap.2.2.2.2.2.2.2.2.2
  have hck := Gaussian_CheckModelParameters_first exampleGaussianEnv
    (Gaussian.SetModelParameters exampleGaussianEnv exampleGaussianInfeasibleParams
      exampleGaussianFirst.2) 3 (by norm_num) (hv.2.2.2.1.2 (by norm_num))
    (by
      intro j hj
      interval_cases j
      · exact hv.1
      · exact hv.2.1
      · exact hv.2.2.1)
  have hf : (Gaussian.CheckModelParameters exampleGaussianEnv
      (Gaussian.SetModelParameters exampleGaussianEnv exampleGaussianInfeasibleParams
        exampleGaussianFirst.2)).1 = false := by rw [hck]
  refine ⟨hmap.1, hf, ?_⟩
  unfold exampleGaussianSecond
  rw [Gaussian_Gradient_infeasible exampleGaussianEnv exampleGaussianInfeasibleParams []
    exampleGaussianFirst.2 hmap.1 hf]
  rfl

/-- The third call of `Gradient` in the example: the column is the one of the
second call, the check is skipped and the vector is assembled from the gradient
vectors cached by the first call. -/
theorem exampleGaussian_third_gradient :
    (Gaussian.SetModelParameters exampleGaussianEnv exampleGaussianInfeasibleParams
      exampleGaussianSecond.2).m_Modified = false ∧
    exampleGaussianThird.1 = exampleGaussianFirst.1 := by
  have h1 := exampleGaussian_first_gradient
  have h2 := exampleGaussian_second_gradient
  have hrep := Gaussian_SetModelParameters_repeat exampleGaussianEnv
    exampleGaussianInfeasibleParams exampleGaussianFirst.2
  have hs2 : exampleGaussianSecond.2 =
      (Gaussian.CheckModelParameters exampleGaussianEnv
        (Gaussian.SetModelParameters exampleGaussianEnv exampleGaussianInfeasibleParams
          exampleGaussianFirst.2)).2 := by rw [h2.2.2]
  have hm : (Gaussian.SetModelParameters exampleGaussianEnv exampleGaussianInfeasibleParams
      exampleGaussianSecond.2).m_Modified = false := by
    rw [hs2, hrep]
  have hck := Gaussian_CheckModelParameters_frame exampleGaussianEnv
    (Gaussian.SetModelParameters exampleGaussianEnv exampleGaussianInfeasibleParams
      exampleGaussianFirst.2)
  have hfr := Gaussian_SetModelParameters_frame exampleGaussianEnv
    exampleGaussianInfeasibleParams exampleGaussianFirst.2
  refine ⟨hm, ?_⟩
  have hG := Gaussian_Gradient_clean exampleGaussianEnv exampleGaussianInfeasibleParams []
    exampleGaussianSecond.2 hm
  have hsz : Gaussian.vecSetSize exampleGaussianEnv ([] : List ℚ)
      exampleGaussianInfeasibleParams.n_cols = [0] := rfl
  have hcols : exampleGaussianInfeasibleParams.n_cols = 1 := rfl
  unfold exampleGaussianThird
  rw [hG, hsz, hcols, Gaussian_finishGradient_one exampleGaussianEnv 0 _ rfl rfl]
  simp only []
  rw [hs2, hrep]
  simp only []
  rw [hck.2.2.2.1, hck.2.2.2.2, hfr.2.2.2.1, hfr.2.2.2.2.1]
  unfold exampleGaussianFirst
  rw [h1.1]

/-- At the third call of the example the stored parameters still fail the
check. -/
theorem exampleGaussian_third_check :
    (Gaussian.CheckModelParameters exampleGaussianEnv
      (Gaussian.SetModelParameters exampleGaussianEnv exampleGaussianInfeasibleParams
        exampleGaussianSecond.2)).1 = false := by
  obtain ⟨l0, l1, l2, l3⟩ := exampleGaussianInfeasibleParams_linear
  have h1 := exampleGaussian_first_gradient
  have h2 := exampleGaussian_second_gradient
  have hcov : exampleGaussianFirst.2.m_Alpha1 ≠ 1 ∨ exampleGaussianFirst.2.m_Covariance ≠ 1 := by
    right
    unfold exampleGaussianFirst
    rw [h1.2.2.2.2.2.2.2]
    norm_num
  have hmap := exampleGaussian_mapped exampleGaussianInfeasibleParams 1 exampleGaussianFirst.2
    l0 l1 l2 l3 h1.2.2.2.2.1 h1.2.2.2.2.2.1 h1.2.2.2.2.2.2.1 hcov
  have hrep := Gaussian_SetModelParameters_repeat exampleGaussianEnv
    exampleGaussianInfeasibleParams exampleGaussianFirst.2
  have hs2 : exampleGaussianSecond.2 =
      (Gaussian.CheckModelParameters exampleGaussianEnv
        (Gaussian.SetModelParameters exampleGaussianEnv exampleGaussianInfeasibleParams
          exampleGaussianFirst.2)).2 := by rw [h2.2.2]
  have hsnd := Gaussian_CheckModelParameters_snd exampleGaussianEnv
    (Gaussian.SetModelParameters exampleGaussianEnv exampleGaussianInfeasibleParams
      exampleGaussianFirst.2)
  have hv := exampleGaussian_violated 1
    (Gaussian.SetModelParameters exampleGaussianEnv exampleGaussianInfeasibleParams
      exampleGaussianSecond.2)
    (by rw [hs2, hrep, hsnd]; exact hmap.2.1)
    (by rw [hs2, hrep, hsnd]; exact hmap.2.2.1)
    (by rw [hs2, hrep, hsnd]; exact hmap.2.2.2.1)
    (by rw [hs2, hrep, hsnd]; exact hmap.2.2.2.2.1)
    (by rw [hs2, hrep, hsnd]; exact hmap.2.2.2.2.2.1)
    (by rw [hs2, hrep, hsnd]; exact hmap.2.2.2.2.2.2.1)
    (by rw [hs2, hrep, hsnd]; exact hmap.2.2.2.2.2.2.2.1)
    (by rw [hs2, hrep, hsnd]; exact hmap.2.2.2.2.2.2.2.2.1)
    (by rw [hs2, hrep, hsnd]; exact hmap.2.2.2.2.2.2.2.2.2)
  rw [Gaussian_CheckModelParameters_first exampleGaussianEnv _ 3 (by norm_num)
    (hv.2.2.2.1.2 (by norm_num))
    (by
      intro j hj
      interval_cases j
      · exact hv.1
      · exact hv.2.1
      · exact hv.2.2.1)]

/-- C20 fails in the code of the Gaussian family.  On the example engine, with
volume `4`, the `4 x 1` column `(0, 0, 0, 0)` passes the check, and `Gradient`
hands back a vector with one entry, not four, since the length is taken from
`x.n_cols`; that entry is `-2 * (integralGradient[0] + logDetGradient[0])` with
`integralGradient[0] = 22/7`, without the factor `volume`.  A next call with
the column `(0, 0, 0, 1)`, which fails the check, gives `[0]`; the call after
that, with the same column, skips the check and hands back the vector of the
first call, which is not zero. -/
theorem C20_Gaussian_Gradient_shape_and_scale :
    exampleGaussianParams.n_rows = 4 ∧ exampleGaussianParams.n_cols = 1 ∧
    (Gaussian.CheckModelParameters exampleGaussianEnv
      (Gaussian.SetModelParameters exampleGaussianEnv exampleGaussianParams
        exampleGaussianEngine)).1 = true ∧
    exampleGaussianFirst.1 =
      Except.ok
        [(exampleGaussianFirst.2.m_GradientIntegral.getD 0 0
          + exampleGaussianFirst.2.m_GradientLogDeterminant.getD 0 0) * (-2)] ∧
    exampleGaussianFirst.2.m_GradientIntegral.getD 0 0 = 22 / 7 ∧
    exampleGaussianFirst.2.m_DataVolume = 4 ∧
    (exampleGaussianFirst.2.m_GradientIntegral.getD 0 0
        + exampleGaussianFirst.2.m_GradientLogDeterminant.getD 0 0) * (-2) ≠
      -2 * (exampleGaussianFirst.2.m_DataVolume
          * exampleGaussianFirst.2.m_GradientIntegral.getD 0 0
        + exampleGaussianFirst.2.m_GradientLogDeterminant.getD 0 0) ∧
    (Gaussian.CheckModelParameters exampleGaussianEnv
      (Gaussian.SetModelParameters exampleGaussianEnv exampleGaussianInfeasibleParams
        exampleGaussianFirst.2)).1 = false ∧
    exampleGaussianSecond.1 = Except.ok [0] ∧
    (Gaussian.CheckModelParameters exampleGaussianEnv
      (Gaussian.SetModelParameters exampleGaussianEnv exampleGaussianInfeasibleParams
        exampleGaussianSecond.2)).1 = false ∧
    exampleGaussianThird.1 = exampleGaussianFirst.1 ∧
    exampleGaussianThird.1 ≠ Except.ok [0] := by
  have h1 := exampleGaussian_first_gradient
  have h2 := exampleGaussian_second_gradient
  have h3 := exampleGaussian_third_gradient
  have hck := exampleGaussianParams_check
  have hI : exampleGaussianFirst.2.m_GradientIntegral.getD 0 0 = 22 / 7 := h1.2.1
  have hL : 0 ≤ exampleGaussianFirst.2.m_GradientLogDeterminant.getD 0 0 := h1.2.2.1
  have hV : exampleGaussianFirst.2.m_DataVolume = 4 := h1.2.2.2.1
  refine ⟨rfl, rfl, ?_, h1.1, hI, hV, ?_, h2.2.1, ?_, exampleGaussian_third_check, h3.2, ?_⟩
  · rw [hck]
  · rw [hV, hI]
    intro h
    linarith
  · rw [h2.2.2]
  · rw [h3.2]
    have h11 : exampleGaussianFirst.1 =
        Except.ok
          [(exampleGaussianFirst.2.m_GradientIntegral.getD 0 0
            + exampleGaussianFirst.2.m_GradientLogDeterminant.getD 0 0) * (-2)] := h1.1
    rw [h11, hI]
    intro h
    simp only [Except.ok.injEq, List.cons.injEq, and_true] at h
    linarith

/-! ## The neighbourhood as an enumeration -/

theorem getD_set_int (w : List Int) (m j : Nat) (c : Int) (hm : m < w.length) :
    (w.set m c).getD j 0 = if j = m then c else w.getD j 0 := by
  simp only [List.getD_eq_getElem?_getD, List.getElem?_set]
  by_cases h : m = j
  · subst h
    simp [hm]
  · have h2 : ¬ j = m := fun e => h e.symm
    simp [h, h2]

/-- Writing zero over a component that was written gives back a vector whose
component was zero. -/
theorem set_set_zero (w : List Int) (m : Nat) (c : Int) (hm : m < w.length)
    (h0 : w.getD m 0 = 0) : (w.set m c).set m 0 = w := by
  rw [List.set_set]
  apply List.ext_getElem
  · simp
  · intro k h1 h2
    rw [List.getElem_set]
    split_ifs with h
    · subst h
      rw [List.getD_eq_getElem _ _ hm] at h0
      exact h0.symm
    · rfl

/-- Membership in the list after `m` passes of the outer loop of
`SetNeighborhood(n)`. -/
theorem neighborhood_foldl_mem (n m : Nat) (hm : m ≤ n) (v : List Int) :
    v ∈ (List.range m).foldl neighborhoodStep [List.replicate n 0] ↔
      v.length = n ∧
      (∀ j, j < m → (v.getD j 0 = -1 ∨ v.getD j 0 = 0 ∨ v.getD j 0 = 1)) ∧
      (∀ j, m ≤ j → v.getD j 0 = 0) := by
  induction m generalizing v with
  | zero =>
    simp only [List.range_zero, List.foldl_nil, List.mem_singleton]
    constructor
    · intro h
      subst h
      refine ⟨by simp, fun j hj => absurd hj (by omega), fun j _ => ?_⟩
      by_cases hj : j < n
      · rw [List.getD_eq_getElem _ _ (by simpa using hj)]
        simp
      · rw [List.getD_eq_default _ _ (by simpa using hj)]
    · rintro ⟨hl, _, hz⟩
      apply List.ext_getElem
      · simp [hl]
      · intro k h1 h2
        have := hz k (Nat.zero_le k)
        rw [List.getD_eq_getElem _ _ h1] at this
        simp [this]
  | succ m ih =>
    have hmn : m < n := by omega
    rw [List.range_succ, List.foldl_append, List.foldl_cons, List.foldl_nil]
    unfold neighborhoodStep
    simp only [List.mem_flatMap, List.mem_map, List.mem_cons, List.mem_singleton,
      List.not_mem_nil, or_false]
    constructor
    · rintro ⟨w, hw, k, hk, rfl⟩
      obtain ⟨hl, hlow, hz⟩ := (ih (by omega) w).1 hw
      have hwm : w.getD m 0 = 0 := hz m (le_refl m)
      have hlen : m < w.length := by omega
      refine ⟨by simp [hl], ?_, ?_⟩
      · intro j hj
        rw [getD_set_int w m j _ hlen]
        by_cases hjm : j = m
        · rw [if_pos hjm, hwm, zero_add]
          exact hk
        · rw [if_neg hjm]
          exact hlow j (by omega)
      · intro j hj
        rw [getD_set_int w m j _ hlen, if_neg (by omega)]
        exact hz j (by omega)
    · rintro ⟨hl, hlow, hz⟩
      have hlen : m < v.length := by omega
      refine ⟨v.set m 0, ?_, v.getD m 0, hlow m (by omega), ?_⟩
      · apply (ih (by omega) (v.set m 0)).2
        refine ⟨by simp [hl], ?_, ?_⟩
        · intro j hj
          rw [getD_set_int v m j 0 hlen, if_neg (by omega)]
          exact hlow j (by omega)
        · intro j hj
          rw [getD_set_int v m j 0 hlen]
          by_cases hjm : j = m
          · rw [if_pos hjm]
          · rw [if_neg hjm]
            exact hz j (by omega)
      · rw [getD_set_int v m m 0 hlen, if_pos rfl, zero_add, List.set_set]
        apply List.ext_getElem
        · simp
        · intro k h1 h2
          rw [List.getElem_set]
          split_ifs with h
          · subst h
            rw [List.getD_eq_getElem _ _ hlen]
          · rfl

/-- No vector occurs twice in the list after `m` passes. -/
theorem neighborhood_foldl_nodup (n m : Nat) (hm : m ≤ n) :
    ((List.range m).foldl neighborhoodStep [List.replicate n 0]).Nodup := by
  induction m with
  | zero => simp
  | succ m ih =>
    have hmn : m < n := by omega
    rw [List.range_succ, List.foldl_append, List.foldl_cons, List.foldl_nil]
    have hprop : ∀ w ∈ (List.range m).foldl neighborhoodStep [List.replicate n 0],
        m < w.length ∧ w.getD m 0 = 0 := by
      intro w hw
      obtain ⟨hl, _, hz⟩ := (neighborhood_foldl_mem n m (by omega) w).1 hw
      exact ⟨by omega, hz m (le_refl m)⟩
    unfold neighborhoodStep
    rw [List.nodup_flatMap]
    constructor
    · intro w hw
      obtain ⟨hlen, _⟩ := hprop w hw
      apply List.Nodup.map_on
      · intro a _ b _ hab
        have h1 := congrArg (fun l : List Int => l.getD m 0) hab
        simp only [getD_set_int _ m m _ hlen, if_true] at h1
        omega
      · decide
    · apply List.Pairwise.imp_of_mem _ (ih (by omega))
      intro a b ha hb hab
      intro v hva hvb
      simp only [List.mem_map, List.mem_cons, List.mem_singleton, List.not_mem_nil,
        or_false] at hva hvb
      obtain ⟨ka, _, rfl⟩ := hva
      obtain ⟨kb, _, hvb⟩ := hvb
      obtain ⟨hla, hza⟩ := hprop a ha
      obtain ⟨hlb, hzb⟩ := hprop b hb
      apply hab
      have h1 := congrArg (fun l : List Int => l.set m 0) hvb
      simp only [] at h1
      rw [set_set_zero a m _ hla hza, set_set_zero b m _ hlb hzb] at h1
      exact h1.symm

/-- C21: for every dimension `D`, every entry of the list built by
`SetNeighborhood(D)` has length `D` and components in `{-1, 0, 1}`; no offset
vector occurs twice; every vector of length `D` with components in
`{-1, 0, 1}` occurs, in particular the all-zero offset; the list is closed
under negation of offsets; and it has `3 ^ D` entries. -/
theorem C21_neighborhood_enumeration (D : Nat) :
    (∀ o ∈ SetNeighborhood D, o.length = D ∧ ∀ c ∈ o, c = -1 ∨ c = 0 ∨ c = 1) ∧
    (SetNeighborhood D).Nodup ∧
    (∀ o : List Int, o.length = D → (∀ c ∈ o, c = -1 ∨ c = 0 ∨ c = 1) →
      o ∈ SetNeighborhood D) ∧
    List.replicate D 0 ∈ SetNeighborhood D ∧
    (∀ o ∈ SetNeighborhood D, o.map (fun c => -c) ∈ SetNeighborhood D) ∧
    (SetNeighborhood D).length = 3 ^ D := by
  refine ⟨?_, neighborhood_foldl_nodup D D (le_refl D), ?_, zero_mem_SetNeighborhood D,
    neg_mem_SetNeighborhood D, C5_size_aux D⟩
  · intro o ho
    obtain ⟨hl, hlow, _⟩ := (neighborhood_foldl_mem D D (le_refl D) o).1 ho
    refine ⟨hl, ?_⟩
    intro c hc
    obtain ⟨k, hk, rfl⟩ := List.getElem_of_mem hc
    have := hlow k (by omega)
    rw [List.getD_eq_getElem _ _ hk] at this
    exact this
  · intro o hl hc
    apply (neighborhood_foldl_mem D D (le_refl D) o).2
    refine ⟨hl, ?_, ?_⟩
    · intro j hj
      have hj2 : j < o.length := by omega
      rw [List.getD_eq_getElem _ _ hj2]
      exact hc _ (List.getElem_mem _)
    · intro j hj
      rw [List.getD_eq_default _ _ (by omega)]

/-! ## The dirty flag as a function of the raw values -/

theorem SetModelParameters_k2_sets {α : Type} [LinearOrderedField α] (env : Env α)
    (x : List α) (s : Engine α) (h : s.m_SecondAmplitude ≠ x.getD 1 0) :
    (SetModelParameters_k2 env x s).m_Modified = true := by
  unfold SetModelParameters_k2
  simp only []
  rw [if_pos h]

theorem SetModelParameters_k12star_sets {α : Type} [LinearOrderedField α]
    (x : List α) (s : Engine α) (h : s.m_NormalizedCrossAmplitude ≠ x.getD 2 0) :
    (SetModelParameters_k12star x s).m_Modified = true := by
  unfold SetModelParameters_k12star
  simp only []
  rw [if_pos h]

theorem SetModelParameters_beta12_sets {α : Type} [LinearOrderedField α]
    (x : List α) (s : Engine α) (h : s.m_CrossBeta ≠ x.getD 3 0) :
    (SetModelParameters_beta12 x s).m_Modified = true := by
  unfold SetModelParameters_beta12
  simp only []
  rw [if_pos h]

theorem SetModelParameters_alpha_sets {α : Type} [LinearOrderedField α] (env : Env α)
    (x : List α) (s : Engine α) (he : s.m_EstimateIntensities = true)
    (h : s.m_NormalizedFirstAlpha ≠ x.getD 4 0 ∨ s.m_NormalizedSecondAlpha ≠ x.getD 5 0) :
    (SetModelParameters_alpha env x s).m_Modified = true := by
  unfold SetModelParameters_alpha
  rw [if_pos he]
  simp only []
  by_cases h1 : s.m_NormalizedFirstAlpha = x.getD 4 0
  · have h2 : s.m_NormalizedSecondAlpha ≠ x.getD 5 0 := by
      rcases h with h | h
      · exact absurd h1 h
      · exact h
    rw [if_neg (not_not.mpr h1), if_pos h2]
  · rw [if_pos h1]
    simp only []
    split_ifs <;> rfl

/-- C22: `SetModelParameters` leaves the dirty flag true exactly when one of the
raw values read from the input differs from the stored one: the two amplitudes,
the normalized cross-amplitude, the cross-width control and, when the
intensities are estimated, the two normalized widths.  When the flag is left
false the call has changed nothing but the flag. -/
theorem C22_dirty_flag {α : Type} [LinearOrderedField α] (env : Env α) (x : List α)
    (s : Engine α) :
    ((SetModelParameters env x s).m_Modified = true ↔
      (s.m_FirstAmplitude ≠ x.getD 0 0 ∨ s.m_SecondAmplitude ≠ x.getD 1 0 ∨
        s.m_NormalizedCrossAmplitude ≠ x.getD 2 0 ∨ s.m_CrossBeta ≠ x.getD 3 0 ∨
        (s.m_EstimateIntensities = true ∧
          (s.m_NormalizedFirstAlpha ≠ x.getD 4 0 ∨ s.m_NormalizedSecondAlpha ≠ x.getD 5 0)))) ∧
    ((SetModelParameters env x s).m_Modified = false →
      SetModelParameters env x s = { s with m_Modified := false }) := by
  have hclean : ¬ (s.m_FirstAmplitude ≠ x.getD 0 0 ∨ s.m_SecondAmplitude ≠ x.getD 1 0 ∨
        s.m_NormalizedCrossAmplitude ≠ x.getD 2 0 ∨ s.m_CrossBeta ≠ x.getD 3 0 ∨
        (s.m_EstimateIntensities = true ∧
          (s.m_NormalizedFirstAlpha ≠ x.getD 4 0 ∨ s.m_NormalizedSecondAlpha ≠ x.getD 5 0))) →
      SetModelParameters env x s = { s with m_Modified := false } := by
    intro h
    simp only [not_or, not_and, not_not] at h
    exact SetModelParameters_of_rawValuesAre env x s
      ⟨h.1, h.2.1, h.2.2.1, h.2.2.2.1, fun he => h.2.2.2.2 he⟩
  have hset : (s.m_FirstAmplitude ≠ x.getD 0 0 ∨ s.m_SecondAmplitude ≠ x.getD 1 0 ∨
        s.m_NormalizedCrossAmplitude ≠ x.getD 2 0 ∨ s.m_CrossBeta ≠ x.getD 3 0 ∨
        (s.m_EstimateIntensities = true ∧
          (s.m_NormalizedFirstAlpha ≠ x.getD 4 0 ∨ s.m_NormalizedSecondAlpha ≠ x.getD 5 0))) →
      (SetModelParameters env x s).m_Modified = true := by
    intro h
    rcases h with h | h | h | h | ⟨he, h⟩
    · exact SetModelParameters_modified_of_ne env x s h
    · unfold SetModelParameters
      rw [(SetModelParameters_finish_raw env _).2.2.2.2.2.2]
      apply SetModelParameters_alpha_modified
      apply SetModelParameters_beta12_modified
      apply SetModelParameters_k12star_modified
      apply SetModelParameters_k2_sets
      rw [(SetModelParameters_k1_raw env x _).2.1]
      exact h
    · unfold SetModelParameters
      rw [(SetModelParameters_finish_raw env _).2.2.2.2.2.2]
      apply SetModelParameters_alpha_modified
      apply SetModelParameters_beta12_modified
      apply SetModelParameters_k12star_sets
      rw [(SetModelParameters_k2_raw env x _).2.2.1, (SetModelParameters_k1_raw env x _).2.2.1]
      exact h
    · unfold SetModelParameters
      rw [(SetModelParameters_finish_raw env _).2.2.2.2.2.2]
      apply SetModelParameters_alpha_modified
      apply SetModelParameters_beta12_sets
      rw [(SetModelParameters_k12star_raw x _).2.2.2.1,
        (SetModelParameters_k2_raw env x _).2.2.2.1, (SetModelParameters_k1_raw env x _).2.2.2.1]
      exact h
    · unfold SetModelParameters
      rw [(SetModelParameters_finish_raw env _).2.2.2.2.2.2]
      apply SetModelParameters_alpha_sets
      · rw [(SetModelParameters_beta12_sameCache x _).2.1,
          (SetModelParameters_k12star_sameCache x _).2.1,
          (SetModelParameters_k2_sameCache env x _).2.1,
          (SetModelParameters_k1_sameCache env x _).2.1]
        exact he
      · rw [(SetModelParameters_beta12_raw x _).2.2.2.2.1,
          (SetModelParameters_k12star_raw x _).2.2.2.2.1,
          (SetModelParameters_k2_raw env x _).2.2.2.2.1,
          (SetModelParameters_k1_raw env x _).2.2.2.2.1,
          (SetModelParameters_beta12_raw x _).2.2.2.2.2,
          (SetModelParameters_k12star_raw x _).2.2.2.2.2,
          (SetModelParameters_k2_raw env x _).2.2.2.2.2,
          (SetModelParameters_k1_raw env x _).2.2.2.2.2]
        exact h
  constructor
  · constructor
    · intro hm
      by_contra hn
      rw [hclean hn] at hm
      exact absurd hm (by simp)
    · exact hset
  · intro hm
    apply hclean
    intro hn
    rw [hset hn] at hm
    exact absurd hm (by simp)

/-! ## The derivative matrices of `BaseLogLikelihood::GetLogDeterminant` -/

theorem getD_set_of_lt {β : Type} (w : List β) (m j : Nat) (c d : β) (hm : m < w.length) :
    (w.set m c).getD j d = if j = m then c else w.getD j d := by
  simp only [List.getD_eq_getElem?_getD, List.getElem?_set]
  by_cases h : m = j
  · subst h
    simp [hm]
  · have h2 : ¬ j = m := fun e => h e.symm
    simp [h, h2]

theorem lMatrixDeriv_elem {α : Type} [LinearOrderedField α] (s : Engine α) (a b : Nat) :
    (lMatrixDeriv s).elem a b = 0 := by
  unfold lMatrixDeriv fillUpper
  rw [fillUpper_outer_elem]
  split_ifs <;> rfl

/-- The trace of a product whose second factor is the zero matrix. -/
theorem Mat.trace_mul_zero {α : Type} [LinearOrderedField α] (A B : Mat α)
    (hB : ∀ a b, B.elem a b = 0) : Mat.trace (Mat.mul A B) = 0 := by
  unfold Mat.trace Mat.mul
  apply List.sum_eq_zero
  intro c hc
  simp only [List.mem_map, List.mem_range] at hc
  obtain ⟨i, _, rfl⟩ := hc
  apply List.sum_eq_zero
  intro d hd
  simp only [List.mem_map, List.mem_range] at hd
  obtain ⟨k, _, rfl⟩ := hd
  rw [hB k i, mul_zero]

/-- When `arma::inv` returns, the first four entries of the gradient vector
written by `GetLogDeterminant` are zero. -/
theorem GetLogDeterminant_gradient_zero {α : Type} [LinearOrderedField α] (env : Env α)
    (s : Engine α) (Minv : Mat α) (h : env.inv (lMatrix env s) = some Minv) (i : Nat)
    (hi : i < 4) : (GetLogDeterminant env s).2.m_GradientLogDeterminant.getD i 0 = 0 := by
  have hn : 4 ≤ GetNumberOfParameters s := by
    unfold GetNumberOfParameters
    split_ifs <;> omega
  have hlen := vecSetSize_length env s.m_GradientLogDeterminant (GetNumberOfParameters s)
  have ht := Mat.trace_mul_zero Minv (lMatrixDeriv s) (lMatrixDeriv_elem s)
  unfold GetLogDeterminant
  simp only [h, ht]
  rw [getD_set_of_lt _ 3 i _ _ (by simp only [List.length_set]; omega),
    getD_set_of_lt _ 2 i _ _ (by simp only [List.length_set]; omega),
    getD_set_of_lt _ 1 i _ _ (by simp only [List.length_set]; omega),
    getD_set_of_lt _ 0 i _ _ (by omega)]
  interval_cases i <;> simp

/-- C25: in `BaseLogLikelihood::GetLogDeterminant` the derivative matrices are
zero in every entry, whatever the distances, labels and parameters; when
`arma::inv` returns, the first four entries of the log-determinant gradient are
zero; and when `Gradient` recomputes the terms on feasible parameters, with
finite terms, its first four entries are `-2 * volume * integralGradient[i]`. -/
theorem C25_derivative_matrices_zero {α : Type} [LinearOrderedField α] (env : Env α)
    (x g : List α) (s : Engine α) :
    (∀ a b, (lMatrixDeriv s).elem a b = 0) ∧
    (∀ Minv, env.inv (lMatrix env s) = some Minv → ∀ i, i < 4 →
      (GetLogDeterminant env s).2.m_GradientLogDeterminant.getD i 0 = 0) ∧
    (∀ Minv, (env.CheckModelParameters (SetModelParameters env x s)).1 = true →
      (SetModelParameters env x s).m_Modified = true →
      env.inv (lMatrix env (SetModelParameters env x s)) = some Minv →
      env.isfinite (GetIntegral env (SetModelParameters env x s)).1 = true →
      env.isfinite (env.log_det (lMatrix env (SetModelParameters env x s))) = true →
      ∃ g2 : List α, (Gradient env x g s).1 = Except.ok g2 ∧
        g2.length = GetNumberOfParameters s ∧
        ∀ i, i < 4 →
          g2.getD i 0 =
            -2 * (s.m_DomainVolume *
              (GetIntegral env (SetModelParameters env x s)).2.m_GradientIntegral.getD i 0)) := by
  refine ⟨lMatrixDeriv_elem s, fun Minv h i hi => GetLogDeterminant_gradient_zero env s Minv h i hi,
    ?_⟩
  intro Minv hfeas hm hinv hI hL
  have hv := (SetModelParameters_sameCache env x s).1
  have hn := GetNumberOfParameters_SetModelParameters env x s
  have hn4 : 4 ≤ GetNumberOfParameters s := by
    unfold GetNumberOfParameters
    split_ifs <;> omega
  rw [Gradient_dirty env x g s Minv hfeas hm hinv hI hL]
  obtain ⟨h1, h2⟩ := assembleGradient_spec
    { (CheckModelParameters env (SetModelParameters env x s)).2 with
      m_Integral := (GetIntegral env (CheckModelParameters env (SetModelParameters env x s)).2).1
      m_LogDeterminant :=
        env.log_det (lMatrix env (CheckModelParameters env (SetModelParameters env x s)).2)
      m_GradientIntegral :=
        (GetIntegral env
          (CheckModelParameters env (SetModelParameters env x s)).2).2.m_GradientIntegral
      m_GradientLogDeterminant :=
        (GetLogDeterminant env
          (CheckModelParameters env (SetModelParameters env x s)).2).2.m_GradientLogDeterminant }
    (vecSetSize env g (GetNumberOfParameters (SetModelParameters env x s)))
    (vecSetSize_length _ _ _)
  refine ⟨_, rfl, h1.trans hn, ?_⟩
  intro i hi
  have h3 := h2 i (by
    show i < GetNumberOfParameters (SetModelParameters env x s)
    rw [hn]
    omega)
  rw [h3]
  have e1 : (GetIntegral env
      (CheckModelParameters env (SetModelParameters env x s)).2).2.m_GradientIntegral =
      (GetIntegral env (SetModelParameters env x s)).2.m_GradientIntegral := rfl
  show -2 * ((SetModelParameters env x s).m_DomainVolume *
      List.getD (GetIntegral env
        (CheckModelParameters env (SetModelParameters env x s)).2).2.m_GradientIntegral i 0
    + List.getD (GetLogDeterminant env
        (CheckModelParameters env (SetModelParameters env x s)).2).2.m_GradientLogDeterminant
        i 0) = _
  rw [hv, e1, GetLogDeterminant_gradient_CheckModelParameters,
    GetLogDeterminant_gradient_zero env _ Minv hinv i hi, add_zero]

theorem exampleLabelledEngine_modified :
    (SetModelParameters exampleEnv exampleParams exampleLabelledEngine).m_Modified = true := by
  apply SetModelParameters_modified_of_ne
  show exampleEngine.m_FirstAmplitude ≠ _
  norm_num [exampleEngine, exampleParams]

theorem exampleLabelledEngine_feasible :
    (exampleEnv.CheckModelParameters
      (SetModelParameters exampleEnv exampleParams exampleLabelledEngine)).1 = true := by
  obtain ⟨h1, h2, -⟩ :=
    SetModelParameters_rawValuesAre exampleEnv exampleParams exampleLabelledEngine
  apply exampleEnv_feasible
  · rw [h1]; norm_num [exampleParams]
  · rw [h2]; norm_num [exampleParams]

/-- An instance of C25 on two labelled points, where the pairwise loop runs over
the entries `(0, 0)`, `(0, 1)` and `(1, 1)`: the example parameters are feasible
and new, `arma::inv` returns and the terms are finite. -/
theorem C25_derivative_matrices_zero_witness :
    exampleLabelledEngine.m_SampleSize = 2 ∧
    (exampleEnv.CheckModelParameters
      (SetModelParameters exampleEnv exampleParams exampleLabelledEngine)).1 = true ∧
    (SetModelParameters exampleEnv exampleParams exampleLabelledEngine).m_Modified = true ∧
    ∃ g2 : List ℚ,
      (Gradient exampleEnv exampleParams [] exampleLabelledEngine).1 = Except.ok g2 ∧
      g2.length = GetNumberOfParameters exampleLabelledEngine ∧
      ∀ i, i < 4 →
        g2.getD i 0 =
          -2 * (exampleLabelledEngine.m_DomainVolume *
            (GetIntegral exampleEnv
              (SetModelParameters exampleEnv exampleParams
                exampleLabelledEngine)).2.m_GradientIntegral.getD i 0) :=
  ⟨rfl, exampleLabelledEngine_feasible, exampleLabelledEngine_modified,
    (C25_derivative_matrices_zero exampleEnv exampleParams [] exampleLabelledEngine).2.2 _
      exampleLabelledEngine_feasible exampleLabelledEngine_modified rfl rfl rfl⟩

/-! ## The first width in fixed-intensity mode -/

theorem SetModelParameters_k2_firstAlpha {α : Type} [LinearOrderedField α] (env : Env α)
    (x : List α) (s : Engine α) :
    (SetModelParameters_k2 env x s).m_FirstAlpha = s.m_FirstAlpha := by
  unfold SetModelParameters_k2
  simp only []
  split_ifs <;> rfl

theorem SetModelParameters_k12star_firstAlpha {α : Type} [LinearOrderedField α]
    (x : List α) (s : Engine α) :
    (SetModelParameters_k12star x s).m_FirstAlpha = s.m_FirstAlpha := by
  unfold SetModelParameters_k12star
  simp only []
  split_ifs <;> rfl

theorem SetModelParameters_beta12_firstAlpha {α : Type} [LinearOrderedField α]
    (x : List α) (s : Engine α) :
    (SetModelParameters_beta12 x s).m_FirstAlpha = s.m_FirstAlpha := by
  unfold SetModelParameters_beta12
  simp only []
  split_ifs <;> rfl

theorem SetModelParameters_alpha_fixed {α : Type} [LinearOrderedField α] (env : Env α)
    (x : List α) (s : Engine α) (he : s.m_EstimateIntensities = false) :
    SetModelParameters_alpha env x s = s := by
  unfold SetModelParameters_alpha
  rw [if_neg (by simp [he])]

theorem SetModelParameters_finish_firstAlpha {α : Type} [LinearOrderedField α] (env : Env α)
    (s : Engine α) : (SetModelParameters_finish env s).m_FirstAlpha = s.m_FirstAlpha := by
  unfold SetModelParameters_finish
  simp only []
  split_ifs <;> rfl

/-- In fixed-intensity mode a first amplitude that differs from the stored one
sets the first width from the amplitude and the intensity in force at the call. -/
theorem SetModelParameters_firstAlpha_fixed {α : Type} [LinearOrderedField α] (env : Env α)
    (x : List α) (s : Engine α) (he : s.m_EstimateIntensities = false)
    (h : s.m_FirstAmplitude ≠ x.getD 0 0) :
    (SetModelParameters env x s).m_FirstAlpha =
      env.RetrieveAlphaFromParameters (x.getD 0 0) s.m_FirstIntensity s.m_DomainDimension := by
  have he4 : (SetModelParameters_beta12 x
      (SetModelParameters_k12star x
        (SetModelParameters_k2 env x
          (SetModelParameters_k1 env x { s with m_Modified := false })))).m_EstimateIntensities
      = false := by
    rw [(SetModelParameters_beta12_sameCache x _).2.1,
      (SetModelParameters_k12star_sameCache x _).2.1,
      (SetModelParameters_k2_sameCache env x _).2.1,
      (SetModelParameters_k1_sameCache env x _).2.1]
    exact he
  unfold SetModelParameters
  rw [SetModelParameters_finish_firstAlpha, SetModelParameters_alpha_fixed env x _ he4,
    SetModelParameters_beta12_firstAlpha, SetModelParameters_k12star_firstAlpha,
    SetModelParameters_k2_firstAlpha]
  unfold SetModelParameters_k1
  simp only []
  rw [if_pos h]
  simp only [he, Bool.not_false, if_true]

/-- C26 fails in the code.  Two states with the same dimension, volume,
estimation mode and supplied intensities `(2, 2)`: in the first the parameters
`x` were mapped while the intensities were `(1, 1)`, the second is new.
`SetModelParameters(x)` on the first finds the raw values unchanged and keeps
the first width of the earlier intensity, `(1/2) / 1`; on the second it
computes the first width of the intensity in force, `(1/2) / 2`. -/
theorem C26_SetModelParameters_depends_on_history :
    exampleHistoryA.m_DomainDimension = exampleHistoryB.m_DomainDimension ∧
    exampleHistoryA.m_DomainVolume = exampleHistoryB.m_DomainVolume ∧
    exampleHistoryA.m_EstimateIntensities = exampleHistoryB.m_EstimateIntensities ∧
    exampleHistoryA.m_FirstIntensity = exampleHistoryB.m_FirstIntensity ∧
    exampleHistoryA.m_SecondIntensity = exampleHistoryB.m_SecondIntensity ∧
    (SetModelParameters intensityEnv exampleParams exampleHistoryA).m_FirstAlpha = 1 / 2 ∧
    (SetModelParameters intensityEnv exampleParams exampleHistoryB).m_FirstAlpha = 1 / 4 := by
  have hcfg := EvaluateConstraint_sameConfig intensityEnv 0 exampleParams
    (SetIntensities 1 1 exampleEngine)
  have hraw := EvaluateConstraint_rawValuesAre intensityEnv 0 exampleParams
    (SetIntensities 1 1 exampleEngine)
  have hA : rawValuesAre exampleParams exampleHistoryA :=
    ⟨hraw.1, hraw.2.1, hraw.2.2.1, hraw.2.2.2.1, fun he => absurd he (by decide)⟩
  have hne : (SetIntensities (1 : ℚ) 1 exampleEngine).m_FirstAmplitude ≠ exampleParams.getD 0 0 := by
    norm_num [SetIntensities, exampleEngine, exampleParams]
  have hneB : exampleHistoryB.m_FirstAmplitude ≠ exampleParams.getD 0 0 := by
    norm_num [exampleHistoryB, SetIntensities, exampleEngine, exampleParams]
  refine ⟨?_, ?_, rfl, rfl, rfl, ?_, ?_⟩
  · exact hcfg.2.2.1
  · exact hcfg.1
  · rw [SetModelParameters_of_rawValuesAre intensityEnv exampleParams exampleHistoryA hA]
    show (SetModelParameters intensityEnv exampleParams
      (SetIntensities 1 1 exampleEngine)).m_FirstAlpha = 1 / 2
    rw [SetModelParameters_firstAlpha_fixed intensityEnv exampleParams _ rfl hne]
    show exampleParams.getD 0 0 / (1 : ℚ) = 1 / 2
    norm_num [exampleParams]
  · rw [SetModelParameters_firstAlpha_fixed intensityEnv exampleParams _ rfl hneB]
    show exampleParams.getD 0 0 / (2 : ℚ) = 1 / 4
    norm_num [exampleParams]

/-! ## Entries of the kernel matrices -/

theorem fillUpper_dims {α : Type} (n : Nat) (v : Nat → Nat → α) (M : Mat α) :
    (fillUpper n v M).n_rows = M.n_rows ∧ (fillUpper n v M).n_cols = M.n_cols := by
  unfold fillUpper
  generalize List.range n = is
  induction is generalizing M with
  | nil => simp
  | cons i is ih =>
    rw [List.foldl_cons, fillUpper_step_eq]
    have h := fillPairs_inner_dims v i (List.range' i (n - i)) M
    have h2 := ih ((List.range' i (n - i)).foldl
          (fun M j => (M.set i j (v i j)).set j i (v i j)) M)
    exact ⟨h2.1.trans h.1, h2.2.trans h.2⟩

/-- The pairwise loop writes a symmetric matrix. -/
theorem fillUpper_symm {α : Type} (n : Nat) (v : Nat → Nat → α) (M : Mat α) (a b : Nat)
    (ha : a < n) (hb : b < n) : (fillUpper n v M).elem a b = (fillUpper n v M).elem b a := by
  rw [fillUpper_elem n v M a b ha hb, fillUpper_elem n v M b a hb ha]
  by_cases h1 : a ≤ b
  · by_cases h2 : b ≤ a
    · have : a = b := le_antisymm h1 h2
      subst this
      rfl
    · rw [if_pos h1, if_neg h2]
  · rw [if_neg h1, if_pos (by omega)]

/-- The field `resVal` at the end of a loop that adds `f k` to it in pass `k`. -/
theorem PairValues_foldl_resVal {α : Type} [LinearOrderedField α] (f : Nat → α)
    (g : PairValues α → Nat → PairValues α)
    (hg : ∀ v k, (g v k).resVal = v.resVal + f k) (l : List Nat) (start : PairValues α) :
    (l.foldl g start).resVal = start.resVal + (l.map f).sum := by
  induction l generalizing start with
  | nil => simp
  | cons k l ih =>
    rw [List.foldl_cons, ih, hg, List.map_cons, List.sum_cons, add_assoc]

/-- The value written to the Gaussian kernel matrix for the pair `(i, j)`: the
series selected by the label sum, at the squared distance of the pair. -/
theorem Gaussian_pairValues_resVal {α : Type} [LinearOrderedField α] (env : GaussianEnv α)
    (s : GaussianEngine α) (i j : Nat) :
    (Gaussian.pairValues env s i j).resVal =
      if env.toUnsigned (s.m_PointLabels.getD i 0 + s.m_PointLabels.getD j 0) = 2 then
        Gaussian.kernelSeries env s s.m_Intensity1 s.m_Amplitude1 s.m_Alpha1
          (s.m_DistanceMatrix.elem i j * s.m_DistanceMatrix.elem i j)
      else if env.toUnsigned (s.m_PointLabels.getD i 0 + s.m_PointLabels.getD j 0) = 3 then
        Gaussian.kernelSeries env s s.m_Covariance s.m_Amplitude12 s.m_Alpha12
          (s.m_DistanceMatrix.elem i j * s.m_DistanceMatrix.elem i j)
      else
        Gaussian.kernelSeries env s s.m_Intensity2 s.m_Amplitude2 s.m_Alpha2
          (s.m_DistanceMatrix.elem i j * s.m_DistanceMatrix.elem i j) := by
  unfold Gaussian.pairValues Gaussian.kernelSeries
  simp only []
  split_ifs
  · rw [PairValues_foldl_resVal
      (fun (k : Nat) => s.m_Intensity1 * Gaussian.seriesTerm env s s.m_Amplitude1
        (s.m_DistanceMatrix.elem i j * s.m_DistanceMatrix.elem i j
          / ((k : α) * s.m_Alpha1 * s.m_Alpha1)) k) _ (fun v k => rfl), zero_add]
  · rw [PairValues_foldl_resVal
      (fun (k : Nat) => s.m_Covariance * Gaussian.seriesTerm env s s.m_Amplitude12
        (s.m_DistanceMatrix.elem i j * s.m_DistanceMatrix.elem i j
          / ((k : α) * s.m_Alpha12 * s.m_Alpha12)) k) _ (fun v k => rfl), zero_add]
  · rw [PairValues_foldl_resVal
      (fun (k : Nat) => s.m_Intensity2 * Gaussian.seriesTerm env s s.m_Amplitude2
        (s.m_DistanceMatrix.elem i j * s.m_DistanceMatrix.elem i j
          / ((k : α) * s.m_Alpha2 * s.m_Alpha2)) k) _ (fun v k => rfl), zero_add]

/-- With labels `1` and `2` and an exact conversion to `unsigned int`, the label
sum of a pair is `2`, `3` or `4`, and the conversion of the sum tests as the sum
itself. -/
theorem Gaussian_label_sum {α : Type} [LinearOrderedField α] (env : GaussianEnv α)
    (hun : ∀ n : Nat, env.toUnsigned (n : α) = n) (a b : α) (ha : a = 1 ∨ a = 2)
    (hb : b = 1 ∨ b = 2) :
    (a + b = 2 ∨ a + b = 3 ∨ a + b = 4) ∧
    (env.toUnsigned (a + b) = 2 ↔ a + b = 2) ∧ (env.toUnsigned (a + b) = 3 ↔ a + b = 3) := by
  have h2 : env.toUnsigned (2 : α) = 2 := by
    have := hun 2
    simpa using this
  have h3 : env.toUnsigned (3 : α) = 3 := by
    have := hun 3
    simpa using this
  have h4 : env.toUnsigned (4 : α) = 4 := by
    have := hun 4
    simpa using this
  have e23 : (2 : α) ≠ 3 := by norm_num
  have e24 : (2 : α) ≠ 4 := by norm_num
  have e34 : (3 : α) ≠ 4 := by norm_num
  have s11 : (1 : α) + 1 = 2 := by norm_num
  have s12 : (1 : α) + 2 = 3 := by norm_num
  have s21 : (2 : α) + 1 = 3 := by norm_num
  have s22 : (2 : α) + 2 = 4 := by norm_num
  rcases ha with rfl | rfl <;> rcases hb with rfl | rfl
  · rw [s11, h2]
    exact ⟨Or.inl rfl, by simp, by simp [e23]⟩
  · rw [s12, h3]
    exact ⟨Or.inr (Or.inl rfl), by simp [e23.symm], by simp⟩
  · rw [s21, h3]
    exact ⟨Or.inr (Or.inl rfl), by simp [e23.symm], by simp⟩
  · rw [s22, h4]
    exact ⟨Or.inr (Or.inr rfl), by simp [e24.symm], by simp [e34.symm]⟩

/-- C24: with labels in `{1, 2}` and a distance matrix that is zero on the
diagonal, the kernel matrix built by `GetLogDeterminant` in either engine is
symmetric; for `i ≤ j` the entry `(i, j)` is a function of the squared distance
of the pair and of the label sum, which is `2`, `3` or `4`: the first same-type
formula for `2`, the cross-type formula for `3`, the second same-type formula
for `4`; and each diagonal entry is the same-type formula of the type of the
point at squared distance zero.  For the Gaussian family the labels are of type
`double` and the conversion of the label sum to `unsigned int` is exact. -/
theorem C24_kernel_matrix_entries {α : Type} [LinearOrderedField α] (env : Env α)
    (genv : GaussianEnv α) (s : Engine α) (gs : GaussianEngine α)
    (hlab : ∀ i, i < s.m_SampleSize →
      s.m_PointLabels.getD i 0 = 1 ∨ s.m_PointLabels.getD i 0 = 2)
    (hdiag : ∀ i, i < s.m_SampleSize → s.m_DistanceMatrix.elem i i = 0)
    (hglab : ∀ i, i < gs.m_SampleSize →
      gs.m_PointLabels.getD i 0 = 1 ∨ gs.m_PointLabels.getD i 0 = 2)
    (hgdiag : ∀ i, i < gs.m_SampleSize → gs.m_DistanceMatrix.elem i i = 0)
    (hun : ∀ n : Nat, genv.toUnsigned (n : α) = n) :
    (∀ i j, i < s.m_SampleSize → j < s.m_SampleSize →
      (lMatrix env s).elem i j = (lMatrix env s).elem j i) ∧
    (∀ i j, i ≤ j → j < s.m_SampleSize →
      (s.m_PointLabels.getD i 0 + s.m_PointLabels.getD j 0 = 2 ∨
        s.m_PointLabels.getD i 0 + s.m_PointLabels.getD j 0 = 3 ∨
        s.m_PointLabels.getD i 0 + s.m_PointLabels.getD j 0 = 4) ∧
      (lMatrix env s).elem i j =
        if s.m_PointLabels.getD i 0 + s.m_PointLabels.getD j 0 = 2 then
          env.EvaluateLFunction (s.m_DistanceMatrix.elem i j * s.m_DistanceMatrix.elem i j)
            s.m_FirstAmplitude s.m_CrossAmplitude s.m_FirstAlpha
            (env.EvaluateL12Function
              (s.m_DistanceMatrix.elem i j * s.m_DistanceMatrix.elem i j) s.m_FirstAmplitude
              s.m_SecondAmplitude s.m_CrossAmplitude s.m_InverseCrossAlpha s.m_DomainDimension)
            s.m_DomainDimension
        else if s.m_PointLabels.getD i 0 + s.m_PointLabels.getD j 0 = 3 then
          env.EvaluateL12Function
            (s.m_DistanceMatrix.elem i j * s.m_DistanceMatrix.elem i j) s.m_FirstAmplitude
            s.m_SecondAmplitude s.m_CrossAmplitude s.m_InverseCrossAlpha s.m_DomainDimension
        else
          env.EvaluateLFunction (s.m_DistanceMatrix.elem i j * s.m_DistanceMatrix.elem i j)
            s.m_SecondAmplitude s.m_CrossAmplitude s.m_SecondAlpha
            (env.EvaluateL12Function
              (s.m_DistanceMatrix.elem i j * s.m_DistanceMatrix.elem i j) s.m_FirstAmplitude
              s.m_SecondAmplitude s.m_CrossAmplitude s.m_InverseCrossAlpha s.m_DomainDimension)
            s.m_DomainDimension) ∧
    (∀ i, i < s.m_SampleSize →
      (lMatrix env s).elem i i =
        if s.m_PointLabels.getD i 0 = 1 then
          env.EvaluateLFunction 0 s.m_FirstAmplitude s.m_CrossAmplitude s.m_FirstAlpha
            (env.EvaluateL12Function 0 s.m_FirstAmplitude s.m_SecondAmplitude s.m_CrossAmplitude
              s.m_InverseCrossAlpha s.m_DomainDimension)
            s.m_DomainDimension
        else
          env.EvaluateLFunction 0 s.m_SecondAmplitude s.m_CrossAmplitude s.m_SecondAlpha
            (env.EvaluateL12Function 0 s.m_FirstAmplitude s.m_SecondAmplitude s.m_CrossAmplitude
              s.m_InverseCrossAlpha s.m_DomainDimension)
            s.m_DomainDimension) ∧
    (∀ i j, i < gs.m_SampleSize → j < gs.m_SampleSize →
      (Gaussian.lMatrix genv gs).elem i j = (Gaussian.lMatrix genv gs).elem j i) ∧
    (∀ i j, i ≤ j → j < gs.m_SampleSize →
      (gs.m_PointLabels.getD i 0 + gs.m_PointLabels.getD j 0 = 2 ∨
        gs.m_PointLabels.getD i 0 + gs.m_PointLabels.getD j 0 = 3 ∨
        gs.m_PointLabels.getD i 0 + gs.m_PointLabels.getD j 0 = 4) ∧
      (Gaussian.lMatrix genv gs).elem i j =
        if gs.m_PointLabels.getD i 0 + gs.m_PointLabels.getD j 0 = 2 then
          Gaussian.kernelSeries genv gs gs.m_Intensity1 gs.m_Amplitude1 gs.m_Alpha1
            (gs.m_DistanceMatrix.elem i j * gs.m_DistanceMatrix.elem i j)
        else if gs.m_PointLabels.getD i 0 + gs.m_PointLabels.getD j 0 = 3 then
          Gaussian.kernelSeries genv gs gs.m_Covariance gs.m_Amplitude12 gs.m_Alpha12
            (gs.m_DistanceMatrix.elem i j * gs.m_DistanceMatrix.elem i j)
        else
          Gaussian.kernelSeries genv gs gs.m_Intensity2 gs.m_Amplitude2 gs.m_Alpha2
            (gs.m_DistanceMatrix.elem i j * gs.m_DistanceMatrix.elem i j)) ∧
    (∀ i, i < gs.m_SampleSize →
      (Gaussian.lMatrix genv gs).elem i i =
        if gs.m_PointLabels.getD i 0 = 1 then
          Gaussian.kernelSeries genv gs gs.m_Intensity1 gs.m_Amplitude1 gs.m_Alpha1 0
        else Gaussian.kernelSeries genv gs gs.m_Intensity2 gs.m_Amplitude2 gs.m_Alpha2 0) := by
  have hb : ∀ i j, i ≤ j → j < s.m_SampleSize →
      (s.m_PointLabels.getD i 0 + s.m_PointLabels.getD j 0 = 2 ∨
        s.m_PointLabels.getD i 0 + s.m_PointLabels.getD j 0 = 3 ∨
        s.m_PointLabels.getD i 0 + s.m_PointLabels.getD j 0 = 4) ∧
      (lMatrix env s).elem i j =
        if s.m_PointLabels.getD i 0 + s.m_PointLabels.getD j 0 = 2 then
          env.EvaluateLFunction (s.m_DistanceMatrix.elem i j * s.m_DistanceMatrix.elem i j)
            s.m_FirstAmplitude s.m_CrossAmplitude s.m_FirstAlpha
            (env.EvaluateL12Function
              (s.m_DistanceMatrix.elem i j * s.m_DistanceMatrix.elem i j) s.m_FirstAmplitude
              s.m_SecondAmplitude s.m_CrossAmplitude s.m_InverseCrossAlpha s.m_DomainDimension)
            s.m_DomainDimension
        else if s.m_PointLabels.getD i 0 + s.m_PointLabels.getD j 0 = 3 then
          env.EvaluateL12Function
            (s.m_DistanceMatrix.elem i j * s.m_DistanceMatrix.elem i j) s.m_FirstAmplitude
            s.m_SecondAmplitude s.m_CrossAmplitude s.m_InverseCrossAlpha s.m_DomainDimension
        else
          env.EvaluateLFunction (s.m_DistanceMatrix.elem i j * s.m_DistanceMatrix.elem i j)
            s.m_SecondAmplitude s.m_CrossAmplitude s.m_SecondAlpha
            (env.EvaluateL12Function
              (s.m_DistanceMatrix.elem i j * s.m_DistanceMatrix.elem i j) s.m_FirstAmplitude
              s.m_SecondAmplitude s.m_CrossAmplitude s.m_InverseCrossAlpha s.m_DomainDimension)
            s.m_DomainDimension := by
    intro i j hij hj
    have hi : i < s.m_SampleSize := by omega
    have hsum : s.m_PointLabels.getD i 0 + s.m_PointLabels.getD j 0 = 2 ∨
        s.m_PointLabels.getD i 0 + s.m_PointLabels.getD j 0 = 3 ∨
        s.m_PointLabels.getD i 0 + s.m_PointLabels.getD j 0 = 4 := by
      rcases hlab i hi with h1 | h1 <;> rcases hlab j hj with h2 | h2 <;> omega
    have hmod : (s.m_PointLabels.getD i 0 + s.m_PointLabels.getD j 0) % 4294967296 =
        s.m_PointLabels.getD i 0 + s.m_PointLabels.getD j 0 :=
      Nat.mod_eq_of_lt (by omega)
    refine ⟨hsum, ?_⟩
    unfold lMatrix
    rw [fillUpper_elem _ _ _ i j hi hj, if_pos hij]
    unfold kernelEntry
    simp only []
    rw [hmod]
  have hg : ∀ i j, i ≤ j → j < gs.m_SampleSize →
      (gs.m_PointLabels.getD i 0 + gs.m_PointLabels.getD j 0 = 2 ∨
        gs.m_PointLabels.getD i 0 + gs.m_PointLabels.getD j 0 = 3 ∨
        gs.m_PointLabels.getD i 0 + gs.m_PointLabels.getD j 0 = 4) ∧
      (Gaussian.lMatrix genv gs).elem i j =
        if gs.m_PointLabels.getD i 0 + gs.m_PointLabels.getD j 0 = 2 then
          Gaussian.kernelSeries genv gs gs.m_Intensity1 gs.m_Amplitude1 gs.m_Alpha1
            (gs.m_DistanceMatrix.elem i j * gs.m_DistanceMatrix.elem i j)
        else if gs.m_PointLabels.getD i 0 + gs.m_PointLabels.getD j 0 = 3 then
          Gaussian.kernelSeries genv gs gs.m_Covariance gs.m_Amplitude12 gs.m_Alpha12
            (gs.m_DistanceMatrix.elem i j * gs.m_DistanceMatrix.elem i j)
        else
          Gaussian.kernelSeries genv gs gs.m_Intensity2 gs.m_Amplitude2 gs.m_Alpha2
            (gs.m_DistanceMatrix.elem i j * gs.m_DistanceMatrix.elem i j) := by
    intro i j hij hj
    have hi : i < gs.m_SampleSize := by omega
    obtain ⟨hsum, h2, h3⟩ := Gaussian_label_sum genv hun _ _ (hglab i hi) (hglab j hj)
    refine ⟨hsum, ?_⟩
    unfold Gaussian.lMatrix
    rw [fillUpper_elem _ _ _ i j hi hj, if_pos hij, Gaussian_pairValues_resVal]
    simp only [h2, h3]
  refine ⟨?_, hb, ?_, ?_, hg, ?_⟩
  · intro i j hi hj
    unfold lMatrix
    exact fillUpper_symm _ _ _ i j hi hj
  · intro i hi
    rw [(hb i i (le_refl i) hi).2, hdiag i hi, mul_zero]
    rcases hlab i hi with h1 | h1
    · rw [h1]
      simp
    · rw [h1]
      simp
  · intro i j hi hj
    unfold Gaussian.lMatrix
    exact fillUpper_symm _ _ _ i j hi hj
  · intro i hi
    rw [(hg i i (le_refl i) hi).2, hgdiag i hi, mul_zero]
    rcases hglab i hi with h1 | h1
    · rw [h1]
      norm_num
    · rw [h1]
      norm_num

/-- The distance matrix left by `SetInputs(points, volume)` is zero on the
diagonal. -/
theorem exampleGaussianEngine_diag (i : Nat) :
    exampleGaussianEngine.m_DistanceMatrix.elem i i = 0 := by
  unfold exampleGaussianEngine
  rw [Gaussian_SetInputs_eq exampleGaussianEnv exampleGaussianPoints 4 exampleGaussianBlank
    (by decide)]
  show (fillPairs _ _ _).elem i i = 0
  rw [fillPairs_elem, if_neg (fun h => lt_irrefl i h.1), if_neg (fun h => lt_irrefl i h.1)]
  rfl

theorem exampleGaussianEnv_toUnsigned (n : Nat) :
    exampleGaussianEnv.toUnsigned (n : ℚ) = n := by
  show (Int.floor (n : ℚ)).toNat = n
  rw [Int.floor_natCast, Int.toNat_natCast]

theorem exampleGaussianEngine_labels (i : Nat) (hi : i < exampleGaussianEngine.m_SampleSize) :
    exampleGaussianEngine.m_PointLabels.getD i 0 = 1 ∨
      exampleGaussianEngine.m_PointLabels.getD i 0 = 2 := by
  rw [exampleGaussianEngine_eq] at hi ⊢
  have hi2 : i < 2 := hi
  show ([1, 2] : List ℚ).getD i 0 = 1 ∨ ([1, 2] : List ℚ).getD i 0 = 2
  interval_cases i
  · left; rfl
  · right; rfl

theorem exampleLabelledEngine_labels (i : Nat) (hi : i < exampleLabelledEngine.m_SampleSize) :
    exampleLabelledEngine.m_PointLabels.getD i 0 = 1 ∨
      exampleLabelledEngine.m_PointLabels.getD i 0 = 2 := by
  have hi2 : i < 2 := hi
  show ([1, 2] : List Nat).getD i 0 = 1 ∨ ([1, 2] : List Nat).getD i 0 = 2
  interval_cases i
  · left; rfl
  · right; rfl

/-- An instance of C24: the two labelled example points in either engine. -/
theorem C24_kernel_matrix_entries_witness :
    (∀ i, i < exampleLabelledEngine.m_SampleSize →
      exampleLabelledEngine.m_PointLabels.getD i 0 = 1 ∨
        exampleLabelledEngine.m_PointLabels.getD i 0 = 2) ∧
    (∀ i, i < exampleLabelledEngine.m_SampleSize →
      exampleLabelledEngine.m_DistanceMatrix.elem i i = 0) ∧
    (∀ i, i < exampleGaussianEngine.m_SampleSize →
      exampleGaussianEngine.m_PointLabels.getD i 0 = 1 ∨
        exampleGaussianEngine.m_PointLabels.getD i 0 = 2) ∧
    (∀ i, i < exampleGaussianEngine.m_SampleSize →
      exampleGaussianEngine.m_DistanceMatrix.elem i i = 0) ∧
    (∀ n : Nat, exampleGaussianEnv.toUnsigned (n : ℚ) = n) ∧
    (∀ i j, i < exampleLabelledEngine.m_SampleSize → j < exampleLabelledEngine.m_SampleSize →
      (lMatrix exampleEnv exampleLabelledEngine).elem i j =
        (lMatrix exampleEnv exampleLabelledEngine).elem j i) ∧
    (∀ i j, i < exampleGaussianEngine.m_SampleSize → j < exampleGaussianEngine.m_SampleSize →
      (Gaussian.lMatrix exampleGaussianEnv exampleGaussianEngine).elem i j =
        (Gaussian.lMatrix exampleGaussianEnv exampleGaussianEngine).elem j i) :=
  ⟨exampleLabelledEngine_labels,
    fun i _ => SetInputs_elem_diag exampleEnv examplePoints [1, 2] [0, 0] [1, 1] exampleEngine i,
    exampleGaussianEngine_labels, fun i _ => exampleGaussianEngine_diag i,
    exampleGaussianEnv_toUnsigned,
    (C24_kernel_matrix_entries exampleEnv exampleGaussianEnv exampleLabelledEngine
      exampleGaussianEngine exampleLabelledEngine_labels
      (fun i _ => SetInputs_elem_diag exampleEnv examplePoints [1, 2] [0, 0] [1, 1]
        exampleEngine i)
      exampleGaussianEngine_labels (fun i _ => exampleGaussianEngine_diag i)
      exampleGaussianEnv_toUnsigned).1,
    (C24_kernel_matrix_entries exampleEnv exampleGaussianEnv exampleLabelledEngine
      exampleGaussianEngine exampleLabelledEngine_labels
      (fun i _ => SetInputs_elem_diag exampleEnv examplePoints [1, 2] [0, 0] [1, 1]
        exampleEngine i)
      exampleGaussianEngine_labels (fun i _ => exampleGaussianEngine_diag i)
      exampleGaussianEnv_toUnsigned).2.2.2.1⟩

/-! ## The log-determinant gradient of the Gaussian family -/

/-- When `arma::inv` returns, each of the four entries that
`GaussianLogLikelihood::GetLogDeterminant` writes is the trace of the inverse
times `lMatrixDeriv1`. -/
theorem Gaussian_GetLogDeterminant_gradient {α : Type} [LinearOrderedField α]
    (env : GaussianEnv α) (s : GaussianEngine α) (Minv : Mat α)
    (h : env.inv (Gaussian.lMatrix env s) = some Minv)
    (hlen : 4 ≤ s.m_GradientLogDeterminant.length) (k : Nat) (hk : k < 4) :
    (Gaussian.GetLogDeterminant env s).2.m_GradientLogDeterminant.getD k 0 =
      Mat.trace (Mat.mul Minv (Gaussian.lMatrixDeriv1 env s)) := by
  unfold Gaussian.GetLogDeterminant
  simp only [h]
  rw [getD_set_of_lt _ 3 k _ _ (by simp only [List.length_set]; omega),
    getD_set_of_lt _ 2 k _ _ (by simp only [List.length_set]; omega),
    getD_set_of_lt _ 1 k _ _ (by simp only [List.length_set]; omega),
    getD_set_of_lt _ 0 k _ _ (by omega)]
  interval_cases k <;> simp

/-- With a covariance parameter of zero no pass of the pairwise loop gives a
non-zero `workValue2`. -/
theorem Gaussian_pairValues_workValue2 {α : Type} [LinearOrderedField α]
    (env : GaussianEnv α) (s : GaussianEngine α) (hc : s.m_Covariance = 0) (i j : Nat) :
    (Gaussian.pairValues env s i j).workValue2 = 0 := by
  unfold Gaussian.pairValues
  simp only []
  split_ifs
  · apply foldl_invariant (fun v : PairValues α => v.workValue2 = 0)
    · rfl
    · intro v k _ hv
      exact hv
  · apply foldl_invariant (fun v : PairValues α => v.workValue2 = 0)
    · rfl
    · intro v k _ hv
      show v.workValue2 + s.m_Covariance * _ * _ = 0
      rw [hv, hc, zero_mul, zero_mul, add_zero]
  · apply foldl_invariant (fun v : PairValues α => v.workValue2 = 0)
    · rfl
    · intro v k _ hv
      exact hv

theorem Gaussian_lMatrixDeriv2_zero {α : Type} [LinearOrderedField α]
    (env : GaussianEnv α) (s : GaussianEngine α) (hc : s.m_Covariance = 0) (a b : Nat) :
    (Gaussian.lMatrixDeriv2 env s).elem a b = 0 := by
  unfold Gaussian.lMatrixDeriv2 fillUpper
  rw [fillUpper_outer_elem]
  split_ifs
  · exact Gaussian_pairValues_workValue2 env s hc a b
  · exact Gaussian_pairValues_workValue2 env s hc b a
  · rfl

/-- The trace of a product of two non-negative matrices with positive first
entries is positive. -/
theorem Mat.trace_mul_pos {α : Type} [LinearOrderedField α] (A B : Mat α)
    (hA : ∀ a b, 0 ≤ A.elem a b) (hB : ∀ a b, 0 ≤ B.elem a b)
    (hr : 0 < A.n_rows) (hc : 0 < A.n_cols) (hbc : 0 < B.n_cols)
    (hA0 : 0 < A.elem 0 0) (hB0 : 0 < B.elem 0 0) : 0 < Mat.trace (Mat.mul A B) := by
  have hinner : ∀ i, 0 ≤ ((List.range A.n_cols).map (fun k => A.elem i k * B.elem k i)).sum := by
    intro i
    apply List.sum_nonneg
    intro d hd
    simp only [List.mem_map, List.mem_range] at hd
    obtain ⟨k, _, rfl⟩ := hd
    exact mul_nonneg (hA i k) (hB k i)
  have h1 : A.elem 0 0 * B.elem 0 0 ≤
      ((List.range A.n_cols).map (fun k => A.elem 0 k * B.elem k 0)).sum := by
    apply List.single_le_sum
    · intro d hd
      simp only [List.mem_map, List.mem_range] at hd
      obtain ⟨k, _, rfl⟩ := hd
      exact mul_nonneg (hA 0 k) (hB k 0)
    · simp only [List.mem_map, List.mem_range]
      exact ⟨0, hc, rfl⟩
  have h2 : ((List.range A.n_cols).map (fun k => A.elem 0 k * B.elem k 0)).sum ≤
      Mat.trace (Mat.mul A B) := by
    unfold Mat.trace Mat.mul
    apply List.single_le_sum
    · intro d hd
      simp only [List.mem_map, List.mem_range] at hd
      obtain ⟨i, _, rfl⟩ := hd
      exact hinner i
    · simp only [List.mem_map, List.mem_range]
      exact ⟨0, lt_min hr hbc, rfl⟩
  exact lt_of_lt_of_le (mul_pos hA0 hB0) (le_trans h1 h2)

theorem powQ_pos (b e : ℚ) (hb : 0 < b) : 0 < powQ b e := by
  unfold powQ
  split_ifs
  · exact hb
  · exact mul_pos hb hb
  · norm_num

/-- With the stand-ins of the example, positive first intensity and amplitude, a
label sum of `2` and at least two points in dimension at least one, the values
written to the kernel matrix and to `lMatrixDeriv1` are positive. -/
theorem exampleGaussian_pairValues_pos (s : GaussianEngine ℚ) (i j : Nat)
    (hl : exampleGaussianEnv.toUnsigned
      (s.m_PointLabels.getD i 0 + s.m_PointLabels.getD j 0) = 2)
    (hN : 2 ≤ s.m_SampleSize) (hD : 1 ≤ s.m_DataDimension)
    (hI1 : 0 < s.m_Intensity1) (hA1 : 0 < s.m_Amplitude1) :
    0 < (Gaussian.pairValues exampleGaussianEnv s i j).resVal ∧
    0 < (Gaussian.pairValues exampleGaussianEnv s i j).workValue1 := by
  have hterm : ∀ (e : ℚ) (k : Nat), 1 ≤ k →
      0 < Gaussian.seriesTerm exampleGaussianEnv s s.m_Amplitude1 e k := by
    intro e k hk
    unfold Gaussian.seriesTerm
    show 0 < powQ s.m_Amplitude1 ((k : ℚ) - 1) * powQ (k : ℚ) (-(s.m_DataDimension : ℚ) / 2)
      * (1 + (-e) * (-e))
    have h1 := powQ_pos s.m_Amplitude1 ((k : ℚ) - 1) hA1
    have hk0 : (0 : ℚ) < (k : ℚ) := by exact_mod_cast hk
    have h2 := powQ_pos (k : ℚ) (-(s.m_DataDimension : ℚ) / 2) hk0
    have h3 : (0 : ℚ) < 1 + (-e) * (-e) := by nlinarith [mul_self_nonneg e]
    exact mul_pos (mul_pos h1 h2) h3
  have hfac : ∀ (d al : ℚ) (k : Nat),
      0 < (s.m_DataDimension : ℚ) * ((s.m_SampleSize : ℚ) - 1)
        + 2 * (d * d / ((k : ℚ) * al * al)) := by
    intro d al k
    have h1 : (1 : ℚ) ≤ (s.m_SampleSize : ℚ) - 1 := by
      have : (2 : ℚ) ≤ (s.m_SampleSize : ℚ) := by exact_mod_cast hN
      linarith
    have h2 : (0 : ℚ) ≤ d * d / ((k : ℚ) * al * al) := by
      apply div_nonneg (mul_self_nonneg d)
      rw [mul_assoc]
      exact mul_nonneg (Nat.cast_nonneg k) (mul_self_nonneg al)
    have h3 : (1 : ℚ) ≤ (s.m_DataDimension : ℚ) := by exact_mod_cast hD
    nlinarith [mul_le_mul h3 h1 (by norm_num) (by linarith)]
  have hrange : List.range' 1 50 = 1 :: List.range' 2 49 := rfl
  unfold Gaussian.pairValues
  simp only []
  rw [if_pos hl, hrange, List.foldl_cons]
  apply foldl_invariant (fun v : PairValues ℚ => 0 < v.resVal ∧ 0 < v.workValue1)
  · refine ⟨?_, ?_⟩
    · show 0 < (0 : ℚ) + s.m_Intensity1 * _
      rw [zero_add]
      exact mul_pos hI1 (hterm _ 1 (le_refl 1))
    · show 0 < (0 : ℚ) + s.m_Intensity1 * _ * _
      rw [zero_add]
      exact mul_pos (mul_pos hI1 (hterm _ 1 (le_refl 1))) (hfac _ _ _)
  · intro v k hk hv
    have hk1 : 1 ≤ k := by
      rw [List.mem_range'_1] at hk
      omega
    refine ⟨?_, ?_⟩
    · exact add_pos hv.1 (mul_pos hI1 (hterm _ k hk1))
    · exact add_pos hv.2 (mul_pos (mul_pos hI1 (hterm _ k hk1)) (hfac _ _ _))

/-- The fields of the example engine after the mapping of `(0, 0, 0, 0)`. -/
theorem exampleGaussianMapped_fields :
    exampleGaussianMapped.m_SampleSize = 2 ∧ exampleGaussianMapped.m_DataDimension = 1 ∧
    exampleGaussianMapped.m_PointLabels = [1, 2] ∧
    exampleGaussianMapped.m_Intensity1 = 1 / 4 ∧ exampleGaussianMapped.m_Intensity2 = 1 / 4 ∧
    exampleGaussianMapped.m_Covariance = 0 ∧ exampleGaussianMapped.m_Amplitude1 = 1 / 2 ∧
    exampleGaussianMapped.m_Amplitude12 = 0 ∧ exampleGaussianMapped.m_Amplitude2 = 1 / 2 ∧
    exampleGaussianMapped.m_GradientLogDeterminant = [0, 0, 0, 0] := by
  have hf := exampleGaussianEngine_fields
  have hne : exampleGaussianEngine.m_Alpha1 ≠ 1 ∨ exampleGaussianEngine.m_Covariance ≠ 0 := by
    left
    rw [hf.2.2.2.2.1]
    norm_num
  have hmap := exampleGaussian_mapped exampleGaussianParams 0 exampleGaussianEngine rfl rfl rfl
    rfl hf.1 hf.2.2.1 hf.2.2.2.1 hne
  have hfr := Gaussian_SetModelParameters_frame exampleGaussianEnv exampleGaussianParams
    exampleGaussianEngine
  have hch : exampleGaussianEngine.m_Alpha1
        ≠ exampleGaussianEnv.exp (exampleGaussianParams.linear 0) ∨
      exampleGaussianEngine.m_Alpha12
        ≠ exampleGaussianEnv.exp (exampleGaussianParams.linear 1) ∨
      exampleGaussianEngine.m_Alpha2
        ≠ exampleGaussianEnv.exp (exampleGaussianParams.linear 2) ∨
      exampleGaussianEngine.m_Covariance ≠ exampleGaussianParams.linear 3 := by
    left
    rw [hf.2.2.2.2.1]
    show (0 : ℚ) ≠ 1 + 0 * 0
    norm_num
  have hN : exampleGaussianMapped.m_SampleSize = 2 := by
    unfold exampleGaussianMapped
    rw [Gaussian_SetModelParameters_changed _ _ _ hch]
    show exampleGaussianEngine.m_SampleSize = 2
    rw [exampleGaussianEngine_eq]
  have hlab : exampleGaussianMapped.m_PointLabels = [1, 2] := by
    unfold exampleGaussianMapped
    rw [Gaussian_SetModelParameters_changed _ _ _ hch]
    show exampleGaussianEngine.m_PointLabels = [1, 2]
    rw [exampleGaussianEngine_eq]
  have hA12 : exampleGaussianMapped.m_Amplitude12 = 0 := by
    unfold exampleGaussianMapped
    rw [Gaussian_SetModelParameters_changed _ _ _ hch]
    show (0 : ℚ) * _ = 0
    exact zero_mul _
  exact ⟨hN, hmap.2.2.2.2.2.2.2.2.2, hlab, hmap.2.2.2.2.2.2.2.1, hmap.2.2.2.2.2.2.2.2.1,
    hmap.2.2.2.2.1, hmap.2.2.2.2.2.1, hA12, hmap.2.2.2.2.2.2.1,
    hfr.2.2.2.2.1.trans hf.2.2.2.2.2.2.2.2.2.2.2⟩

/-- C23 fails in the code of the Gaussian family.  In the example, after the
mapping of the column `(0, 0, 0, 0)`, each of the four entries written by
`GetLogDeterminant` is the trace of the inverse times `lMatrixDeriv1`; the trace
of the inverse times `lMatrixDeriv2`, which the claim gives for entry `1`, is
zero, while the trace with `lMatrixDeriv1` is positive. -/
theorem C23_gradient_components_use_first_derivative :
    exampleGaussianEnv.inv (Gaussian.lMatrix exampleGaussianEnv exampleGaussianMapped) =
      some (Gaussian.lMatrix exampleGaussianEnv exampleGaussianMapped) ∧
    (∀ k, k < 4 →
      (Gaussian.GetLogDeterminant exampleGaussianEnv
        exampleGaussianMapped).2.m_GradientLogDeterminant.getD k 0 =
        Mat.trace (Mat.mul (Gaussian.lMatrix exampleGaussianEnv exampleGaussianMapped)
          (Gaussian.lMatrixDeriv1 exampleGaussianEnv exampleGaussianMapped))) ∧
    Mat.trace (Mat.mul (Gaussian.lMatrix exampleGaussianEnv exampleGaussianMapped)
      (Gaussian.lMatrixDeriv2 exampleGaussianEnv exampleGaussianMapped)) = 0 ∧
    0 < Mat.trace (Mat.mul (Gaussian.lMatrix exampleGaussianEnv exampleGaussianMapped)
      (Gaussian.lMatrixDeriv1 exampleGaussianEnv exampleGaussianMapped)) ∧
    (Gaussian.GetLogDeterminant exampleGaussianEnv
      exampleGaussianMapped).2.m_GradientLogDeterminant.getD 1 0 ≠
      Mat.trace (Mat.mul (Gaussian.lMatrix exampleGaussianEnv exampleGaussianMapped)
        (Gaussian.lMatrixDeriv2 exampleGaussianEnv exampleGaussianMapped)) := by
  obtain ⟨hN, hD, hlab, hI1, hI2, hc, hA1, hA12, hA2, hgL⟩ := exampleGaussianMapped_fields
  have hcomp : ∀ k, k < 4 →
      (Gaussian.GetLogDeterminant exampleGaussianEnv
        exampleGaussianMapped).2.m_GradientLogDeterminant.getD k 0 =
        Mat.trace (Mat.mul (Gaussian.lMatrix exampleGaussianEnv exampleGaussianMapped)
          (Gaussian.lMatrixDeriv1 exampleGaussianEnv exampleGaussianMapped)) := by
    intro k hk
    exact Gaussian_GetLogDeterminant_gradient exampleGaussianEnv exampleGaussianMapped _ rfl
      (by rw [hgL]; decide) k hk
  have hzero : Mat.trace (Mat.mul (Gaussian.lMatrix exampleGaussianEnv exampleGaussianMapped)
      (Gaussian.lMatrixDeriv2 exampleGaussianEnv exampleGaussianMapped)) = 0 :=
    Mat.trace_mul_zero _ _ (Gaussian_lMatrixDeriv2_zero exampleGaussianEnv _ hc)
  have hnn := fun a b => exampleGaussian_pairValues_nonneg exampleGaussianMapped a b
    (by rw [hN]; norm_num) (by rw [hI1]; norm_num) (by rw [hI2]; norm_num) (by rw [hc])
    (by rw [hA1]; norm_num) (by rw [hA12]) (by rw [hA2]; norm_num)
  have hl : exampleGaussianEnv.toUnsigned
      (exampleGaussianMapped.m_PointLabels.getD 0 0
        + exampleGaussianMapped.m_PointLabels.getD 0 0) = 2 := by
    rw [hlab]
    show exampleGaussianEnv.toUnsigned ((1 : ℚ) + 1) = 2
    have h2 := exampleGaussianEnv_toUnsigned 2
    have e : ((2 : Nat) : ℚ) = 1 + 1 := by norm_num
    rw [e] at h2
    exact h2
  have hpp := exampleGaussian_pairValues_pos exampleGaussianMapped 0 0 hl
    (by rw [hN]) (by rw [hD]) (by rw [hI1]; norm_num) (by rw [hA1]; norm_num)
  have hdimsL := fillUpper_dims exampleGaussianMapped.m_SampleSize
    (fun i j => (Gaussian.pairValues exampleGaussianEnv exampleGaussianMapped i j).resVal)
    (Mat.zeros exampleGaussianMapped.m_SampleSize exampleGaussianMapped.m_SampleSize)
  have hdimsD := fillUpper_dims exampleGaussianMapped.m_SampleSize
    (fun i j => (Gaussian.pairValues exampleGaussianEnv exampleGaussianMapped i j).workValue1)
    (Mat.zeros exampleGaussianMapped.m_SampleSize exampleGaussianMapped.m_SampleSize)
  have h00 : ∀ v : Nat → Nat → ℚ,
      (fillUpper exampleGaussianMapped.m_SampleSize v
        (Mat.zeros exampleGaussianMapped.m_SampleSize
          exampleGaussianMapped.m_SampleSize)).elem 0 0 = v 0 0 := by
    intro v
    rw [fillUpper_elem _ _ _ 0 0 (by rw [hN]; norm_num) (by rw [hN]; norm_num), if_pos (le_refl 0)]
  have hpos : 0 < Mat.trace
      (Mat.mul (Gaussian.lMatrix exampleGaussianEnv exampleGaussianMapped)
        (Gaussian.lMatrixDeriv1 exampleGaussianEnv exampleGaussianMapped)) := by
    apply Mat.trace_mul_pos
    · intro a b
      unfold Gaussian.lMatrix
      apply fillUpper_elem_nonneg
      · intro c d
        exact (hnn c d).1
      · intro c d
        exact le_refl _
    · intro a b
      unfold Gaussian.lMatrixDeriv1
      apply fillUpper_elem_nonneg
      · intro c d
        exact (hnn c d).2
      · intro c d
        exact le_refl _
    · unfold Gaussian.lMatrix
      rw [hdimsL.1]
      show 0 < exampleGaussianMapped.m_SampleSize
      rw [hN]
      norm_num
    · unfold Gaussian.lMatrix
      rw [hdimsL.2]
      show 0 < exampleGaussianMapped.m_SampleSize
      rw [hN]
      norm_num
    · unfold Gaussian.lMatrixDeriv1
      rw [hdimsD.2]
      show 0 < exampleGaussianMapped.m_SampleSize
      rw [hN]
      norm_num
    · unfold Gaussian.lMatrix
      rw [h00]
      exact hpp.1
    · unfold Gaussian.lMatrixDeriv1
      rw [h00]
      exact hpp.2
  refine ⟨rfl, hcomp, hzero, hpos, ?_⟩
  rw [hcomp 1 (by norm_num), hzero]
  exact ne_of_gt hpos

/-! ## C12 -/

theorem exampleCoincidentEngine_distance (i j : Nat) :
    exampleCoincidentEngine.m_DistanceMatrix.elem i j = 0 := by
  have key : periodicDistance degenerateEnv
      ((SetNeighborhood 2).map (trialVector 2 (exampleCoincidentPoints.row 0) [0, 0] [1, 1]))
      (exampleCoincidentPoints.row 0) = 0 := by
    obtain ⟨hle, o, -, ho⟩ := periodicDistance_isMin degenerateEnv 2
      (exampleCoincidentPoints.row 0) [0, 0] [1, 1] (exampleCoincidentPoints.row 0) rfl
    apply le_antisymm
    · have h := hle _ (zero_mem_SetNeighborhood 2)
      rw [periodicImage_zero, euclideanDistance_self degenerateEnv _ sqrtQ_zero] at h
      exact h
    · rw [ho]
      exact sqrtQ_nonneg _
  have hp : exampleEngine.m_UsePeriodicDomain = true := rfl
  unfold exampleCoincidentEngine
  rw [SetInputs_elem]
  simp only [hp, if_true]
  split_ifs
  · exact key
  · exact key
  · rfl

theorem exampleCoincidentEngine_kernel (x : List ℚ) (i j : Nat) (hi : i < 2) (hj : j < 2) :
    kernelEntry degenerateEnv (SetModelParameters degenerateEnv x exampleCoincidentEngine) i j
      = (SetModelParameters degenerateEnv x exampleCoincidentEngine).m_FirstAmplitude + 1 := by
  obtain ⟨-, -, -, -, -, -, -, -, -, hlab, hdist⟩ :=
    SetModelParameters_sameCache degenerateEnv x exampleCoincidentEngine
  have hl : (SetModelParameters degenerateEnv x exampleCoincidentEngine).m_PointLabels
      = [1, 1] := hlab
  unfold kernelEntry
  simp only []
  rw [hdist, exampleCoincidentEngine_distance, hl]
  interval_cases i <;> interval_cases j <;> simp [degenerateEnv, exampleEnv]

theorem exampleCoincidentEngine_singular (x : List ℚ) :
    smallDet (lMatrix degenerateEnv
      (SetModelParameters degenerateEnv x exampleCoincidentEngine)) = 0 := by
  obtain ⟨-, -, -, -, -, -, -, -, hn, -, -⟩ :=
    SetModelParameters_sameCache degenerateEnv x exampleCoincidentEngine
  have hn2 : (SetModelParameters degenerateEnv x exampleCoincidentEngine).m_SampleSize = 2 := hn
  have hrows : (lMatrix degenerateEnv
      (SetModelParameters degenerateEnv x exampleCoincidentEngine)).n_rows = 2 := by
    unfold lMatrix
    rw [(fillUpper_dims _ _ _).1]
    exact hn2
  have he : ∀ a b, a < 2 → b < 2 →
      (lMatrix degenerateEnv
        (SetModelParameters degenerateEnv x exampleCoincidentEngine)).elem a b =
        (SetModelParameters degenerateEnv x exampleCoincidentEngine).m_FirstAmplitude + 1 := by
    intro a b ha hb
    unfold lMatrix
    rw [fillUpper_elem _ _ _ a b (by rw [hn2]; exact ha) (by rw [hn2]; exact hb)]
    split_ifs
    · exact exampleCoincidentEngine_kernel x a b ha hb
    · exact exampleCoincidentEngine_kernel x b a hb ha
  unfold smallDet
  rw [hrows, he 0 0 (by norm_num) (by norm_num), he 1 1 (by norm_num) (by norm_num),
    he 0 1 (by norm_num) (by norm_num), he 1 0 (by norm_num) (by norm_num)]
  norm_num

theorem exampleCoincidentEngine_modified :
    (SetModelParameters degenerateEnv exampleParams exampleCoincidentEngine).m_Modified
      = true := by
  apply SetModelParameters_modified_of_ne
  show exampleEngine.m_FirstAmplitude ≠ _
  norm_num [exampleEngine, exampleParams]

/-- C12: provided `arma::inv` throws on the kernel matrix only when `arma::log_det`
of that matrix is not finite, `Evaluate` raises a fatal error exactly when the
integral term or the log-determinant term in force after the parameter mapping is
not finite; `Gradient` does so exactly when the parameters are feasible and one
of these terms is not finite, and so does `EvaluateWithGradient`, which always
recomputes them; a call that raises returns no value. -/
theorem C12_fatal_errors {α : Type} [LinearOrderedField α] (env : Env α)
    (x g : List α) (s : Engine α)
    (hinv : env.inv (lMatrix env (SetModelParameters env x s)) = none →
      env.isfinite (env.log_det (lMatrix env (SetModelParameters env x s))) = false) :
    (raises (Evaluate env x s).1 ↔
      (env.isfinite (integralInForce env x s) = false ∨
        env.isfinite (logDeterminantInForce env x s) = false)) ∧
    (raises (Gradient env x g s).1 ↔
      (env.CheckModelParameters (SetModelParameters env x s)).1 = true ∧
      (env.isfinite (integralInForce env x s) = false ∨
        env.isfinite (logDeterminantInForce env x s) = false)) ∧
    (raises (EvaluateWithGradient env x g s).1 ↔
      (env.CheckModelParameters (SetModelParameters env x s)).1 = true ∧
      (env.isfinite (GetIntegral env (SetModelParameters env x s)).1 = false ∨
        env.isfinite (env.log_det (lMatrix env (SetModelParameters env x s))) = false)) ∧
    (raises (Evaluate env x s).1 → ∀ v, (Evaluate env x s).1 ≠ Except.ok v) ∧
    (raises (Gradient env x g s).1 → ∀ v, (Gradient env x g s).1 ≠ Except.ok v) ∧
    (raises (EvaluateWithGradient env x g s).1 →
      ∀ v, (EvaluateWithGradient env x g s).1 ≠ Except.ok v) := by
  have hthrow : ((SetModelParameters env x s).m_Modified = true ∧
      env.inv (lMatrix env (SetModelParameters env x s)) = none) →
      env.isfinite (logDeterminantInForce env x s) = false := by
    rintro ⟨hm, hn⟩
    unfold logDeterminantInForce
    rw [if_pos hm]
    exact hinv hn
  refine ⟨?_, ?_, ?_, ?_, ?_, ?_⟩
  · rw [Evaluate_raises]
    constructor
    · rintro (h | h | h)
      · exact Or.inr (hthrow h)
      · exact Or.inl h
      · exact Or.inr h
    · intro h
      exact Or.inr h
  · rw [Gradient_raises]
    constructor
    · rintro ⟨hf, h | h | h⟩
      · exact ⟨hf, Or.inr (hthrow h)⟩
      · exact ⟨hf, Or.inl h⟩
      · exact ⟨hf, Or.inr h⟩
    · rintro ⟨hf, h⟩
      exact ⟨hf, Or.inr h⟩
  · rw [EvaluateWithGradient_raises]
    constructor
    · rintro ⟨hf, h | h | h⟩
      · exact ⟨hf, Or.inr (hinv h)⟩
      · exact ⟨hf, Or.inl h⟩
      · exact ⟨hf, Or.inr h⟩
    · rintro ⟨hf, h⟩
      exact ⟨hf, Or.inr h⟩
  · rintro ⟨e, he⟩ v hv
    rw [he] at hv
    exact absurd hv (by simp)
  · rintro ⟨e, he⟩ v hv
    rw [he] at hv
    exact absurd hv (by simp)
  · rintro ⟨e, he⟩ v hv
    rw [he] at hv
    exact absurd hv (by simp)

theorem degenerateEnv_throws (M : Mat ℚ) (h : degenerateEnv.inv M = none) :
    degenerateEnv.isfinite (degenerateEnv.log_det M) = false := by
  have h0 : smallDet M = 0 := by
    by_contra hc
    have : degenerateEnv.inv M = some M := by
      show (if smallDet M = 0 then none else some M) = some M
      rw [if_neg hc]
    rw [this] at h
    exact absurd h (by simp)
  show decide (|(if smallDet M = 0 then (-2000000 : ℚ) else M.elem 0 0)| ≤ 1000000) = false
  rw [if_pos h0]
  norm_num

/-- An instance of C12 on two coincident points of one type, whose kernel matrix
has two equal rows: `arma::inv` throws, the log-determinant term is not finite,
and `Evaluate` raises a fatal error. -/
theorem C12_fatal_errors_witness :
    exampleCoincidentEngine.m_SampleSize = 2 ∧
    degenerateEnv.inv (lMatrix degenerateEnv
      (SetModelParameters degenerateEnv exampleParams exampleCoincidentEngine)) = none ∧
    degenerateEnv.isfinite
      (logDeterminantInForce degenerateEnv exampleParams exampleCoincidentEngine) = false ∧
    raises (Evaluate degenerateEnv exampleParams exampleCoincidentEngine).1 := by
  have hn : degenerateEnv.inv (lMatrix degenerateEnv
      (SetModelParameters degenerateEnv exampleParams exampleCoincidentEngine)) = none := by
    show (if smallDet _ = 0 then none else some _) = none
    rw [if_pos (exampleCoincidentEngine_singular exampleParams)]
  have hl : degenerateEnv.isfinite
      (logDeterminantInForce degenerateEnv exampleParams exampleCoincidentEngine) = false := by
    unfold logDeterminantInForce
    rw [if_pos exampleCoincidentEngine_modified]
    exact degenerateEnv_throws _ hn
  exact ⟨rfl, hn, hl,
    (C12_fatal_errors degenerateEnv exampleParams [] exampleCoincidentEngine
      (degenerateEnv_throws _)).1.2 (Or.inr hl)⟩

/-! ## Evaluation of the rounding -/

theorem roundHalfEven_eq (q : ℚ) (n : Int) (h1 : (n : ℚ) - 1 / 2 < q)
    (h2 : q < (n : ℚ) + 1 / 2) : roundHalfEven q = n := by
  have hf1 : (⌊q⌋ : ℚ) ≤ q := Int.floor_le q
  have hf2 : q < (⌊q⌋ : ℚ) + 1 := Int.lt_floor_add_one q
  unfold roundHalfEven
  by_cases c1 : q - ⌊q⌋ < 1 / 2
  · rw [if_pos c1]
    have a1 : ((n : ℚ) - 1) < (⌊q⌋ : ℚ) := by linarith
    have a2 : (⌊q⌋ : ℚ) < (n : ℚ) + 1 := by linarith
    have b1 : n - 1 < ⌊q⌋ := by exact_mod_cast a1
    have b2 : ⌊q⌋ < n + 1 := by exact_mod_cast a2
    omega
  · rw [if_neg c1]
    have c1b : (1 : ℚ) / 2 ≤ q - ⌊q⌋ := not_lt.mp c1
    have a2 : (⌊q⌋ : ℚ) < (n : ℚ) := by linarith
    have b2 : ⌊q⌋ < n := by exact_mod_cast a2
    have a3 : ((n : ℚ) - 1) < (⌊q⌋ : ℚ) + 1 := by linarith
    have b3 : n - 1 < ⌊q⌋ + 1 := by exact_mod_cast a3
    have hn : n = ⌊q⌋ + 1 := by omega
    have c2 : (1 : ℚ) / 2 < q - ⌊q⌋ := by
      rw [hn] at h1
      push_cast at h1
      linarith
    rw [if_pos c2, hn]

theorem log_two_eq (q : ℚ) (e : Int) (h1 : (2 : ℚ) ^ e ≤ q) (h2 : q < 2 ^ (e + 1)) :
    Int.log 2 q = e := by
  have hq : 0 < q := lt_of_lt_of_le (by positivity) h1
  have a1 : e ≤ Int.log 2 q := by
    rw [← Int.zpow_le_iff_le_log (by norm_num) hq]
    exact_mod_cast h1
  have a2 : Int.log 2 q < e + 1 := by
    rw [← Int.lt_zpow_iff_log_lt (by norm_num) hq]
    exact_mod_cast h2
  omega

/-- The rounding of a positive number, from its exponent `e` and the integer
significand `n` of the nearest number of the format. -/
theorem roundDouble_pos_eq (q r : ℚ) (e n : Int) (h1 : (2 : ℚ) ^ e ≤ q)
    (h2 : q < 2 ^ (e + 1)) (h3 : (2 * (n : ℚ) - 1) * 2 ^ (e - 53) < q)
    (h4 : q < (2 * (n : ℚ) + 1) * 2 ^ (e - 53)) (hr : r = (n : ℚ) * 2 ^ (e - 52)) :
    roundDouble q = r := by
  have hq : 0 < q := lt_of_lt_of_le (by positivity) h1
  have hu : (0 : ℚ) < 2 ^ (e - 52) := by positivity
  have hsplit : (2 : ℚ) ^ (e - 52) = 2 * 2 ^ (e - 53) := by
    rw [show e - 52 = (e - 53) + 1 by ring, zpow_add_one₀ (by norm_num)]
    ring
  unfold roundDouble
  rw [if_neg (ne_of_gt hq), if_neg (not_lt.mpr (le_of_lt hq)), abs_of_pos hq,
    log_two_eq q e h1 h2, one_mul, hr]
  congr 2
  apply roundHalfEven_eq
  · rw [lt_div_iff₀ hu, hsplit]
    linarith
  · rw [div_lt_iff₀ hu, hsplit]
    linarith

theorem roundDouble_zero : roundDouble 0 = 0 := by
  unfold roundDouble
  rw [if_pos rfl]

theorem roundDouble_neg (q : ℚ) : roundDouble (-q) = -roundDouble q := by
  unfold roundDouble
  by_cases h0 : q = 0
  · simp [h0]
  · have h0n : -q ≠ 0 := neg_ne_zero.mpr h0
    rw [if_neg h0, if_neg h0n, abs_neg]
    rcases lt_or_gt_of_ne h0 with h | h
    · have h2 : ¬ (-q < 0) := by linarith
      simp only [h, h2, if_true, if_false]
      ring
    · have h2 : ¬ (q < 0) := by linarith
      have h3 : -q < 0 := by linarith
      simp only [h2, h3, if_true, if_false]
      ring

/-- The square root of the machine, from the integer `N` that `q` is `2 ^ 400`
times smaller than and the integer root `r` of `N`. -/
theorem sqrtDouble_eq (q : ℚ) (N r : Nat) (hq : q * 4 ^ 200 = (N : ℚ)) (h1 : r * r ≤ N)
    (h2 : N < (r + 1) * (r + 1)) :
    sqrtDouble q =
      roundDouble ((((2 * r + (if r * r = N then 0 else 1) : Nat)) : ℚ) / 2 ^ 201) := by
  have hfl : ⌊q * 4 ^ 200⌋.toNat = N := by
    rw [hq]
    simp
  have hs : Nat.sqrt N = r := (Nat.eq_sqrt.mpr ⟨h1, h2⟩).symm
  unfold sqrtDouble
  rw [hfl, hs, hq]
  congr 3
  by_cases h : r * r = N
  · rw [if_pos h, if_pos (by exact_mod_cast h)]
  · rw [if_neg h, if_neg (by exact_mod_cast h)]


/-! ## The distance matrix in floating-point arithmetic -/

theorem foldl_set_update {α : Type} [LinearOrderedField α] (f : Nat → α → α) (x : List α)
    (m : Nat) (hm : m ≤ x.length) :
    (List.range m).foldl (fun workVector j => workVector.set j (f j (workVector.getD j 0))) x =
      (List.range x.length).map (fun j => if j < m then f j (x.getD j 0) else x.getD j 0) := by
  induction m with
  | zero =>
    apply List.ext_getElem
    · simp
    · intro k h1 h2
      have hk : k < x.length := by simpa using h1
      simp [List.getElem?_eq_getElem hk]
  | succ m ih =>
    rw [List.range_succ, List.foldl_append, List.foldl_cons, List.foldl_nil, ih (by omega)]
    apply List.ext_getElem
    · simp
    · intro k h1 h2
      have hk : k < x.length := by simpa using h2
      rw [List.getElem_set]
      have hmx : m < x.length := by omega
      simp only [getD_map_range, List.getElem_map, List.getElem_range, lt_irrefl, if_false,
        hmx, if_true]
      by_cases hkm : m = k
      · subst hkm
        rw [if_pos rfl, if_pos (by omega)]
      · rw [if_neg hkm]
        by_cases hlt : k < m
        · rw [if_pos hlt, if_pos (by omega)]
        · rw [if_neg hlt, if_neg (by omega)]

/-- On a point with `dim` coordinates the loop of `GetTrialVectors` computes, in
floating-point arithmetic, the rounded periodic image. -/
theorem Rounded_trialVector_eq_periodicImage {α : Type} [LinearOrderedField α] (fl : α → α)
    (dim : Nat) (x lb ub : List α) (o : List Int) (hx : x.length = dim) :
    Rounded.trialVector fl dim x lb ub o = Rounded.periodicImage fl x lb ub o := by
  unfold Rounded.trialVector Rounded.periodicImage
  rw [foldl_set_update
    (fun j c => fl (c + fl (((o.getD j 0 : Int) : α) * fl (ub.getD j 0 - lb.getD j 0)))) x dim
    (by omega)]
  apply List.map_congr_left
  intro k hk
  rw [List.mem_range] at hk
  rw [if_pos (by omega)]

/-- The running minimum over the rounded images of a point is a lower bound of
the computed distances from the images to `w`, and is attained at an offset of
the list. -/
theorem Rounded_periodicDistance_isMin {α : Type} [LinearOrderedField α] (fl : α → α)
    (env : Env α) (dim : Nat) (x lb ub w : List α) (hx : x.length = dim) :
    (∀ o ∈ SetNeighborhood dim,
      Rounded.periodicDistance fl env
          ((SetNeighborhood dim).map (Rounded.trialVector fl dim x lb ub)) w
        ≤ Rounded.euclideanDistance fl env (Rounded.periodicImage fl x lb ub o) w) ∧
    (∃ o ∈ SetNeighborhood dim,
      Rounded.periodicDistance fl env
          ((SetNeighborhood dim).map (Rounded.trialVector fl dim x lb ub)) w
        = Rounded.euclideanDistance fl env (Rounded.periodicImage fl x lb ub o) w) := by
  have hlen : (SetNeighborhood dim).length = (3 ^ dim - 1) + 1 := by
    have h := (C5_size_aux dim)
    have hpos : 0 < 3 ^ dim := by positivity
    omega
  have hd : ∀ k (hk : k < (SetNeighborhood dim).length),
      Rounded.norm fl env.sqrt
          (Rounded.vsub fl
            (((SetNeighborhood dim).map (Rounded.trialVector fl dim x lb ub)).getD k []) w) =
        Rounded.euclideanDistance fl env
          (Rounded.periodicImage fl x lb ub ((SetNeighborhood dim)[k])) w := by
    intro k hk
    rw [List.getD_eq_getElem _ _ (by simpa using hk)]
    simp only [List.getElem_map]
    rw [Rounded_trialVector_eq_periodicImage fl dim x lb ub _ hx]
    rfl
  have hfold := periodicDistance_foldl
    (fun k => Rounded.norm fl env.sqrt
      (Rounded.vsub fl
        (((SetNeighborhood dim).map (Rounded.trialVector fl dim x lb ub)).getD k []) w))
    (3 ^ dim - 1)
  have hpd : Rounded.periodicDistance fl env
        ((SetNeighborhood dim).map (Rounded.trialVector fl dim x lb ub)) w =
      (List.range ((3 ^ dim - 1) + 1)).foldl
        (fun workDistance k =>
          if (fun k => Rounded.norm fl env.sqrt
              (Rounded.vsub fl
                (((SetNeighborhood dim).map (Rounded.trialVector fl dim x lb ub)).getD k []) w)) k
              < workDistance ∨ k = 0
          then (fun k => Rounded.norm fl env.sqrt
              (Rounded.vsub fl
                (((SetNeighborhood dim).map (Rounded.trialVector fl dim x lb ub)).getD k []) w)) k
          else workDistance) 0 := by
    unfold Rounded.periodicDistance
    rw [List.length_map, hlen]
  rw [hpd]
  obtain ⟨hle, k0, hk0, heq⟩ := hfold
  constructor
  · intro o ho
    obtain ⟨k, hk, rfl⟩ := List.getElem_of_mem ho
    rw [← hd k hk]
    exact hle k (by omega)
  · refine ⟨(SetNeighborhood dim)[k0], List.getElem_mem _, ?_⟩
    rw [← hd k0 (by omega)]
    exact heq

theorem Rounded_workDistance_SetInputs {α : Type} [LinearOrderedField α] (fl : α → α)
    (env : Env α) (points : Mat α) (labels : List Nat) (lb ub : List α) (s : Engine α)
    (i j : Nat) :
    Rounded.workDistance fl env
      { s with
        m_DomainDimension := points.n_cols
        m_SampleSize := points.n_rows
        m_PointLabels := labels
        m_DomainVolume :=
          (List.range points.n_cols).foldl
            (fun vol i => fl (vol * fl (ub.getD i 0 - lb.getD i 0))) 1
        m_Neighborhood := SetNeighborhood points.n_cols } points lb ub i j =
      if s.m_UsePeriodicDomain then
        Rounded.periodicDistance fl env
          ((SetNeighborhood points.n_cols).map
            (Rounded.trialVector fl points.n_cols (points.row i) lb ub))
          (points.row j)
      else Rounded.euclideanDistance fl env (points.row i) (points.row j) := by
  rfl

/-- The entries of the distance matrix that `SetInputs` leaves in floating-point
arithmetic: the value computed for the pair with the smaller index first, at
both places of the pair. -/
theorem Rounded_SetInputs_elem {α : Type} [LinearOrderedField α] (fl : α → α) (env : Env α)
    (points : Mat α) (labels : List Nat) (lb ub : List α) (s : Engine α) (a b : Nat) :
    (Rounded.SetInputs fl env points labels lb ub s).m_DistanceMatrix.elem a b =
      if a < b ∧ b < points.n_rows then
        (if s.m_UsePeriodicDomain then
          Rounded.periodicDistance fl env
            ((SetNeighborhood points.n_cols).map
              (Rounded.trialVector fl points.n_cols (points.row a) lb ub))
            (points.row b)
        else Rounded.euclideanDistance fl env (points.row a) (points.row b))
      else if b < a ∧ a < points.n_rows then
        (if s.m_UsePeriodicDomain then
          Rounded.periodicDistance fl env
            ((SetNeighborhood points.n_cols).map
              (Rounded.trialVector fl points.n_cols (points.row b) lb ub))
            (points.row a)
        else Rounded.euclideanDistance fl env (points.row b) (points.row a))
      else 0 := by
  unfold Rounded.SetInputs
  simp only []
  rw [fillPairs_elem, Rounded_workDistance_SetInputs, Rounded_workDistance_SetInputs]
  rfl

theorem Rounded_SetInputs_elem_symm {α : Type} [LinearOrderedField α] (fl : α → α)
    (env : Env α) (points : Mat α) (labels : List Nat) (lb ub : List α) (s : Engine α)
    (a b : Nat) :
    (Rounded.SetInputs fl env points labels lb ub s).m_DistanceMatrix.elem a b =
      (Rounded.SetInputs fl env points labels lb ub s).m_DistanceMatrix.elem b a := by
  rw [Rounded_SetInputs_elem, Rounded_SetInputs_elem]
  split_ifs <;> first | rfl | (exfalso; omega)

theorem foldl_add_sq {α : Type} [LinearOrderedField α] (v : List α) (a : α) :
    v.foldl (fun acc c => acc + c * c) a = a + (v.map (fun c => c * c)).sum := by
  induction v generalizing a with
  | nil => simp
  | cons c v ih =>
    rw [List.foldl_cons, ih, List.map_cons, List.sum_cons]
    ring

theorem Rounded_norm_id {α : Type} [LinearOrderedField α] (sqrt : α → α) (v : List α) :
    Rounded.norm (fun t => t) sqrt v = norm sqrt v := by
  unfold Rounded.norm norm
  rw [foldl_add_sq, zero_add]

/-- With the identity as rounding the operation is `SetInputs` in exact
arithmetic. -/
theorem Rounded_SetInputs_id {α : Type} [LinearOrderedField α] (env : Env α)
    (points : Mat α) (labels : List Nat) (lb ub : List α) (s : Engine α) :
    Rounded.SetInputs (fun t => t) env points labels lb ub s =
      SetInputs env points labels lb ub s := by
  have hw : ∀ (t : Engine α), Rounded.workDistance (fun t => t) env t points lb ub =
      workDistance env t points lb ub := by
    intro t
    funext i j
    unfold Rounded.workDistance workDistance Rounded.periodicDistance periodicDistance
    simp only [Rounded_norm_id]
    rfl
  unfold Rounded.SetInputs SetInputs
  simp only [hw]


/-- The rounding of a negative number, from the exponent and the significand of
its magnitude. -/
theorem roundDouble_neg_eq (q r : ℚ) (e n : Int) (h1 : (2 : ℚ) ^ e ≤ -q)
    (h2 : -q < 2 ^ (e + 1)) (h3 : (2 * (n : ℚ) - 1) * 2 ^ (e - 53) < -q)
    (h4 : -q < (2 * (n : ℚ) + 1) * 2 ^ (e - 53)) (hr : -r = (n : ℚ) * 2 ^ (e - 52)) :
    roundDouble q = r := by
  have h := roundDouble_pos_eq (-q) (-r) e n h1 h2 h3 h4 hr
  rw [roundDouble_neg] at h
  exact neg_injective h

/-- The square root of the machine when the integer root is not exact. -/
theorem sqrtDouble_eq_inexact (q : ℚ) (N r : Nat) (hq : q * 4 ^ 200 = (N : ℚ))
    (h1 : r * r ≤ N) (h2 : N < (r + 1) * (r + 1)) (hne : r * r ≠ N) :
    sqrtDouble q = roundDouble ((2 * (r : ℚ) + 1) / 2 ^ 201) := by
  rw [sqrtDouble_eq q N r hq h1 h2, if_neg hne]
  push_cast
  rfl

/-- The computed distance between the image of a point of the line and a second
point, written out operation by operation. -/
theorem Rounded_euclideanDistance_line {α : Type} [LinearOrderedField α] (fl : α → α)
    (env : Env α) (a b l u : α) (k : Int) :
    Rounded.euclideanDistance fl env (Rounded.periodicImage fl [a] [l] [u] [k]) [b] =
      env.sqrt
        (fl (0 + fl (fl (fl (a + fl ((k : α) * fl (u - l))) - b) *
          fl (fl (a + fl ((k : α) * fl (u - l))) - b)))) := by
  rfl

theorem doublePoints_row_zero :
    doublePoints.row 0 = [3602879701896397 / 36028797018963968] := by
  rfl

theorem doublePoints_row_one :
    doublePoints.row 1 = [8106479329266893 / 9007199254740992] := by
  rfl

theorem doubleEnv_sqrt : doubleEnv.sqrt = sqrtDouble := by
  rfl

/-- The computed distance between the image of `0.1` under the offset `-1` and
`0.9`, operation by operation: `1.8`. -/
theorem doubleDistance_0_neg :
    Rounded.euclideanDistance roundDouble doubleEnv
        (Rounded.periodicImage roundDouble (doublePoints.row 0) [0] [1] [-1])
        (doublePoints.row 1) =
      (8106479329266893 / 4503599627370496) := by
  have e1 :
      roundDouble ((1 : ℚ) - 0) =
        (1) := by
    apply roundDouble_pos_eq _ _ (0) 4503599627370496 <;> norm_num
  have e2 :
      roundDouble (((-1 : ℤ) : ℚ) * (1)) =
        (-1) := by
    apply roundDouble_neg_eq _ _ (0) 4503599627370496 <;> norm_num
  have e3 :
      roundDouble ((3602879701896397 / 36028797018963968) + (-1)) =
        (-8106479329266893 / 9007199254740992) := by
    apply roundDouble_neg_eq _ _ (-1) 8106479329266893 <;> norm_num
  have e4 :
      roundDouble ((-8106479329266893 / 9007199254740992) -
        (8106479329266893 / 9007199254740992)) =
        (-8106479329266893 / 4503599627370496) := by
    apply roundDouble_neg_eq _ _ (0) 8106479329266893 <;> norm_num
  have e5 :
      roundDouble ((-8106479329266893 / 4503599627370496) *
        (-8106479329266893 / 4503599627370496)) =
        (1823957849085051 / 562949953421312) := by
    apply roundDouble_pos_eq _ _ (1) 7295831396340204 <;> norm_num
  have e6 :
      roundDouble (0 + (1823957849085051 / 562949953421312)) =
        (1823957849085051 / 562949953421312) := by
    apply roundDouble_pos_eq _ _ (1) 7295831396340204 <;> norm_num
  have e7 :
      sqrtDouble (1823957849085051 / 562949953421312) =
        (8106479329266893 / 4503599627370496) := by
    rw [sqrtDouble_eq_inexact (1823957849085051 / 562949953421312)
      8366489605001584380924845954906921259425261641267549972746933715579167992355886923461541205864000510656779023621866651648
      2892488479666182591125377946611416523424955662936653730655639
      (by norm_num) (by norm_num) (by norm_num) (by norm_num)]
    apply roundDouble_pos_eq _ _ (0) 8106479329266893 <;> norm_num
  rw [doublePoints_row_zero, doublePoints_row_one, Rounded_euclideanDistance_line,
    doubleEnv_sqrt, e1, e2, e3, e4, e5, e6, e7]

/-- The computed distance between the image of `0.1` under the offset `0` and
`0.9`, operation by operation: `0.8`. -/
theorem doubleDistance_0_zero :
    Rounded.euclideanDistance roundDouble doubleEnv
        (Rounded.periodicImage roundDouble (doublePoints.row 0) [0] [1] [0])
        (doublePoints.row 1) =
      (3602879701896397 / 4503599627370496) := by
  have e1 :
      roundDouble ((1 : ℚ) - 0) =
        (1) := by
    apply roundDouble_pos_eq _ _ (0) 4503599627370496 <;> norm_num
  have e2 :
      roundDouble (((0 : ℤ) : ℚ) * (1)) =
        (0) := by
    have h0 : (((0 : ℤ) : ℚ) * (1)) = (0 : ℚ) := by norm_num
    rw [h0, roundDouble_zero]
  have e3 :
      roundDouble ((3602879701896397 / 36028797018963968) + (0)) =
        (3602879701896397 / 36028797018963968) := by
    apply roundDouble_pos_eq _ _ (-4) 7205759403792794 <;> norm_num
  have e4 :
      roundDouble ((3602879701896397 / 36028797018963968) -
        (8106479329266893 / 9007199254740992)) =
        (-3602879701896397 / 4503599627370496) := by
    apply roundDouble_neg_eq _ _ (-1) 7205759403792794 <;> norm_num
  have e5 :
      roundDouble ((-3602879701896397 / 4503599627370496) *
        (-3602879701896397 / 4503599627370496)) =
        (1441151880758559 / 2251799813685248) := by
    apply roundDouble_pos_eq _ _ (-1) 5764607523034236 <;> norm_num
  have e6 :
      roundDouble (0 + (1441151880758559 / 2251799813685248)) =
        (1441151880758559 / 2251799813685248) := by
    apply roundDouble_pos_eq _ _ (-1) 5764607523034236 <;> norm_num
  have e7 :
      sqrtDouble (1441151880758559 / 2251799813685248) =
        (3602879701896397 / 4503599627370496) := by
    rw [sqrtDouble_eq_inexact (1441151880758559 / 2251799813685248)
      1652639921975621818469594508691939225085937049702874759730720471745371801353215878732175678487161341921575465480154513408
      1285550435407192345317742785644413608711592223494300965535743
      (by norm_num) (by norm_num) (by norm_num) (by norm_num)]
    apply roundDouble_pos_eq _ _ (-1) 7205759403792794 <;> norm_num
  rw [doublePoints_row_zero, doublePoints_row_one, Rounded_euclideanDistance_line,
    doubleEnv_sqrt, e1, e2, e3, e4, e5, e6, e7]

/-- The computed distance between the image of `0.1` under the offset `1` and
`0.9`, operation by operation: `0.20000000000000007`. -/
theorem doubleDistance_0_pos :
    Rounded.euclideanDistance roundDouble doubleEnv
        (Rounded.periodicImage roundDouble (doublePoints.row 0) [0] [1] [1])
        (doublePoints.row 1) =
      (1801439850948199 / 9007199254740992) := by
  have e1 :
      roundDouble ((1 : ℚ) - 0) =
        (1) := by
    apply roundDouble_pos_eq _ _ (0) 4503599627370496 <;> norm_num
  have e2 :
      roundDouble (((1 : ℤ) : ℚ) * (1)) =
        (1) := by
    apply roundDouble_pos_eq _ _ (0) 4503599627370496 <;> norm_num
  have e3 :
      roundDouble ((3602879701896397 / 36028797018963968) + (1)) =
        (2476979795053773 / 2251799813685248) := by
    apply roundDouble_pos_eq _ _ (0) 4953959590107546 <;> norm_num
  have e4 :
      roundDouble ((2476979795053773 / 2251799813685248) -
        (8106479329266893 / 9007199254740992)) =
        (1801439850948199 / 9007199254740992) := by
    apply roundDouble_pos_eq _ _ (-3) 7205759403792796 <;> norm_num
  have e5 :
      roundDouble ((1801439850948199 / 9007199254740992) *
        (1801439850948199 / 9007199254740992)) =
        (5764607523034239 / 144115188075855872) := by
    apply roundDouble_pos_eq _ _ (-5) 5764607523034239 <;> norm_num
  have e6 :
      roundDouble (0 + (5764607523034239 / 144115188075855872)) =
        (5764607523034239 / 144115188075855872) := by
    apply roundDouble_pos_eq _ _ (-5) 5764607523034239 <;> norm_num
  have e7 :
      sqrtDouble (5764607523034239 / 144115188075855872) =
        (1801439850948199 / 9007199254740992) := by
    rw [sqrtDouble_eq_inexact (5764607523034239 / 144115188075855872)
      103289995123476417408223469060547254946485799249092347402661963115674575184314415551765888229310273011158305111080435712
      321387608851798169957230190900921178622957236341490357108735
      (by norm_num) (by norm_num) (by norm_num) (by norm_num)]
    apply roundDouble_pos_eq _ _ (-3) 7205759403792796 <;> norm_num
  rw [doublePoints_row_zero, doublePoints_row_one, Rounded_euclideanDistance_line,
    doubleEnv_sqrt, e1, e2, e3, e4, e5, e6, e7]

/-- The computed distance between the image of `0.9` under the offset `-1` and
`0.1`, operation by operation: `0.19999999999999998`. -/
theorem doubleDistance_1_neg :
    Rounded.euclideanDistance roundDouble doubleEnv
        (Rounded.periodicImage roundDouble (doublePoints.row 1) [0] [1] [-1])
        (doublePoints.row 0) =
      (7205759403792793 / 36028797018963968) := by
  have e1 :
      roundDouble ((1 : ℚ) - 0) =
        (1) := by
    apply roundDouble_pos_eq _ _ (0) 4503599627370496 <;> norm_num
  have e2 :
      roundDouble (((-1 : ℤ) : ℚ) * (1)) =
        (-1) := by
    apply roundDouble_neg_eq _ _ (0) 4503599627370496 <;> norm_num
  have e3 :
      roundDouble ((8106479329266893 / 9007199254740992) + (-1)) =
        (-900719925474099 / 9007199254740992) := by
    apply roundDouble_neg_eq _ _ (-4) 7205759403792792 <;> norm_num
  have e4 :
      roundDouble ((-900719925474099 / 9007199254740992) -
        (3602879701896397 / 36028797018963968)) =
        (-7205759403792793 / 36028797018963968) := by
    apply roundDouble_neg_eq _ _ (-3) 7205759403792793 <;> norm_num
  have e5 :
      roundDouble ((-7205759403792793 / 36028797018963968) *
        (-7205759403792793 / 36028797018963968)) =
        (2882303761517117 / 72057594037927936) := by
    apply roundDouble_pos_eq _ _ (-5) 5764607523034234 <;> norm_num
  have e6 :
      roundDouble (0 + (2882303761517117 / 72057594037927936)) =
        (2882303761517117 / 72057594037927936) := by
    apply roundDouble_pos_eq _ _ (-5) 5764607523034234 <;> norm_num
  have e7 :
      sqrtDouble (2882303761517117 / 72057594037927936) =
        (7205759403792793 / 36028797018963968) := by
    rw [sqrtDouble_eq_inexact (2882303761517117 / 72057594037927936)
      103289995123476327818433781948378832648794576511321222536842073729693179184750377000091041022872457776058574246795804672
      321387608851798030577572700084546128622995789274456560500735
      (by norm_num) (by norm_num) (by norm_num) (by norm_num)]
    apply roundDouble_pos_eq _ _ (-3) 7205759403792793 <;> norm_num
  rw [doublePoints_row_zero, doublePoints_row_one, Rounded_euclideanDistance_line,
    doubleEnv_sqrt, e1, e2, e3, e4, e5, e6, e7]

theorem SetNeighborhood_one : SetNeighborhood 1 = [[-1], [0], [1]] := by
  rfl

/-- In the periodic domain `[0, 1]` the loop of `SetInputs`, which replaces the
point `0.1` by its images, finds the distance `0.20000000000000007` to the
point `0.9`. -/
theorem doublePoints_periodicDistance_first :
    Rounded.periodicDistance roundDouble doubleEnv
        ((SetNeighborhood 1).map (Rounded.trialVector roundDouble 1 (doublePoints.row 0) [0] [1]))
        (doublePoints.row 1) =
      1801439850948199 / 9007199254740992 := by
  obtain ⟨hle, o, ho, heq⟩ := Rounded_periodicDistance_isMin roundDouble doubleEnv 1
    (doublePoints.row 0) [0] [1] (doublePoints.row 1) rfl
  have h1 := hle [1] (by rw [SetNeighborhood_one]; simp)
  rw [doubleDistance_0_pos] at h1
  rw [SetNeighborhood_one] at ho
  simp only [List.mem_cons, List.mem_singleton, List.not_mem_nil, or_false] at ho
  rcases ho with rfl | rfl | rfl
  · rw [doubleDistance_0_neg] at heq
    rw [heq] at h1
    norm_num at h1
  · rw [doubleDistance_0_zero] at heq
    rw [heq] at h1
    norm_num at h1
  · rw [heq, doubleDistance_0_pos]

/-- Both entries of the pair in the distance matrix of the two points hold the
value found from the images of the first point. -/
theorem doublePoints_entry (a b : Nat) (hab : a ≠ b) (ha : a < 2) (hb : b < 2) :
    (Rounded.SetInputs roundDouble doubleEnv doublePoints [1, 1] [0] [1]
      (SetUsePeriodicDomain true exampleEngine)).m_DistanceMatrix.elem a b =
      1801439850948199 / 9007199254740992 := by
  rw [Rounded_SetInputs_elem]
  have hp : (SetUsePeriodicDomain true exampleEngine).m_UsePeriodicDomain = true := rfl
  have hn : doublePoints.n_rows = 2 := rfl
  have hc : doublePoints.n_cols = 1 := rfl
  simp only [hp, if_true, hn, hc]
  interval_cases a <;> interval_cases b
  · exact absurd rfl hab
  · simp only [Nat.lt_add_one, Nat.one_lt_ofNat, and_self, if_true]
    exact doublePoints_periodicDistance_first
  · rw [if_neg (by norm_num), if_pos (by norm_num)]
    exact doublePoints_periodicDistance_first
  · exact absurd rfl hab


/-! ## C3 -/

/-- C3, as stated, fails for a pair `(i, j)` with `i > j`: the entry `(1, 0)` of
the distance matrix of the points `0.1` and `0.9` of the periodic interval
`[0, 1]` is the value `0.20000000000000007` copied from the pair `(0, 1)`, and
the image of the point `0.9` under the offset `-1` lies at the smaller distance
`0.19999999999999998` from the point `0.1`, whether the distance is computed by
the machine or taken exactly; the entry is not the minimum over the images of
the point `1`. -/
theorem C3_counterexample :
    (Rounded.SetInputs roundDouble doubleEnv doublePoints [1, 1] [0] [1]
      (SetUsePeriodicDomain true exampleEngine)).m_DistanceMatrix.elem 1 0 =
      1801439850948199 / 9007199254740992 ∧
    Rounded.euclideanDistance roundDouble doubleEnv
        (Rounded.periodicImage roundDouble (doublePoints.row 1) [0] [1] [-1])
        (doublePoints.row 0) =
      7205759403792793 / 36028797018963968 ∧
    ¬ (∀ o ∈ SetNeighborhood doublePoints.n_cols,
      (Rounded.SetInputs roundDouble doubleEnv doublePoints [1, 1] [0] [1]
        (SetUsePeriodicDomain true exampleEngine)).m_DistanceMatrix.elem 1 0 ≤
        Rounded.euclideanDistance roundDouble doubleEnv
          (Rounded.periodicImage roundDouble (doublePoints.row 1) [0] [1] o)
          (doublePoints.row 0)) ∧
    |doublePoints.elem 1 0 + ((-1 : Int) : ℚ) * (1 - 0) - doublePoints.elem 0 0| <
      (Rounded.SetInputs roundDouble doubleEnv doublePoints [1, 1] [0] [1]
        (SetUsePeriodicDomain true exampleEngine)).m_DistanceMatrix.elem 1 0 := by
  refine ⟨doublePoints_entry 1 0 (by norm_num) (by norm_num) (by norm_num),
    doubleDistance_1_neg, ?_, ?_⟩
  · intro h
    have h1 := h [-1] (by
      show [-1] ∈ SetNeighborhood 1
      rw [SetNeighborhood_one]
      simp)
    rw [doublePoints_entry 1 0 (by norm_num) (by norm_num) (by norm_num),
      doubleDistance_1_neg] at h1
    norm_num at h1
  · rw [doublePoints_entry 1 0 (by norm_num) (by norm_num) (by norm_num)]
    have e1 : doublePoints.elem 1 0 = 8106479329266893 / 9007199254740992 := rfl
    have e0 : doublePoints.elem 0 0 = 3602879701896397 / 36028797018963968 := rfl
    rw [e1, e0, abs_lt]
    constructor <;> norm_num

/-- C3, amended: in periodic mode, whatever the rounding of the arithmetic, for
`i < j` the entry `(i, j)` of the distance matrix is the minimum, over the
offsets `o` of the periodic neighbourhood, of the computed distance between the
image of point `i` under `o` and point `j`, and the entry `(j, i)` is a copy of
it: the images are always those of the point with the smaller index. -/
theorem C3_periodic_entry_minimum {α : Type} [LinearOrderedField α] (fl : α → α)
    (env : Env α) (points : Mat α) (labels : List Nat) (lb ub : List α) (s : Engine α)
    (i j : Nat) (hij : i < j) (hj : j < points.n_rows) :
    (∀ o ∈ SetNeighborhood points.n_cols,
      (Rounded.SetInputs fl env points labels lb ub
        (SetUsePeriodicDomain true s)).m_DistanceMatrix.elem i j ≤
        Rounded.euclideanDistance fl env (Rounded.periodicImage fl (points.row i) lb ub o)
          (points.row j)) ∧
    (∃ o ∈ SetNeighborhood points.n_cols,
      (Rounded.SetInputs fl env points labels lb ub
        (SetUsePeriodicDomain true s)).m_DistanceMatrix.elem i j =
        Rounded.euclideanDistance fl env (Rounded.periodicImage fl (points.row i) lb ub o)
          (points.row j)) ∧
    (Rounded.SetInputs fl env points labels lb ub
      (SetUsePeriodicDomain true s)).m_DistanceMatrix.elem j i =
      (Rounded.SetInputs fl env points labels lb ub
        (SetUsePeriodicDomain true s)).m_DistanceMatrix.elem i j := by
  have hp : (SetUsePeriodicDomain true s).m_UsePeriodicDomain = true := rfl
  have he : (Rounded.SetInputs fl env points labels lb ub
      (SetUsePeriodicDomain true s)).m_DistanceMatrix.elem i j =
      Rounded.periodicDistance fl env
        ((SetNeighborhood points.n_cols).map
          (Rounded.trialVector fl points.n_cols (points.row i) lb ub))
        (points.row j) := by
    rw [Rounded_SetInputs_elem, if_pos ⟨hij, hj⟩, if_pos hp]
  obtain ⟨hle, hex⟩ := Rounded_periodicDistance_isMin fl env points.n_cols (points.row i) lb ub
    (points.row j) (Mat.row_length _ _)
  refine ⟨?_, ?_, Rounded_SetInputs_elem_symm fl env points labels lb ub _ j i⟩
  · intro o ho
    rw [he]
    exact hle o ho
  · obtain ⟨o, ho, h⟩ := hex
    exact ⟨o, ho, by rw [he]; exact h⟩

/-- An instance of C3 in the arithmetic of the machine: the points `0.1` and
`0.9` of the periodic interval `[0, 1]`, with `i = 0` and `j = 1`. -/
theorem C3_periodic_entry_minimum_witness :
    (0 : Nat) < 1 ∧ 1 < doublePoints.n_rows ∧
    (∃ o ∈ SetNeighborhood doublePoints.n_cols,
      (Rounded.SetInputs roundDouble doubleEnv doublePoints [1, 1] [0] [1]
        (SetUsePeriodicDomain true exampleEngine)).m_DistanceMatrix.elem 0 1 =
        Rounded.euclideanDistance roundDouble doubleEnv
          (Rounded.periodicImage roundDouble (doublePoints.row 0) [0] [1] o)
          (doublePoints.row 1)) ∧
    (Rounded.SetInputs roundDouble doubleEnv doublePoints [1, 1] [0] [1]
      (SetUsePeriodicDomain true exampleEngine)).m_DistanceMatrix.elem 1 0 =
      (Rounded.SetInputs roundDouble doubleEnv doublePoints [1, 1] [0] [1]
        (SetUsePeriodicDomain true exampleEngine)).m_DistanceMatrix.elem 0 1 :=
  ⟨by decide, by decide,
    (C3_periodic_entry_minimum roundDouble doubleEnv doublePoints [1, 1] [0] [1] exampleEngine
      0 1 (by decide) (by decide)).2.1,
    (C3_periodic_entry_minimum roundDouble doubleEnv doublePoints [1, 1] [0] [1] exampleEngine
      0 1 (by decide) (by decide)).2.2⟩

/-! ## Reordering of the points in floating-point arithmetic -/

end Mediator
